import Mathlib

/-!
The kefu-flask client: permission cache, virtual scroll and history paging

A shallow embedding of the browser-side modules of the customer-service system
(`static/js/service_permission.js`, `static/js/utils/virtual_scroll.js`,
`static/js/admin/chat_history.js`, `static/js/visitor_chat.js`,
`static/js/visitor_assignment.js`) together with the properties established about them.

Conventions of the embedding:

* object fields become structure fields, methods become functions from the old object to
  the new one;
* an `await`ed request is an explicit argument carrying what the request produced;
* clock readings (`Date.now()`) are explicit `Int` arguments, in milliseconds;
* pixel quantities of the DOM (`scrollTop`, `clientHeight`, `scrollHeight`) are natural
  numbers, list indices are integers;
* timers are handles the browser hands out in increasing order, starting at 1;
* strings are lists of characters; integers kept as text go through `parseInt` and
  `toString`, with `NaN` as a missing value.
-/

/-! ## JavaScript primitives used by the sources -/

namespace JS

/-- Names every array inherits from `Array.prototype` and `Object.prototype`; together with
the indices and `length` they are the keys for which `key in array` holds. -/
def arrayPrototypeKeys : List String :=
  ["constructor", "at", "concat", "copyWithin", "fill", "find", "findIndex", "findLast",
   "findLastIndex", "lastIndexOf", "pop", "push", "reverse", "shift", "unshift", "slice",
   "sort", "splice", "includes", "indexOf", "join", "keys", "entries", "values", "forEach",
   "filter", "flat", "flatMap", "map", "every", "some", "reduce", "reduceRight",
   "toLocaleString", "toString", "toReversed", "toSorted", "toSpliced", "with",
   "hasOwnProperty", "isPrototypeOf", "propertyIsEnumerable", "valueOf", "__proto__",
   "__defineGetter__", "__defineSetter__", "__lookupGetter__", "__lookupSetter__"]

/-- Decimal spelling of an array index, the form in which an index is a property key. -/
def indexKey (i : Nat) : String := toString i

/-- The operator `key in arr` for an array `arr`: true when `key` names an own property of
the array (an index below its length, or `length`) or an inherited one. The elements of the
array play no part. -/
def inArray {α : Type} (key : String) (arr : List α) : Bool :=
  (List.range arr.length).any (fun i => indexKey i == key)
    || key == "length"
    || arrayPrototypeKeys.contains key

/-- Conversion of a nullable string to a property key: `null` becomes the key `"null"`. -/
def toPropertyKey : Option String → String
  | none => "null"
  | some s => s

/-- Truthiness of a nullable string: `null`, `undefined` and the empty string are falsy. -/
def truthy : Option String → Bool
  | none => false
  | some s => s != ""

/-- The value of `a || b` for a nullable string `a` and a string `b`. -/
def orElse (a : Option String) (b : String) : String :=
  match a with
  | some s => if s != "" then s else b
  | none => b

end JS

/-! ## `service_permission.js` -/

namespace ServicePermission

/-- Public information about the agent a visitor is assigned to, as sent by the server. -/
structure AssignedService where
  nick_name : String
  deriving DecidableEq, Repr

/-- The permission object exchanged with `/api/assignment/check-reply-permission`. -/
structure Permission where
  can_reply : Bool
  reason : Option String
  assigned_service : Option AssignedService
  deriving DecidableEq, Repr

/-- An entry of `replyPermissionCache`: the data and the clock reading at which it was stored. -/
structure CacheEntry where
  data : Permission
  timestamp : Int
  deriving DecidableEq, Repr

/-- A JavaScript `Map` keyed by strings, kept as an association list with unique keys. -/
abbrev JSMap (β : Type) := List (String × β)

/-- The method `Map.prototype.get`. -/
def JSMap.get {β : Type} (m : JSMap β) (k : String) : Option β :=
  (m.find? (fun p => p.1 == k)).map (fun p => p.2)

/-- The method `Map.prototype.has`. -/
def JSMap.has {β : Type} (m : JSMap β) (k : String) : Bool :=
  (m.get k).isSome

/-- The method `Map.prototype.set`: the value of an existing key is replaced in place, a new
key is added at the end. -/
def JSMap.set {β : Type} : JSMap β → String → β → JSMap β
  | [], k, v => [(k, v)]
  | (k', v') :: rest, k, v =>
    if k' == k then (k, v) :: rest else (k', v') :: JSMap.set rest k v

/-- The fields of a `ServicePermission` object. -/
structure State where
  currentServiceId : Option String
  currentLevel : Option String
  selectedVisitorId : Option String
  replyPermissionCache : JSMap CacheEntry
  deriving DecidableEq, Repr

/-- The constructor: every field `null`, the cache empty. -/
def constructor : State :=
  { currentServiceId := none
    currentLevel := none
    selectedVisitorId := none
    replyPermissionCache := [] }

/-- The method `init(serviceId, level)`. -/
def init (s : State) (serviceId : Option String) (level : Option String) : State :=
  { s with currentServiceId := serviceId, currentLevel := level }

/-- What the permission request produced: a parsed envelope `{code, msg, data}`, or an
exception thrown by `fetch` or by `response.json()`. -/
inductive FetchOutcome where
  | response (code : Int) (msg : String) (data : Permission)
  | thrown
  deriving DecidableEq, Repr

/-- The outcome of one call of `checkReplyPermission`: the value the promise resolves to,
the object afterwards, and whether the request was sent. -/
structure CheckResult where
  value : Permission
  state : State
  contacted : Bool
  deriving DecidableEq, Repr

/-- The result returned when the server answers with a non-zero code. -/
def checkFailed : Permission :=
  { can_reply := false, reason := some "权限检查失败", assigned_service := none }

/-- The result returned when the request throws. -/
def networkError : Permission :=
  { can_reply := false, reason := some "网络错误", assigned_service := none }

/-- The part of `checkReplyPermission` after the cache test: the request is sent and its
outcome handled. `storeNow` is the clock reading taken when the result is cached. -/
def requestPermission (s : State) (visitorId : String) (fetched : FetchOutcome)
    (storeNow : Int) : CheckResult :=
  match fetched with
  | .response code _ data =>
    if code = 0 then
      { value := data
        state := { s with replyPermissionCache :=
          s.replyPermissionCache.set visitorId { data := data, timestamp := storeNow } }
        contacted := true }
    else
      { value := checkFailed, state := s, contacted := true }
  | .thrown => { value := networkError, state := s, contacted := true }

/-- The method `checkReplyPermission(visitorId)`. `now` is the clock reading of the cache
test, `fetched` what the request produces if it is sent, `storeNow` the clock reading taken
when a successful answer is cached. -/
def checkReplyPermission (s : State) (visitorId : String) (now : Int)
    (fetched : FetchOutcome) (storeNow : Int) : CheckResult :=
  if s.replyPermissionCache.has visitorId then
    match s.replyPermissionCache.get visitorId with
    | some cached =>
      if now - cached.timestamp < 5000 then
        { value := cached.data, state := s, contacted := false }
      else requestPermission s visitorId fetched storeNow
    | none => requestPermission s visitorId fetched storeNow
  else requestPermission s visitorId fetched storeNow

/-- The method `isAdmin()`: `this.currentLevel in ['super_manager', 'manager']`. -/
def isAdmin (s : State) : Bool :=
  JS.inArray (JS.toPropertyKey s.currentLevel) ["super_manager", "manager"]

/-- The parts of the page that `updateChatUI` touches. An element that is missing from the
page is `none`. -/
structure ChatUI where
  inputContainerDisabled : Option Bool
  textareaDisabled : Option Bool
  sendBtnDisabled : Option Bool
  warningText : Option String
  warningShown : Option Bool
  deriving DecidableEq, Repr

/-- The text placed in the permission warning: the reason, or a default when there is none,
followed by the assignee's nickname when the permission names one. -/
def warningMessage (permission : Permission) : String :=
  let reason := JS.orElse permission.reason "无权限回复该访客"
  let assignedInfo :=
    match permission.assigned_service with
    | some a => "（当前由 " ++ a.nick_name ++ " 接待）"
    | none => ""
  reason ++ assignedInfo

/-- The method `updateChatUI(visitorId, permission)`. The textarea and the send button are
looked up inside the input container, so they are untouched when the container is missing. -/
def updateChatUI (ui : ChatUI) (permission : Permission) : ChatUI :=
  if !permission.can_reply then
    { inputContainerDisabled := ui.inputContainerDisabled.map (fun _ => true)
      textareaDisabled :=
        if ui.inputContainerDisabled.isSome then ui.textareaDisabled.map (fun _ => true)
        else ui.textareaDisabled
      sendBtnDisabled :=
        if ui.inputContainerDisabled.isSome then ui.sendBtnDisabled.map (fun _ => true)
        else ui.sendBtnDisabled
      warningText :=
        if ui.warningShown.isSome then some (warningMessage permission) else ui.warningText
      warningShown := ui.warningShown.map (fun _ => true) }
  else
    { inputContainerDisabled := ui.inputContainerDisabled.map (fun _ => false)
      textareaDisabled :=
        if ui.inputContainerDisabled.isSome then ui.textareaDisabled.map (fun _ => false)
        else ui.textareaDisabled
      sendBtnDisabled :=
        if ui.inputContainerDisabled.isSome then ui.sendBtnDisabled.map (fun _ => false)
        else ui.sendBtnDisabled
      warningText := ui.warningText
      warningShown := ui.warningShown.map (fun _ => false) }

/-- Capability level of an agent. -/
inductive Level where
  | service
  | manager
  | super_manager
  deriving DecidableEq, Repr

/-- Modelled from the spec: the server-side Permission Gate `canReply(agentId, visitorId)`
answering `check-reply-permission`; only its client is among the sources. The rule order is
that of section 4.3, first match: (a) manager or super_manager capability gives true;
(b) `session.assigned_agent_id == agentId` gives true; (c) otherwise false, with a reason and
the current assignee's public info. `level` is the capability of agent `agentId`,
`assigned_agent_id` the nullable field of the visitor's session, `publicInfo` the lookup of
an agent's public info and `denyReason` the reason text. -/
def canReply (level : Level) (agentId : Nat) (assigned_agent_id : Option Nat)
    (publicInfo : Nat → AssignedService) (denyReason : String) : Permission :=
  if level = Level.manager ∨ level = Level.super_manager then
    { can_reply := true, reason := none, assigned_service := none }
  else if assigned_agent_id = some agentId then
    { can_reply := true, reason := none, assigned_service := none }
  else
    { can_reply := false
      reason := some denyReason
      assigned_service := assigned_agent_id.map publicInfo }

end ServicePermission

/-! ## `utils/virtual_scroll.js`: class `VirtualScroll` -/

namespace VirtualScroll

/-- The value of `Math.floor(a / b)` for pixel counts `a` and `b`, `b` positive. -/
def floorDiv (a b : Nat) : Int := ((a / b : Nat) : Int)

/-- The value of `Math.ceil(a / b)` for pixel counts `a` and `b`, `b` positive. -/
def ceilDiv (a b : Nat) : Int := (((a + (b - 1)) / b : Nat) : Int)

/-- An element produced by `_render`: the index it was rendered for, the item read from
`data` at that index, and the `top` offset it is positioned at, in pixels. -/
structure Rendered (α : Type) where
  index : Int
  item : Option α
  top : Int
  deriving DecidableEq, Repr

/-- The constructor's `options` object. A missing option is `none`. -/
structure Options (α : Type) where
  data : Option (List α)
  itemHeight : Option Nat
  bufferSize : Option Int

/-- The fields of a `VirtualScroll` object together with the part of the DOM it reads and
writes: the scroll offset and client height of `viewport`, the `style.height` of `content`
and the children of `content`. -/
structure State (α : Type) where
  data : List α
  itemHeight : Nat
  bufferSize : Int
  scrollTop : Nat
  containerHeight : Nat
  startIndex : Int
  endIndex : Int
  visibleItems : List (Rendered α)
  viewportScrollTop : Nat
  viewportClientHeight : Nat
  contentStyleHeight : Nat
  contentChildren : List (Rendered α)
  deriving DecidableEq, Repr

variable {α : Type}

/-- The property `content.scrollHeight`. The content box has the height set in its style but,
with `min-height: 100%`, never less than the viewport; rendered elements lie inside it. -/
def contentScrollHeight (s : State α) : Nat :=
  max s.contentStyleHeight s.viewportClientHeight

/-- The largest scroll offset the viewport can take: the height of its content beyond its
own client height. -/
def maxScrollTop (s : State α) : Nat :=
  contentScrollHeight s - s.viewportClientHeight

/-- Assignment to `viewport.scrollTop`: the browser clamps the value to the scrollable
range. -/
def setViewportScrollTop (s : State α) (value : Int) : State α :=
  { s with viewportScrollTop := min (max value 0).toNat (maxScrollTop s) }

/-- The method `_updateContentHeight()`: the content takes the height of all items. A scroll
offset beyond the new scrollable range is clamped by the browser. -/
def _updateContentHeight (s : State α) : State α :=
  let s1 := { s with contentStyleHeight := s.data.length * s.itemHeight }
  { s1 with viewportScrollTop := min s1.viewportScrollTop (maxScrollTop s1) }

/-- The method `_updateVisibleRange()`. -/
def _updateVisibleRange (s : State α) : State α :=
  let visibleCount := ceilDiv s.containerHeight s.itemHeight
  let startIndex := max 0 (floorDiv s.scrollTop s.itemHeight - s.bufferSize)
  let endIndex := min (s.data.length : Int) (startIndex + visibleCount + s.bufferSize * 2)
  { s with startIndex := startIndex, endIndex := endIndex }

/-- The elements created by the loop of `_render`, one for each `i` with
`startIndex <= i < endIndex`, in that order. -/
def renderedElements (s : State α) : List (Rendered α) :=
  (List.range (s.endIndex - s.startIndex).toNat).map fun (j : Nat) =>
    let i : Int := s.startIndex + (j : Int)
    { index := i
      item := if 0 ≤ i then s.data.get? i.toNat else none
      top := i * (s.itemHeight : Int) }

/-- The method `_render()`: the content is emptied and refilled with the rendered range. -/
def _render (s : State α) : State α :=
  let children := renderedElements s
  { s with contentChildren := children, visibleItems := children }

/-- The method `_init()`. -/
def _init (s : State α) : State α :=
  _render (_updateVisibleRange (_updateContentHeight
    { s with containerHeight := s.viewportClientHeight }))

/-- The constructor. `clientHeight` is the height the browser lays the new viewport out
with; a new viewport is scrolled to the top. A missing or zero `itemHeight` becomes 80, a
missing or zero `bufferSize` becomes 5. -/
def constructor (options : Options α) (clientHeight : Nat) : State α :=
  _init
    { data := options.data.getD []
      itemHeight := match options.itemHeight with
        | some h => if h = 0 then 80 else h
        | none => 80
      bufferSize := match options.bufferSize with
        | some b => if b = 0 then 5 else b
        | none => 5
      scrollTop := 0
      containerHeight := 0
      startIndex := 0
      endIndex := 0
      visibleItems := []
      viewportScrollTop := 0
      viewportClientHeight := clientHeight
      contentStyleHeight := 0
      contentChildren := [] }

/-- The method `_handleScroll()`, run by the browser when the viewport has scrolled. -/
def _handleScroll (s : State α) : State α :=
  _render (_updateVisibleRange { s with scrollTop := s.viewportScrollTop })

/-- The method `_handleResize()`. -/
def _handleResize (s : State α) : State α :=
  _render (_updateVisibleRange { s with containerHeight := s.viewportClientHeight })

/-- The method `updateData(newData)`. -/
def updateData (s : State α) (newData : List α) : State α :=
  _render (_updateVisibleRange (_updateContentHeight { s with data := newData }))

/-- The method `appendData(items)` for an array `items`. -/
def appendData (s : State α) (items : List α) : State α :=
  _render (_updateVisibleRange (_updateContentHeight { s with data := s.data ++ items }))

/-- The method `prependData(items)`. -/
def prependData (s : State α) (items : List α) : State α :=
  let oldScrollHeight := contentScrollHeight s
  let s1 := _updateContentHeight { s with data := items ++ s.data }
  let newScrollHeight := contentScrollHeight s1
  let offset : Int := (newScrollHeight : Int) - (oldScrollHeight : Int)
  let s2 := setViewportScrollTop s1 ((s1.scrollTop : Int) + offset)
  _render (_updateVisibleRange s2)

/-- A user scroll of the viewport to `offset` (clamped to the scrollable range), which the
browser reports through the scroll listener. -/
def userScroll (s : State α) (offset : Nat) : State α :=
  _handleScroll (setViewportScrollTop s offset)

/-- The slot of item `i`, `[i * itemHeight, (i + 1) * itemHeight)`, overlaps the viewport
`[scrollTop, scrollTop + containerHeight)`. -/
def slotVisible (itemHeight scrollTop containerHeight : Nat) (i : Nat) : Prop :=
  i * itemHeight < scrollTop + containerHeight ∧ scrollTop < (i + 1) * itemHeight

instance (itemHeight scrollTop containerHeight i : Nat) :
    Decidable (slotVisible itemHeight scrollTop containerHeight i) := by
  unfold slotVisible; exact inferInstance

/-- The relations the object and its DOM keep between calls: the content is as tall as all
items together, and the viewport's scroll offset lies in its scrollable range. -/
def Consistent (s : State α) : Prop :=
  s.contentStyleHeight = s.data.length * s.itemHeight ∧
  s.viewportScrollTop ≤ maxScrollTop s

/-- A run of `prependData` calls, one for each batch in turn, the scroll listener running
after each call as it does once the browser has reported the new offset. -/
def prependAll (s : State α) (batches : List (List α)) : State α :=
  batches.foldl (fun st items => _handleScroll (prependData st items)) s

end VirtualScroll

/-! ## A scrolling container element -/

namespace Dom

/-- A scrolling container: its child nodes from top to bottom, its scroll offset and its
client height. Each node is laid out below the previous one. -/
structure Container (ν : Type) where
  children : List ν
  scrollTop : Nat
  clientHeight : Nat
  deriving DecidableEq, Repr

variable {ν : Type}

/-- Total height of a list of nodes under the layout `height`. -/
def contentHeight (height : ν → Nat) (nodes : List ν) : Nat :=
  (nodes.map height).sum

/-- The property `scrollHeight`: the height of the content, at least the client height. -/
def Container.scrollHeight (height : ν → Nat) (c : Container ν) : Nat :=
  max (contentHeight height c.children) c.clientHeight

/-- The largest scroll offset of the container. -/
def Container.maxScrollTop (height : ν → Nat) (c : Container ν) : Nat :=
  c.scrollHeight height - c.clientHeight

/-- Assignment to `scrollTop`: the browser clamps the value to the scrollable range. -/
def Container.setScrollTop (height : ν → Nat) (c : Container ν) (value : Int) :
    Container ν :=
  { c with scrollTop := min (max value 0).toNat (c.maxScrollTop height) }

/-- Replacement of the children. The scroll offset is kept, clamped to the new range. -/
def Container.withChildren (height : ν → Nat) (c : Container ν) (children : List ν) :
    Container ν :=
  let c1 := { c with children := children }
  { c1 with scrollTop := min c1.scrollTop (c1.maxScrollTop height) }

/-- The call `container.insertBefore(node, container.firstChild)`: the node becomes the first
child; a node that is already a child is moved. -/
def Container.insertFirst [DecidableEq ν] (height : ν → Nat) (c : Container ν) (node : ν) :
    Container ν :=
  c.withChildren height (node :: c.children.erase node)

/-- The call `container.appendChild(node)`: the node becomes the last child; a node that is
already a child is moved. -/
def Container.appendChild [DecidableEq ν] (height : ν → Nat) (c : Container ν) (node : ν) :
    Container ν :=
  c.withChildren height (c.children.erase node ++ [node])

end Dom

/-! ## `utils/virtual_scroll.js`: class `MessageVirtualScroll` -/

namespace MessageVirtualScroll

/-- A message element: its identity and the height it is laid out with. -/
structure Elem where
  id : Nat
  height : Nat
  deriving DecidableEq, Repr

/-- The field `renderedRange`. -/
structure Range where
  start : Int
  «end» : Int
  deriving DecidableEq, Repr

/-- The fields of a `MessageVirtualScroll` object; `listening` records that the scroll
listener has been added to the container. -/
structure State where
  container : Dom.Container Elem
  threshold : Int
  chunkSize : Int
  messages : List Elem
  renderedRange : Range
  isEnabled : Bool
  listening : Bool
  deriving DecidableEq, Repr

/-- The constructor, with its defaults `threshold = 100` and `chunkSize = 50` written out by
the caller. -/
def constructor (container : Dom.Container Elem) (threshold : Int) (chunkSize : Int) :
    State :=
  { container := container
    threshold := threshold
    chunkSize := chunkSize
    messages := []
    renderedRange := { start := 0, «end» := 0 }
    isEnabled := false
    listening := false }

/-- The indices `i` with `lo <= i < hi`, in ascending order: the values a counting loop
`for (let i = lo; i < hi; i++)` runs through. -/
def loopIndices (lo hi : Int) : List Int :=
  (List.range (hi - lo).toNat).map (fun (j : Nat) => lo + (j : Int))

/-- The element `messages[i]`, when `i` is an index of the array. -/
def messageAt (messages : List Elem) (i : Int) : Option Elem :=
  if 0 ≤ i then messages.get? i.toNat else none

/-- The method `_loadMore()`. The loop inserts `messages[i]` before the first child for each
`i` from `newStart` up to the old `renderedRange.start`; the indices it visits are indices of
`messages` whenever `renderedRange.start <= messages.length`. -/
def _loadMore (s : State) : State :=
  let oldScrollHeight := s.container.scrollHeight Elem.height
  let newStart := max 0 (s.renderedRange.start - s.chunkSize)
  let container := (loopIndices newStart s.renderedRange.start).foldl
    (fun c i => match messageAt s.messages i with
      | some e => c.insertFirst Elem.height e
      | none => c)
    s.container
  let newScrollHeight := container.scrollHeight Elem.height
  { s with
    container := container.setScrollTop Elem.height
      ((newScrollHeight : Int) - (oldScrollHeight : Int))
    renderedRange := { s.renderedRange with start := newStart } }

/-- The method `_handleScroll()`. -/
def _handleScroll (s : State) : State :=
  if s.container.scrollTop < 100 ∧ s.renderedRange.start > 0 then _loadMore s else s

/-- The method `_enableVirtualScroll()`. -/
def _enableVirtualScroll (s : State) : State :=
  { s with isEnabled := true, listening := true }

/-- The method `_renderLatest()`: the container is emptied, the last `chunkSize` messages are
appended and the container is scrolled to the bottom. -/
def _renderLatest (s : State) : State :=
  let start := max 0 ((s.messages.length : Int) - s.chunkSize)
  let «end» : Int := s.messages.length
  let emptied := s.container.withChildren Elem.height []
  let container := (loopIndices start «end»).foldl
    (fun c i => match messageAt s.messages i with
      | some e => c.appendChild Elem.height e
      | none => c)
    emptied
  { s with
    container := container.setScrollTop Elem.height (container.scrollHeight Elem.height)
    renderedRange := { start := start, «end» := «end» } }

/-- The method `addMessage(messageElement)`. -/
def addMessage (s : State) (messageElement : Elem) : State :=
  let s1 := { s with messages := s.messages ++ [messageElement] }
  let s2 :=
    if (s1.messages.length : Int) > s1.threshold ∧ !s1.isEnabled then _enableVirtualScroll s1
    else s1
  if !s2.isEnabled then
    { s2 with container := s2.container.appendChild Elem.height messageElement }
  else _renderLatest s2

/-- The method `getMessageCount()`. -/
def getMessageCount (s : State) : Nat := s.messages.length

/-- The method `clear()`. -/
def clear (s : State) : State :=
  { s with
    messages := []
    renderedRange := { start := 0, «end» := 0 }
    container := s.container.withChildren Elem.height [] }

/-- A user scroll of the container to `offset`, reported through the scroll listener when
it has been added. -/
def userScroll (s : State) (offset : Nat) : State :=
  let s1 := { s with container := s.container.setScrollTop Elem.height offset }
  if s1.listening then _handleScroll s1 else s1

end MessageVirtualScroll

/-! ## `admin/chat_history.js`: the session-detail view -/

namespace ChatHistory

/-- A stored message as the history endpoint returns it. -/
structure Message where
  id : Nat
  timestamp : String
  direction : String
  service_name : Option String
  content : String
  deriving DecidableEq, Repr

/-- The `data` member of a page of session messages. -/
structure PageData where
  total_pages : Int
  total : Int
  messages : List Message
  deriving DecidableEq, Repr

/-- The envelope `{code, msg, data}` of one page request. -/
structure PageResult where
  code : Int
  msg : String
  data : PageData
  deriving DecidableEq, Repr

/-- The history endpoint as the client sees it: for a page number, the parsed envelope, or
`none` when the request throws. -/
abbrev Fetch := Int → Option PageResult

/-- A child node of the `detailMessages` container. -/
inductive DetailNode where
  | dateSeparator (timestamp : String)
  | messageItem (msg : Message)
  | loadingIndicator (failed : Bool)
  deriving DecidableEq, Repr

/-- The function `formatDateOnly(timestamp)`: `null` for a missing timestamp, otherwise the
calendar date `dateOf timestamp` it falls on. -/
def formatDateOnly (dateOf : String → String) (timestamp : String) : Option String :=
  if timestamp = "" then none else some (dateOf timestamp)

/-- The `forEach` loop shared by `renderMessagesToTop` and `renderMessagesBatch`: for each
message a date separator when its date differs from the last one seen, then the message
item. Building an item from a message object does not throw, so no message is skipped. -/
def renderItems (dateOf : String → String) : Option String → List Message → List DetailNode
  | _, [] => []
  | lastDate, msg :: rest =>
    let currentDate := formatDateOnly dateOf msg.timestamp
    if JS.truthy currentDate ∧ currentDate ≠ lastDate then
      DetailNode.dateSeparator msg.timestamp :: DetailNode.messageItem msg ::
        renderItems dateOf currentDate rest
    else
      DetailNode.messageItem msg :: renderItems dateOf lastDate rest

/-- The elements `container.querySelectorAll('.message-item')` selects, as their messages. -/
def messageItems (nodes : List DetailNode) : List Message :=
  nodes.filterMap fun n =>
    match n with
    | DetailNode.messageItem msg => some msg
    | _ => none

/-- The date a renderer starts from: that of the given existing message item, when there is
one and it has a timestamp. -/
def startDate (dateOf : String → String) (existing : Option Message) : Option String :=
  match existing with
  | some msg => if msg.timestamp ≠ "" then formatDateOnly dateOf msg.timestamp else none
  | none => none

/-- The function `renderMessagesToTop(container, messages, visitorName)`. -/
def renderMessagesToTop (height : DetailNode → Nat) (dateOf : String → String)
    (container : Dom.Container DetailNode) (messages : List Message) :
    Dom.Container DetailNode :=
  let lastDate := startDate dateOf (messageItems container.children).head?
  container.withChildren height (renderItems dateOf lastDate messages ++ container.children)

/-- The function `renderMessagesBatch(container, messages, visitorName)`. -/
def renderMessagesBatch (height : DetailNode → Nat) (dateOf : String → String)
    (container : Dom.Container DetailNode) (messages : List Message) :
    Dom.Container DetailNode :=
  let lastDate := startDate dateOf (messageItems container.children).getLast?
  container.withChildren height (container.children ++ renderItems dateOf lastDate messages)

/-- The module's variables for the session-detail view and the page elements it builds:
`detailMessages` is the message container once it has been created, `listening` records
that `setupScrollLoadingForHistory` has added its scroll listener, `errorShown` that the
detail pane shows an error. -/
structure State where
  currentSessionPage : Int
  totalSessionPages : Int
  isLoadingMoreMessages : Bool
  hasMoreHistoryMessages : Bool
  detailMessages : Option (Dom.Container DetailNode)
  listening : Bool
  errorShown : Bool
  deriving DecidableEq, Repr

/-- The module's variables when the script has loaded. -/
def initial : State :=
  { currentSessionPage := 1
    totalSessionPages := 1
    isLoadingMoreMessages := false
    hasMoreHistoryMessages := false
    detailMessages := none
    listening := false
    errorShown := false }

/-- The function `loadSessionDetailWithPagination(visitorId, sessionInfo)`. Page 1 is
requested for the page count, then the last page, which is rendered into a new container of
client height `clientHeight`. -/
def loadSessionDetailWithPagination (height : DetailNode → Nat) (dateOf : String → String)
    (clientHeight : Nat) (fetch : Fetch) (s : State) : State :=
  match fetch 1 with
  | none => { s with detailMessages := none, listening := false, errorShown := true }
  | some result =>
    if result.code = 0 then
      let s1 := { s with
        totalSessionPages := result.data.total_pages
        currentSessionPage := result.data.total_pages
        hasMoreHistoryMessages := result.data.total_pages > 1 }
      match fetch s1.totalSessionPages with
      | none => { s1 with detailMessages := none, listening := false, errorShown := true }
      | some lastPageResult =>
        if lastPageResult.code = 0 then
          let messagesContainer := renderMessagesBatch height dateOf
            { children := [], scrollTop := 0, clientHeight := clientHeight }
            lastPageResult.data.messages
          { s1 with
            detailMessages := some messagesContainer
            listening := s1.hasMoreHistoryMessages
            errorShown := false }
        else s1
    else { s with detailMessages := none, listening := false, errorShown := true }

/-- The function `viewSessionDetail(visitorId)` when the session's basic information has
been fetched with code 0: the paging variables are reset and the messages are loaded. -/
def viewSessionDetail (height : DetailNode → Nat) (dateOf : String → String)
    (clientHeight : Nat) (fetch : Fetch) (s : State) : State :=
  loadSessionDetailWithPagination height dateOf clientHeight fetch
    { s with
      currentSessionPage := 1
      isLoadingMoreMessages := false
      detailMessages := none
      listening := false
      errorShown := false }

/-- The timer set by `loadSessionDetailWithPagination`: the container is scrolled to its
bottom. -/
def scrollToBottom (height : DetailNode → Nat) (s : State) : State :=
  { s with detailMessages :=
      s.detailMessages.map fun c => c.setScrollTop height (c.scrollHeight height) }

/-- The scroll listener added by `setupScrollLoadingForHistory`, run to the end of its
`finally` block with the request it sends answered by `fetch`. -/
def onScroll (height : DetailNode → Nat) (dateOf : String → String) (fetch : Fetch)
    (s : State) : State :=
  match s.detailMessages with
  | none => s
  | some messagesContainer =>
    if messagesContainer.scrollTop < 100 then
      if !s.isLoadingMoreMessages ∧ s.hasMoreHistoryMessages ∧ s.currentSessionPage > 1 then
        let oldScrollHeight := messagesContainer.scrollHeight height
        let withIndicator := messagesContainer.withChildren height
          (DetailNode.loadingIndicator false :: messagesContainer.children)
        let page := s.currentSessionPage - 1
        match fetch page with
        | some result =>
          let removed := withIndicator.withChildren height
            (withIndicator.children.erase (DetailNode.loadingIndicator false))
          if result.code = 0 ∧ result.data.messages.length > 0 then
            let rendered := renderMessagesToTop height dateOf removed result.data.messages
            let newScrollHeight := rendered.scrollHeight height
            { s with
              currentSessionPage := page
              detailMessages := some (rendered.setScrollTop height
                ((newScrollHeight : Int) - (oldScrollHeight : Int)))
              hasMoreHistoryMessages := page > 1
              isLoadingMoreMessages := false }
          else
            { s with
              currentSessionPage := page
              detailMessages := some removed
              isLoadingMoreMessages := false }
        | none =>
          { s with
            currentSessionPage := page + 1
            detailMessages := some (withIndicator.withChildren height
              (DetailNode.loadingIndicator true ::
                withIndicator.children.erase (DetailNode.loadingIndicator false)))
            isLoadingMoreMessages := false }
      else s
    else s

/-- A user scroll of the message container to `offset`, reported through the scroll listener
when it has been added. -/
def userScroll (height : DetailNode → Nat) (dateOf : String → String) (fetch : Fetch)
    (s : State) (offset : Nat) : State :=
  let s1 := { s with detailMessages := s.detailMessages.map fun c => c.setScrollTop height offset }
  if s1.listening then onScroll height dateOf fetch s1 else s1

/-- The messages the view displays, from top to bottom. -/
def displayed (s : State) : List Message :=
  match s.detailMessages with
  | some c => messageItems c.children
  | none => []

/-- The messages of page `p` as the endpoint answers them. -/
def pageMessages (fetch : Fetch) (p : Int) : List Message :=
  match fetch p with
  | some result => result.data.messages
  | none => []

/-- The concatenation of the pages `first, first + 1, ..., first + count - 1`. -/
def pagesFrom (fetch : Fetch) (first : Int) (count : Nat) : List Message :=
  ((List.range count).map fun (i : Nat) => pageMessages fetch (first + (i : Int))).flatten

end ChatHistory

/-! ## Example states -/

namespace MessageVirtualScroll

/-- Four messages of 100 pixels added to a container of client height 150, with threshold 3
and chunk size 2: the fourth message enables virtual scrolling, which leaves the last two
messages rendered and the container scrolled to its bottom, at offset 50. -/
def fourMessages : State :=
  addMessage (addMessage (addMessage (addMessage
    (constructor { children := [], scrollTop := 0, clientHeight := 150 } 3 2)
    { id := 0, height := 100 }) { id := 1, height := 100 }) { id := 2, height := 100 })
    { id := 3, height := 100 }

end MessageVirtualScroll

namespace ChatHistory

/-- A message with the given id, sent on the given day. -/
def sampleMessage (id : Nat) (day : String) : Message :=
  { id := id, timestamp := day, direction := "to_service", service_name := none,
    content := "hi" }

/-- A successful answer with the given messages, out of three pages and six messages. -/
def pageOfThree (messages : List Message) : PageResult :=
  { code := 0
    msg := ""
    data := { total_pages := 3, total := 6, messages := messages } }

/-- A history of three pages of two messages each, one day a page. -/
def threePages : Fetch := fun p =>
  if p = 1 then
    some (pageOfThree [sampleMessage 1 "2024-01-01", sampleMessage 2 "2024-01-01"])
  else if p = 2 then
    some (pageOfThree [sampleMessage 3 "2024-01-02", sampleMessage 4 "2024-01-02"])
  else if p = 3 then
    some (pageOfThree [sampleMessage 5 "2024-01-03", sampleMessage 6 "2024-01-03"])
  else none

/-- A layout in which every node is 100 pixels high. -/
def uniformHeight : DetailNode → Nat := fun _ => 100

/-- The session-detail view of `threePages` in a container of client height 150, after the
initial load and the timer that scrolls it to the bottom, at offset 150. -/
def threePagesOpened : State :=
  scrollToBottom uniformHeight
    (viewSessionDetail uniformHeight (fun t => t) 150 threePages initial)

/-- The state of the view after the initial load and `j` loads of older pages, `tp` being
the page count: the paging variables and the displayed messages. -/
def Loaded (fetch : Fetch) (tp : Int) (j : Nat) (s : State) : Prop :=
  s.currentSessionPage = tp - (j : Int) ∧
    s.isLoadingMoreMessages = false ∧
    s.hasMoreHistoryMessages = decide (tp - (j : Int) > 1) ∧
    s.listening = decide (tp > 1) ∧
    s.detailMessages.isSome = true ∧
    displayed s = pagesFrom fetch (tp - (j : Int)) (j + 1)

end ChatHistory

/-! ## `visitor_chat.js`: presence polling -/

namespace VisitorChat

/-- An interval timer the browser keeps running: the handle `setInterval` returned for it
and its interval in milliseconds. -/
structure Timer where
  handle : Nat
  interval : Nat
  deriving DecidableEq, Repr

/-- The presence-poll variables of the visitor client, with what they act on: the interval
timers created by `startStatusCheck` that are still running, the next handle `setInterval`
will return, the system messages shown, and the status elements of the page. -/
structure Poller where
  hasOnlineService : Bool
  useRobotMode : Bool
  statusCheckInterval : Option Nat
  offlineCheckCount : Nat
  isInitialPhase : Bool
  initialCheckCount : Nat
  windowCurrentServiceName : Option String
  timers : List Timer
  nextHandle : Nat
  systemMessages : List String
  statusDot : String
  statusText : String
  serviceName : String
  deriving DecidableEq, Repr

/-- The constant `MAX_OFFLINE_CHECK`. -/
def MAX_OFFLINE_CHECK : Nat := 10

/-- The variables when the script has loaded; the browser numbers its timers from 1. -/
def Poller.initial : Poller :=
  { hasOnlineService := false
    useRobotMode := false
    statusCheckInterval := none
    offlineCheckCount := 0
    isInitialPhase := true
    initialCheckCount := 0
    windowCurrentServiceName := none
    timers := []
    nextHandle := 1
    systemMessages := []
    statusDot := ""
    statusText := ""
    serviceName := "" }

/-- Truthiness of a timer variable: `null` and `0` are falsy. -/
def handleTruthy : Option Nat → Bool
  | none => false
  | some h => h != 0

/-- The call `setInterval(callback, interval)`: a new timer runs under the next handle. -/
def setInterval (s : Poller) (interval : Nat) : Poller × Nat :=
  ({ s with
      timers := s.timers ++ [{ handle := s.nextHandle, interval := interval }]
      nextHandle := s.nextHandle + 1 },
    s.nextHandle)

/-- The call `clearInterval(handle)`. -/
def clearInterval (s : Poller) (handle : Nat) : Poller :=
  { s with timers := s.timers.filter (fun t => t.handle != handle) }

/-- The function `addSystemMessage(content)`. -/
def addSystemMessage (s : Poller) (content : String) : Poller :=
  { s with systemMessages := s.systemMessages ++ [content] }

/-- The function `stopStatusCheck()`. -/
def stopStatusCheck (s : Poller) : Poller :=
  if handleTruthy s.statusCheckInterval then
    match s.statusCheckInterval with
    | some handle => { clearInterval s handle with statusCheckInterval := none }
    | none => s
  else s

/-- The function `startStatusCheck()`. -/
def startStatusCheck (s : Poller) : Poller :=
  let s1 := stopStatusCheck s
  let interval := if s1.isInitialPhase then 1000 else 5000
  let (s2, handle) := setInterval s1 interval
  { s2 with statusCheckInterval := some handle }

/-- The page updates of the online branch of `updateServiceOnlineStatus`: the status
elements, and the notice when the agents were offline before. -/
def showOnline (s : Poller) (services : List String) (total : Nat) (wasOffline : Bool) :
    Poller :=
  let name :=
    if JS.truthy s.windowCurrentServiceName then s.windowCurrentServiceName.getD ""
    else if total = 1 ∧ services.head?.isSome then services.head?.getD ""
    else "在线客服"
  let s1 := { s with
    statusDot := "#10b981"
    statusText := "在线 (" ++ toString total ++ ")"
    serviceName := name }
  if wasOffline ∧ total > 0 then addSystemMessage s1 "客服已上线，将为您继续服务" else s1

/-- The online branch of `updateServiceOnlineStatus`. -/
def onlineBranch (s : Poller) (services : List String) (total : Nat) (wasOffline : Bool) :
    Poller :=
  let s1 := { s with offlineCheckCount := 0 }
  let s2 := if s1.isInitialPhase then startStatusCheck { s1 with isInitialPhase := false }
    else s1
  showOnline s2 services total wasOffline

/-- The counting of the initial phase in the offline branch: the tenth check without an
agent ends the phase, sets the offline count to 10 and restarts the timer. -/
def countInitialCheck (s : Poller) : Poller :=
  if s.isInitialPhase then
    let s1 := { s with initialCheckCount := s.initialCheckCount + 1 }
    if s1.initialCheckCount ≥ 10 then
      startStatusCheck { s1 with isInitialPhase := false, offlineCheckCount := 10 }
    else s1
  else s

/-- The end of the offline branch: once the offline count has reached `MAX_OFFLINE_CHECK`
the page shows the robot, with a notice when the agents were online before. -/
def showRobot (s : Poller) (wasOffline : Bool) : Poller :=
  if s.offlineCheckCount ≥ MAX_OFFLINE_CHECK then
    let s1 := { s with
      statusDot := "#f59e0b"
      statusText := "机器人客服"
      serviceName := "智能助手" }
    if !wasOffline then
      { addSystemMessage s1 "当前暂无客服在线，智能助手为您服务" with
        hasOnlineService := false
        useRobotMode := true }
    else s1
  else s

/-- The offline branch of `updateServiceOnlineStatus`. -/
def offlineBranch (s : Poller) (wasOffline : Bool) : Poller :=
  showRobot (countInitialCheck { s with offlineCheckCount := s.offlineCheckCount + 1 })
    wasOffline

/-- The last statement of `updateServiceOnlineStatus`, also found in the `join_success`
handler: the timer is started when none is running. -/
def ensureStatusCheck (s : Poller) : Poller :=
  if !handleTruthy s.statusCheckInterval then startStatusCheck s else s

/-- The function `updateServiceOnlineStatus(services, total)`; `services` holds the names of
the agents reported online. -/
def updateServiceOnlineStatus (s : Poller) (services : List String) (total : Nat) : Poller :=
  let wasOffline := !s.hasOnlineService
  let s1 := { s with hasOnlineService := decide (total > 0), useRobotMode := !decide (total > 0) }
  let s2 :=
    if s1.hasOnlineService then onlineBranch s1 services total wasOffline
    else offlineBranch s1 wasOffline
  ensureStatusCheck s2

/-- The handler of the socket's `disconnect` event. -/
def onDisconnect (s : Poller) : Poller :=
  { stopStatusCheck s with statusDot := "#ef4444", statusText := "离线" }

/-- The handler of `join_success`, as far as the poller goes: the assigned agent's name is
recorded when the answer names one, the online status is applied when the answer carries
it, and the timer is started when none is running. -/
def onJoinSuccess (s : Poller) (assignedName : Option String)
    (status : Option (List String × Nat)) : Poller :=
  let s1 := addSystemMessage s "已连接到客服系统"
  let s2 := match assignedName with
    | some name => { s1 with windowCurrentServiceName := some name }
    | none => s1
  let s3 := match status with
    | some (services, total) => updateServiceOnlineStatus s2 services total
    | none => s2
  ensureStatusCheck s3

/-- The things that happen to the poller. `otherTimer` is a timer created elsewhere on the
page, which uses up a handle. -/
inductive Event where
  | startStatusCheck
  | stopStatusCheck
  | updateServiceOnlineStatus (services : List String) (total : Nat)
  | disconnect
  | joinSuccess (assignedName : Option String) (status : Option (List String × Nat))
  | otherTimer
  deriving DecidableEq, Repr

/-- The effect of one event. -/
def step (s : Poller) : Event → Poller
  | Event.startStatusCheck => startStatusCheck s
  | Event.stopStatusCheck => stopStatusCheck s
  | Event.updateServiceOnlineStatus services total => updateServiceOnlineStatus s services total
  | Event.disconnect => onDisconnect s
  | Event.joinSuccess assignedName status => onJoinSuccess s assignedName status
  | Event.otherTimer => { s with nextHandle := s.nextHandle + 1 }

/-- The state after a sequence of events. -/
def run (s : Poller) (events : List Event) : Poller :=
  events.foldl step s

/-- The totals of the presence-poll results an event passes to
`updateServiceOnlineStatus`. -/
def Event.polls : Event → List Nat
  | Event.updateServiceOnlineStatus _ total => [total]
  | Event.joinSuccess _ (some (_, total)) => [total]
  | _ => []

/-- The totals of all presence-poll results in a sequence of events, in order. -/
def pollsOf (events : List Event) : List Nat :=
  (events.map Event.polls).flatten

/-- The interval the current phase asks for. -/
def phaseInterval (s : Poller) : Nat :=
  if s.isInitialPhase then 1000 else 5000

/-- The relation between the timer variable and the running timers: the running
presence-poll timers are exactly the one whose handle `statusCheckInterval` holds, with the
interval of the current phase; handles are positive and below the next handle. -/
def TimerInvariant (s : Poller) : Prop :=
  0 < s.nextHandle ∧
    match s.statusCheckInterval with
    | some handle =>
      0 < handle ∧ handle < s.nextHandle ∧
        s.timers = [{ handle := handle, interval := phaseInterval s }]
    | none => s.timers = []

/-- The timer part of `TimerInvariant`, without the interval: what holds while
`updateServiceOnlineStatus` has changed the phase and not yet restarted the timer. -/
def HandleInvariant (s : Poller) : Prop :=
  0 < s.nextHandle ∧
    match s.statusCheckInterval with
    | some handle =>
      0 < handle ∧ handle < s.nextHandle ∧
        ∃ interval, s.timers = [{ handle := handle, interval := interval }]
    | none => s.timers = []

end VisitorChat

/-! ## `visitor_chat.js` and `admin/chat_history.js`: HTML escaping -/

namespace Html

/-- The double quote character. -/
def quot : Char := Char.ofNat 34

/-- The apostrophe character. -/
def apos : Char := Char.ofNat 39

/-- The five entities the escaping functions produce, each with the character it stands
for. -/
def entities : List (List Char × Char) :=
  [("&amp;".toList, '&'), ("&lt;".toList, '<'), ("&gt;".toList, '>'),
   ("&quot;".toList, quot), ("&#039;".toList, apos)]

/-- The entity that starts the text, when one does: the character it stands for and its
length. -/
def entityAt (text : List Char) : Option (Char × Nat) :=
  (entities.find? fun e => e.1.isPrefixOf text).map fun e => (e.2, e.1.length)

/-- Decoding of the five entities, from left to right; `skip` is the number of characters
still to pass over, being the rest of an entity already decoded. -/
def decodeFrom : Nat → List Char → List Char
  | _, [] => []
  | skip + 1, _ :: rest => decodeFrom skip rest
  | 0, c :: rest =>
    match entityAt (c :: rest) with
    | some (ch, len) => ch :: decodeFrom (len - 1) rest
    | none => c :: decodeFrom 0 rest

/-- Decoding of the five entities in a string. -/
def decodeEntities (text : String) : String :=
  String.mk (decodeFrom 0 text.data)

/-- Every `&` of the text is the first character of one of the five entities. -/
def ampersandsStartEntities : List Char → Bool
  | [] => true
  | c :: rest => (c != '&' || (entityAt (c :: rest)).isSome) && ampersandsStartEntities rest

/-- The text matches the pattern `<[^>]+>` somewhere: a `<`, then at least one character
other than `>`, then a `>`. -/
def hasTag : List Char → Bool
  | [] => false
  | c :: rest =>
    (c == '<' && match rest with
      | d :: rest2 => d != '>' && rest2.contains '>'
      | [] => false) || hasTag rest

/-- A global replacement `text.replace(/c/g, replacement)` of one literal character. -/
def replaceAll (c : Char) (replacement : List Char) (text : List Char) : List Char :=
  text.flatMap fun x => if x = c then replacement else [x]

end Html

namespace VisitorChat

/-- The lookup `map[m]` of `escapeHtml` for a character the pattern `[&<>"']` matches, and
the character itself otherwise. -/
def escapeChar (m : Char) : List Char :=
  if m = '&' then "&amp;".toList
  else if m = '<' then "&lt;".toList
  else if m = '>' then "&gt;".toList
  else if m = Html.quot then "&quot;".toList
  else if m = Html.apos then "&#039;".toList
  else [m]

/-- The function `escapeHtml(text)` of `visitor_chat.js`: every match of `[&<>"']` is
replaced by its entry in `map`. -/
def escapeHtml (text : String) : String :=
  String.mk (text.data.flatMap escapeChar)

end VisitorChat

namespace ChatHistory

/-- The function `escapeHtml(unsafe)` of `admin/chat_history.js` for a string: the empty
string is falsy and gives the empty string, otherwise the five replacements are chained,
`&` first. -/
def escapeHtml (text : String) : String :=
  if text = "" then ""
  else String.mk
    (Html.replaceAll Html.apos "&#039;".toList
      (Html.replaceAll Html.quot "&quot;".toList
        (Html.replaceAll '>' "&gt;".toList
          (Html.replaceAll '<' "&lt;".toList
            (Html.replaceAll '&' "&amp;".toList text.data)))))

end ChatHistory

/-! ## `JSON.parse`, as far as `addMessage` looks at its result -/

namespace Json

/-- A member value of a parsed object, as far as its kind and, for primitives, its value: a
number keeps its source text, an array or object is only known to be one. -/
inductive Field where
  | null
  | bool (b : Bool)
  | num (raw : String)
  | str (s : String)
  | composite
  deriving DecidableEq, Repr

/-- The result of `JSON.parse`: a primitive, an array, or an object with its members in
source order. -/
inductive Value where
  | null
  | bool (b : Bool)
  | num (raw : String)
  | str (s : String)
  | array
  | object (members : List (String × Field))
  deriving DecidableEq, Repr

/-- A value seen as a member of an enclosing object. -/
def Value.toField : Value → Field
  | Value.null => Field.null
  | Value.bool b => Field.bool b
  | Value.num raw => Field.num raw
  | Value.str s => Field.str s
  | Value.array => Field.composite
  | Value.object _ => Field.composite

/-- The opening brace. -/
def lbrace : Char := Char.ofNat 123

/-- The closing brace. -/
def rbrace : Char := Char.ofNat 125

/-- The backslash. -/
def backslash : Char := Char.ofNat 92

/-- JSON whitespace: space, tab, line feed, carriage return. -/
def isWs (c : Char) : Bool :=
  c == ' ' || c == '\t' || c == '\n' || c == '\r'

/-- The text after its leading whitespace. -/
def skipWs : List Char → List Char
  | [] => []
  | c :: rest => if isWs c then skipWs rest else c :: rest

/-- The value of a hexadecimal digit. -/
def hexValue (c : Char) : Option Nat :=
  if '0' ≤ c ∧ c ≤ '9' then some (c.toNat - '0'.toNat)
  else if 'a' ≤ c ∧ c ≤ 'f' then some (c.toNat - 'a'.toNat + 10)
  else if 'A' ≤ c ∧ c ≤ 'F' then some (c.toNat - 'A'.toNat + 10)
  else none

/-- The character an escape letter stands for. -/
def escapeLetter (c : Char) : Option Char :=
  if c = Html.quot then some Html.quot
  else if c = backslash then some backslash
  else if c = '/' then some '/'
  else if c = 'b' then some (Char.ofNat 8)
  else if c = 'f' then some (Char.ofNat 12)
  else if c = 'n' then some '\n'
  else if c = 'r' then some '\r'
  else if c = 't' then some '\t'
  else none

/-- The body of a string literal, after its opening quote: the characters it denotes and
the text after its closing quote. `fuel` bounds the number of characters read. -/
def parseString : Nat → List Char → Option (List Char × List Char)
  | 0, _ => none
  | _ + 1, [] => none
  | fuel + 1, c :: rest =>
    if c = Html.quot then some ([], rest)
    else if c = backslash then
      match rest with
      | 'u' :: h1 :: h2 :: h3 :: h4 :: rest2 =>
        match hexValue h1, hexValue h2, hexValue h3, hexValue h4 with
        | some a, some b, some c3, some d =>
          (parseString fuel rest2).map fun r =>
            (Char.ofNat (((a * 16 + b) * 16 + c3) * 16 + d) :: r.1, r.2)
        | _, _, _, _ => none
      | e :: rest2 =>
        match escapeLetter e with
        | some ch => (parseString fuel rest2).map fun r => (ch :: r.1, r.2)
        | none => none
      | [] => none
    else if c.toNat < 32 then none
    else (parseString fuel rest).map fun r => (c :: r.1, r.2)

/-- A non-empty run of decimal digits at the start of the text, and the text after it. -/
def digits (text : List Char) : Option (List Char × List Char) :=
  let run := text.takeWhile Char.isDigit
  if run.isEmpty then none else some (run, text.dropWhile Char.isDigit)

/-- A number literal at the start of the text: its source text and the text after it. -/
def parseNumber (text : List Char) : Option (List Char × List Char) :=
  let (sign, afterSign) : List Char × List Char := match text with
    | '-' :: rest => (['-'], rest)
    | _ => ([], text)
  match digits afterSign with
  | none => none
  | some (int, afterInt) =>
    if int.length > 1 ∧ int.head? = some '0' then none
    else
      let fraction : Option (List Char × List Char) := match afterInt with
        | '.' :: rest => (digits rest).map fun r => ('.' :: r.1, r.2)
        | _ => some ([], afterInt)
      match fraction with
      | none => none
      | some (frac, afterFrac) =>
        let exponent : Option (List Char × List Char) := match afterFrac with
          | e :: rest =>
            if e = 'e' ∨ e = 'E' then
              match rest with
              | s :: rest2 =>
                if s = '+' ∨ s = '-' then (digits rest2).map fun r => (e :: s :: r.1, r.2)
                else (digits rest).map fun r => (e :: r.1, r.2)
              | [] => none
            else some ([], afterFrac)
          | [] => some ([], afterFrac)
        exponent.map fun r => (sign ++ int ++ frac ++ r.1, r.2)

/-- One of the literals `null`, `true`, `false` at the start of the text. -/
def parseLiteral (text : List Char) : Option (Value × List Char) :=
  if "null".toList.isPrefixOf text then some (Value.null, text.drop 4)
  else if "true".toList.isPrefixOf text then some (Value.bool true, text.drop 4)
  else if "false".toList.isPrefixOf text then some (Value.bool false, text.drop 5)
  else none

mutual

/-- A JSON value at the start of the text, and the text after it. -/
def parseValue : Nat → List Char → Option (Value × List Char)
  | 0, _ => none
  | fuel + 1, text =>
    match skipWs text with
    | [] => none
    | c :: rest =>
      if c = Html.quot then
        (parseString (rest.length + 1) rest).map fun r => (Value.str (String.mk r.1), r.2)
      else if c = '[' then
        match skipWs rest with
        | ']' :: rest2 => some (Value.array, rest2)
        | _ => (parseElements fuel rest).map fun r => (Value.array, r)
      else if c = lbrace then
        match skipWs rest with
        | [] => none
        | d :: rest2 =>
          if d = rbrace then some (Value.object [], rest2)
          else (parseMembers fuel rest).map fun r => (Value.object r.1, r.2)
      else if c = '-' ∨ c.isDigit then
        (parseNumber (c :: rest)).map fun r => (Value.num (String.mk r.1), r.2)
      else parseLiteral (c :: rest)

/-- The elements of an array after its opening bracket, up to its closing bracket: the text
after the bracket. -/
def parseElements : Nat → List Char → Option (List Char)
  | 0, _ => none
  | fuel + 1, text =>
    match parseValue fuel text with
    | none => none
    | some (_, rest) =>
      match skipWs rest with
      | ',' :: rest2 => parseElements fuel rest2
      | ']' :: rest2 => some rest2
      | _ => none

/-- The members of an object after its opening brace, up to its closing brace: the members
in source order and the text after the brace. -/
def parseMembers : Nat → List Char → Option (List (String × Field) × List Char)
  | 0, _ => none
  | fuel + 1, text =>
    match skipWs text with
    | [] => none
    | q :: afterQuote =>
      if q = Html.quot then
        match parseString (afterQuote.length + 1) afterQuote with
        | none => none
        | some (key, afterKey) =>
          match skipWs afterKey with
          | ':' :: afterColon =>
            match parseValue fuel afterColon with
            | none => none
            | some (value, rest) =>
              match skipWs rest with
              | [] => none
              | d :: rest2 =>
                if d = ',' then
                  (parseMembers fuel rest2).map fun r =>
                    ((String.mk key, value.toField) :: r.1, r.2)
                else if d = rbrace then some ([(String.mk key, value.toField)], rest2)
                else none
          | _ => none
      else none

end

/-- The call `JSON.parse(text)`: the parsed value, or `none` when it throws a
`SyntaxError`. The fuel lets the parser read every character of the text. -/
def parse (text : String) : Option Value :=
  match parseValue (2 * text.length + 2) text.data with
  | some (value, rest) => if skipWs rest = [] then some value else none
  | none => none

/-- The member `value[name]` of a parsed value: the last member of that name of an object,
`undefined` (`none`) otherwise. Reading a member of `null` throws and is handled by the
caller. -/
def Value.get (value : Value) (name : String) : Option Field :=
  match value with
  | Value.object members => (members.reverse.find? fun m => m.1 == name).map fun m => m.2
  | _ => none

/-- A number literal denotes zero: its digits before any exponent are all `0`. -/
def isZeroLiteral (raw : String) : Bool :=
  (raw.data.takeWhile fun c => c != 'e' && c != 'E').all fun c => !c.isDigit || c == '0'

/-- Truthiness of a member that may be missing. -/
def truthy : Option Field → Bool
  | none => false
  | some Field.null => false
  | some (Field.bool b) => b
  | some (Field.num raw) => !isZeroLiteral raw
  | some (Field.str s) => s != ""
  | some Field.composite => true

end Json

/-! ## `visitor_chat.js`: rendering a chat message -/

namespace VisitorChat

/-- The functions `addMessage` leaves to the browser and to number formatting:
`sanitizeHtml`, `formatFileSize`, and the conversion of a parsed member to text inside a
template literal. -/
structure Markup where
  sanitizeHtml : String → String
  formatFileSize : Json.Field → String
  display : Json.Field → String

/-- A one-character string holding a double quote. -/
def dq : String := String.singleton Html.quot

/-- A one-character string holding an apostrophe. -/
def sq : String := String.singleton Html.apos

/-- The test `/<[^>]+>/.test(content)`. -/
def hasHtmlTag (content : String) : Bool := Html.hasTag content.data

/-- The `catch` branch of `addMessage`, for content that is not read as JSON: a robot
message with a tag is sanitised, a user message with a tag is escaped, anything else is
kept. -/
def plainContent (m : Markup) (type content : String) : String :=
  if type = "robot" then
    if hasHtmlTag content then m.sanitizeHtml content else content
  else
    if hasHtmlTag content then escapeHtml content else content

/-- The text `${parsedContent.url}` of a template literal. -/
def displayMember (m : Markup) (member : Option Json.Field) : String :=
  match member with
  | some (Json.Field.str s) => s
  | some field => m.display field
  | none => "undefined"

/-- The markup `addMessage` builds for a file payload: an image element when `mime_type`
starts with `image/`, a file link otherwise. `none` stands for the `TypeError` thrown when
`mime_type` is truthy and not a string. -/
def fileMarkup (m : Markup) (value : Json.Value) : Option String :=
  let url := displayMember m (value.get "url")
  let link : String :=
    let fileSize := if Json.truthy (value.get "size") then
      m.formatFileSize ((value.get "size").getD Json.Field.null) else ""
    "<a href=" ++ dq ++ url ++ dq ++ " target=" ++ dq ++ "_blank" ++ dq ++
      " class=" ++ dq ++ "file-link" ++ dq ++ " style=" ++ dq ++
      "display: flex; align-items: center; gap: 8px; text-decoration: none; " ++
      "color: var(--primary-color);" ++ dq ++ "><span style=" ++ dq ++ "font-size: 24px;" ++
      dq ++ ">📎</span><div><div style=" ++ dq ++ "font-weight: 500;" ++ dq ++
      ">查看文件</div>" ++
      (if fileSize ≠ "" then
        "<div style=" ++ dq ++ "font-size: 12px; color: #9ca3af;" ++ dq ++ ">" ++ fileSize ++
          "</div>"
       else "") ++ "</div></a>"
  if Json.truthy (value.get "mime_type") then
    match value.get "mime_type" with
    | some (Json.Field.str mime) =>
      if "image/".toList.isPrefixOf mime.data then
        some ("<img src=" ++ dq ++ url ++ dq ++ " alt=" ++ dq ++ "图片" ++ dq ++ " style=" ++
          dq ++ "max-width: 200px; max-height: 200px; border-radius: 8px; cursor: pointer;" ++
          dq ++ " onclick=" ++ dq ++ "showImagePreview(" ++ sq ++ url ++ sq ++ ")" ++ dq ++
          ">")
      else some link
    | _ => none
  else some link

/-- The value of `messageContent` at the end of the `try` statement of `addMessage`: the
markup placed in the message bubble. Content that parses as JSON and is not a file payload
is kept as it is; reading a member of a parsed `null` throws, as a syntax error does. -/
def messageContent (m : Markup) (type content : String) : String :=
  match Json.parse content with
  | none => plainContent m type content
  | some Json.Value.null => plainContent m type content
  | some value =>
    if value.get "type" = some (Json.Field.str "file") ∧ Json.truthy (value.get "url") then
      match fileMarkup m value with
      | some markup => markup
      | none => plainContent m type content
    else content

/-- The content is a file payload: a JSON object with `type` equal to `file` and a truthy
`url`. -/
def isFilePayload (content : String) : Bool :=
  match Json.parse content with
  | some value =>
    decide (value.get "type" = some (Json.Field.str "file")) && Json.truthy (value.get "url")
  | none => false

/-- The parts of the element `addMessage` appends to the chat, without its time. -/
structure MessageElement where
  className : String
  avatarIcon : String
  badge : String
  displayName : String
  bubble : String
  deriving DecidableEq, Repr

/-- The function `addMessage(type, nickname, content, avatar, timestamp)`, as far as the
message element goes; the date separator and the time shown depend on the clock and are
left out. A missing `nickname` or `avatar` is the empty string. -/
def addMessage (m : Markup) (type nickname content avatar : String) : MessageElement :=
  { className := "message " ++ type
    avatarIcon :=
      if type = "robot" ∧ avatar = "" then "🤖"
      else if type = "service" ∧ avatar = "" then "👨‍💼"
      else if avatar = "" then "👤" else avatar
    badge :=
      if type = "robot" then
        "<span class=" ++ dq ++ "message-badge robot-badge" ++ dq ++ ">AI助手</span>"
      else if type = "service" then
        "<span class=" ++ dq ++ "message-badge service-badge" ++ dq ++ ">客服</span>"
      else ""
    displayName :=
      if nickname ≠ "" then nickname
      else if type = "robot" then "智能助手"
      else if type = "service" then "客服"
      else "访客"
    bubble := messageContent m type content }

end VisitorChat

/-! ## `visitor_chat.js`: sending messages -/

namespace JS

/-- White space and line terminators, the characters `String.prototype.trim` removes. -/
def isWhiteSpace (c : Char) : Bool :=
  let n := c.toNat
  (9 ≤ n && n ≤ 13) || n == 32 || n == 160 || n == 5760 || (8192 ≤ n && n ≤ 8202) ||
    n == 8232 || n == 8233 || n == 8239 || n == 8287 || n == 12288 || n == 65279

/-- The method `String.prototype.trim`. -/
def trim (text : String) : String :=
  String.mk ((text.data.dropWhile isWhiteSpace).reverse.dropWhile isWhiteSpace).reverse

end JS

namespace VisitorChat

/-- The member `to_id` of an outgoing event: `currentServiceId || 'all'`. -/
inductive ToId where
  | service (id : Nat)
  | all
  deriving DecidableEq, Repr

/-- The payload of a `send_message` event, without its timestamp and device information. -/
structure SendMessage where
  from_id : String
  from_type : String
  from_name : String
  to_id : ToId
  to_type : String
  content : String
  msg_type : String
  faq_answer : Option String
  is_faq_click : Bool
  deriving DecidableEq, Repr

/-- A call of `addMessage` or `addFileMessage`, which puts a message on the page. -/
structure Display where
  type : String
  nickname : String
  content : String
  deriving DecidableEq, Repr

/-- The message input element. -/
structure MessageInput where
  value : String
  disabled : Bool
  placeholder : String
  deriving DecidableEq, Repr

/-- The sending side of the visitor client: the identity, the socket (`none` when it is
`null`, otherwise whether it is connected), the recorded agent, the input and the send
button (`none` when the page lacks them), and what has been emitted and shown. -/
structure Chat where
  visitorId : String
  visitorName : String
  socket : Option Bool
  currentServiceId : Option Nat
  messageInput : Option MessageInput
  sendBtnDisabled : Option Bool
  emitted : List SendMessage
  displayed : List Display
  systemMessages : List (String × String)
  modalErrors : List String
  deriving DecidableEq, Repr

/-- The expression `currentServiceId || 'all'`; the id 0 is falsy. -/
def toId (currentServiceId : Option Nat) : ToId :=
  match currentServiceId with
  | some id => if id = 0 then ToId.all else ToId.service id
  | none => ToId.all

/-- The test `socket && socket.connected`. -/
def connected (s : Chat) : Bool := s.socket = some true

/-- The handler of the `blacklisted` event: a system message of type `error` is shown, the
input is disabled with a new placeholder and the send button is disabled. -/
def onBlacklisted (s : Chat) (message : Option String) : Chat :=
  { s with
    systemMessages := s.systemMessages ++
      [(JS.orElse message "您已被限制访问，如有疑问请联系管理员", "error")]
    messageInput := s.messageInput.map fun input =>
      { input with disabled := true, placeholder := "您已被限制发送消息" }
    sendBtnDisabled := s.sendBtnDisabled.map fun _ => true }

/-- The function `sendMessage()`. The content is the trimmed value of the input; without an
input element reading its value throws and nothing else happens. -/
def sendMessage (s : Chat) : Chat :=
  match s.messageInput with
  | none => s
  | some input =>
    let content := JS.trim input.value
    if content = "" then s
    else if !connected s then
      { s with modalErrors := s.modalErrors ++ ["未连接到服务器，请稍后再试"] }
    else
      { s with
        displayed := s.displayed ++
          [({ type := "visitor", nickname := "访客", content := content } : Display)]
        emitted := s.emitted ++
          [{ from_id := s.visitorId
             from_type := "visitor"
             from_name := s.visitorName
             to_id := toId s.currentServiceId
             to_type := "service"
             content := content
             msg_type := "text"
             faq_answer := none
             is_faq_click := false }]
        messageInput := some { input with value := "" } }

/-- A frequently asked question. -/
structure Faq where
  question : String
  answer : String
  deriving DecidableEq, Repr

/-- The function `handleFAQClick(faq)`. -/
def handleFAQClick (s : Chat) (faq : Faq) : Chat :=
  if !connected s then
    { s with modalErrors := s.modalErrors ++ ["未连接到服务器，请稍后再试"] }
  else
    { s with
      displayed := s.displayed ++
        [({ type := "visitor", nickname := s.visitorName, content := faq.question } : Display)]
      emitted := s.emitted ++
        [{ from_id := s.visitorId
           from_type := "visitor"
           from_name := s.visitorName
           to_id := toId s.currentServiceId
           to_type := "service"
           content := faq.question
           msg_type := "text"
           faq_answer := some faq.answer
           is_faq_click := true }] }

/-- The function `sendImageMessage(fileData)`; `imageJson` is the text
`JSON.stringify(imageMessage)` built from the uploaded file. The message is shown first;
`socket.emit` throws when the socket is `null`. -/
def sendImageMessage (s : Chat) (imageJson : String) : Chat :=
  let s1 := { s with
    displayed := s.displayed ++
      [({ type := "visitor", nickname := "访客", content := imageJson } : Display)] }
  match s1.socket with
  | none => s1
  | some _ =>
    { s1 with emitted := s1.emitted ++
        [{ from_id := s1.visitorId
           from_type := "visitor"
           from_name := s1.visitorName
           to_id := toId s1.currentServiceId
           to_type := "service"
           content := imageJson
           msg_type := "file"
           faq_answer := none
           is_faq_click := false }] }

/-- A connected visitor who has typed `hello` and has sent nothing yet. -/
def Chat.typing : Chat :=
  { visitorId := "visitor_1"
    visitorName := "访客1"
    socket := some true
    currentServiceId := none
    messageInput := some { value := "hello", disabled := false, placeholder := "" }
    sendBtnDisabled := some false
    emitted := []
    displayed := []
    systemMessages := []
    modalErrors := [] }

end VisitorChat

/-! ## `visitor_chat.js`: the visitor identity kept in `localStorage` -/

namespace JS

/-- A JavaScript number that is an integer or `NaN` (`none`). Arithmetic on it is exact,
which is what JavaScript does for integers below 2^53 in absolute value. -/
abbrev IntOrNaN := Option Int

/-- The value of a run of digits in the given radix, read from the left. -/
def digitsValue (radix : Nat) (digits : List Nat) : Nat :=
  digits.foldl (fun acc d => acc * radix + d) 0

/-- The value of a character as a digit of the given radix, when it is one. -/
def digitOf (radix : Nat) (c : Char) : Option Nat :=
  let value : Option Nat :=
    if '0' ≤ c ∧ c ≤ '9' then some (c.toNat - '0'.toNat)
    else if 'a' ≤ c ∧ c ≤ 'z' then some (c.toNat - 'a'.toNat + 10)
    else if 'A' ≤ c ∧ c ≤ 'Z' then some (c.toNat - 'A'.toNat + 10)
    else none
  match value with
  | some d => if d < radix then some d else none
  | none => none

/-- The longest run of digits of the given radix at the start of the text. -/
def leadingDigits (radix : Nat) : List Char → List Nat
  | [] => []
  | c :: rest =>
    match digitOf radix c with
    | some d => d :: leadingDigits radix rest
    | none => []

/-- The sign at the start of a numeric text: whether it is `-`, and the text after the
sign. -/
def signOf (text : List Char) : Bool × List Char :=
  match text with
  | c :: rest => if c = '-' then (true, rest) else if c = '+' then (false, rest) else (false, text)
  | [] => (false, text)

/-- The radix `parseInt` reads a text in: 16 after a prefix `0x` or `0X`, which is dropped,
and 10 otherwise. -/
def radixOf (text : List Char) : Nat × List Char :=
  match text with
  | c :: x :: rest => if c = '0' ∧ (x = 'x' ∨ x = 'X') then (16, rest) else (10, text)
  | _ => (10, text)

/-- The function `parseInt(text)` without a radix: leading white space is skipped, a sign
is read, a prefix `0x` or `0X` selects radix 16, and the longest run of digits is the
value; without a digit the result is `NaN`. -/
def parseInt (text : String) : IntOrNaN :=
  let signed := signOf (text.data.dropWhile isWhiteSpace)
  let based := radixOf signed.2
  let digits := leadingDigits based.1 based.2
  if digits.isEmpty then none
  else
    let magnitude : Int := (digitsValue based.1 digits : Nat)
    some (if signed.1 then -magnitude else magnitude)

/-- The method `toString()` of such a number. -/
def numberToString : IntOrNaN → String
  | some n => toString n
  | none => "NaN"

end JS

namespace VisitorChat

/-- The browser's `localStorage`. -/
abbrev Storage := ServicePermission.JSMap String

/-- The values `getOrCreateVisitorId` takes from its environment: the device fingerprint,
`Date.now()`, the two random integers `Math.floor(Math.random() * 1000)` and
`Math.floor(Math.random() * 10000)`, and `new Date().toISOString()`. -/
structure VisitEnv where
  fingerprint : String
  timestamp : Nat
  random : Nat
  nameRandom : Nat
  isoNow : String
  deriving DecidableEq, Repr

/-- The object `getOrCreateVisitorId` returns. -/
structure VisitorInfo where
  visitorId : String
  visitorName : Option String
  deviceFingerprint : Option String
  visitCount : JS.IntOrNaN
  firstVisit : Option String
  lastVisit : Option String
  deriving DecidableEq, Repr

/-- The expression `localStorage.getItem('visit_count') || '1'`. -/
def storedCountText (storage : Storage) : String :=
  JS.orElse (storage.get "visit_count") "1"

/-- The function `getOrCreateVisitorId()`: the storage afterwards and the object returned. -/
def getOrCreateVisitorId (storage : Storage) (env : VisitEnv) : Storage × VisitorInfo :=
  let savedVisitorId := storage.get "visitor_id"
  let savedVisitorName := storage.get "visitor_name"
  let (storage1, visitorId, visitorName) : Storage × String × Option String :=
    if !JS.truthy savedVisitorId then
      let newId := "visitor_" ++ toString env.timestamp ++ "_" ++ toString env.random
      let newName := "访客" ++ toString env.nameRandom
      (((((storage.set "visitor_id" newId).set "visitor_name" newName).set
          "device_fingerprint" env.fingerprint).set "first_visit" env.isoNow).set
          "visit_count" "1",
        newId, some newName)
    else
      let visitCount := (JS.parseInt (storedCountText storage)).map fun n => n + 1
      ((storage.set "visit_count" (JS.numberToString visitCount)).set "last_visit" env.isoNow,
        savedVisitorId.getD "", savedVisitorName)
  (storage1,
    { visitorId := visitorId
      visitorName := visitorName
      deviceFingerprint := storage1.get "device_fingerprint"
      visitCount := JS.parseInt (storedCountText storage1)
      firstVisit := storage1.get "first_visit"
      lastVisit := storage1.get "last_visit" })

/-- A storage left by an earlier visit whose `visit_count` is not a number. -/
def Storage.unreadableCount : Storage :=
  [("visitor_id", "visitor_1"), ("visitor_name", "访客1"), ("visit_count", "abc")]

/-- Sample values of the environment. -/
def VisitEnv.sample : VisitEnv :=
  { fingerprint := "fp_1", timestamp := 1700000000000, random := 7, nameRandom := 42,
    isoNow := "2024-01-01T00:00:00.000Z" }

end VisitorChat

/-! ## `visitor_assignment.js` -/

namespace VisitorAssignment

/-- An agent as the assignment endpoint describes it to the visitor. -/
structure Service where
  id : Int
  nick_name : String
  deriving DecidableEq, Repr

/-- The `data` member of an assignment answer. -/
structure AssignmentData where
  action : String
  service : Option Service
  is_exclusive : Bool
  is_online : Bool
  offline_tip : Option String
  position : Nat
  estimated_wait_time : Nat
  message : String
  deriving DecidableEq, Repr

/-- The body of the request `requestService` posts. A `NaN` id is sent as `null`. -/
structure RequestBody where
  visitor_id : Option String
  business_id : Int
  exclusive_service_id : Option Int
  priority : Int
  deriving DecidableEq, Repr

/-- The envelope `{code, msg, data}` of the answer. -/
structure Response where
  code : Int
  msg : Option String
  data : AssignmentData
  deriving DecidableEq, Repr

/-- The fields of a `VisitorAssignment` object with what its methods act on: the running
queue-check timers and the next timer handle, the system messages, the alerts, the header
of the chat and which of the queue and chat panes is shown. `exclusiveServiceId` is `null`
(`none`), a number, or `NaN` (`some none`). -/
structure State where
  visitorId : Option String
  businessId : Int
  exclusiveServiceId : Option JS.IntOrNaN
  currentService : Option Service
  queueStatus : Option AssignmentData
  queueCheckInterval : Option Nat
  timers : List Nat
  nextHandle : Nat
  systemMessages : List (String × String)
  alerts : List String
  header : Option (Service × Bool × Bool)
  queueShown : Bool
  chatShown : Bool
  deriving DecidableEq, Repr

/-- The constructor. -/
def constructor : State :=
  { visitorId := none
    businessId := 1
    exclusiveServiceId := none
    currentService := none
    queueStatus := none
    queueCheckInterval := none
    timers := []
    nextHandle := 1
    systemMessages := []
    alerts := []
    header := none
    queueShown := false
    chatShown := false }

/-- The method `getExclusiveServiceIdFromURL()`, given the URL parameters `service_id` and
`sid`. -/
def getExclusiveServiceIdFromURL (service_id sid : Option String) : Option JS.IntOrNaN :=
  let serviceId : Option String := if JS.truthy service_id then service_id else sid
  if JS.truthy serviceId then some (JS.parseInt (serviceId.getD "")) else none

/-- The method `init(visitorId, businessId)`. -/
def init (s : State) (visitorId : String) (businessId : Int) (service_id sid : Option String) :
    State :=
  { s with
    visitorId := some visitorId
    businessId := businessId
    exclusiveServiceId := getExclusiveServiceIdFromURL service_id sid }

/-- The method `stopQueueCheck()`. -/
def stopQueueCheck (s : State) : State :=
  match s.queueCheckInterval with
  | some handle =>
    if handle ≠ 0 then
      { s with timers := s.timers.filter (fun h => h != handle), queueCheckInterval := none }
    else s
  | none => s

/-- The method `startQueueCheck()`. -/
def startQueueCheck (s : State) : State :=
  let s1 := stopQueueCheck s
  { s1 with
    timers := s1.timers ++ [s1.nextHandle]
    nextHandle := s1.nextHandle + 1
    queueCheckInterval := some s1.nextHandle }

/-- The method `appendSystemMessage(content, type)`. -/
def appendSystemMessage (s : State) (content type : String) : State :=
  { s with systemMessages := s.systemMessages ++ [(content, type)] }

/-- The method `showError(message)`. -/
def showError (s : State) (message : String) : State :=
  { s with alerts := s.alerts ++ [message] }

/-- The method `showServiceAssigned(data)` for an answer that names a service. -/
def showServiceAssigned (s : State) (service : Service) (is_exclusive is_online : Bool)
    (offline_tip : Option String) : State :=
  let s1 := { s with header := some (service, is_online, is_exclusive) }
  let s2 := appendSystemMessage s1
    (if is_exclusive then "已为您接入专属客服 " ++ service.nick_name
     else "已为您接入客服 " ++ service.nick_name) "info"
  let s3 := if !is_online ∧ JS.truthy offline_tip then
      appendSystemMessage s2 (offline_tip.getD "") "warning"
    else s2
  { s3 with queueShown := false, chatShown := true }

/-- The method `showQueueStatus(data)`. -/
def showQueueStatus (s : State) : State :=
  { s with chatShown := false, queueShown := true }

/-- The outcome of `handleAssignmentResult`: the object afterwards, and the value returned,
or `thrown` when `showServiceAssigned` reads the name of a missing service. -/
inductive Outcome where
  | returned (state : State) (value : Option AssignmentData)
  | thrown (state : State)
  deriving DecidableEq, Repr

/-- The method `handleAssignmentResult(data)`. -/
def handleAssignmentResult (s : State) (data : AssignmentData) : Outcome :=
  if data.action = "assigned" then
    let s1 := stopQueueCheck { s with currentService := data.service }
    match data.service with
    | some service =>
      Outcome.returned
        (showServiceAssigned s1 service data.is_exclusive data.is_online data.offline_tip)
        (some data)
    | none => Outcome.thrown s1
  else if data.action = "queued" then
    Outcome.returned (startQueueCheck (showQueueStatus { s with queueStatus := some data }))
      (some data)
  else if data.action = "error" then
    Outcome.returned (showError s data.message) none
  else Outcome.returned s none

/-- The body `requestService(priority)` sends. -/
def requestBody (s : State) (priority : Int) : RequestBody :=
  { visitor_id := s.visitorId
    business_id := s.businessId
    exclusive_service_id := s.exclusiveServiceId.join
    priority := priority }

/-- The method `requestService(priority)`: the object afterwards and the value the promise
resolves to. `server` answers the request, or gives `none` when the request throws. -/
def requestService (s : State) (priority : Int)
    (server : RequestBody → Option Response) : State × Option AssignmentData :=
  match server (requestBody s priority) with
  | some result =>
    if result.code = 0 then
      match handleAssignmentResult s result.data with
      | Outcome.returned s1 value => (s1, value)
      | Outcome.thrown s1 => (showError s1 "网络错误，请稍后再试", none)
    else (showError s (JS.orElse result.msg "分配客服失败"), none)
  | none => (showError s "网络错误，请稍后再试", none)

/-- The method `getCurrentService()`. -/
def getCurrentService (s : State) : Option Service := s.currentService

/-- The method `isExclusiveSession()`. -/
def isExclusiveSession (s : State) : Bool := s.exclusiveServiceId.isSome

/-- An agent as the Assignment Engine knows it. -/
structure Agent where
  id : Int
  nick_name : String
  online : Bool
  capacity : Nat
  load : Nat
  deriving DecidableEq, Repr

/-- The agent is online and under capacity. -/
def Agent.available (a : Agent) : Bool := a.online && decide (a.load < a.capacity)

/-- The answer that assigns an agent. -/
def assignedTo (a : Agent) (is_exclusive : Bool) : AssignmentData :=
  { action := "assigned"
    service := some { id := a.id, nick_name := a.nick_name }
    is_exclusive := is_exclusive
    is_online := a.online
    offline_tip := none
    position := 0
    estimated_wait_time := 0
    message := "" }

/-- The answer that puts the visitor in the queue at the given position. -/
def queuedAt (position : Nat) (offline_tip : Option String) : AssignmentData :=
  { action := "queued"
    service := none
    is_exclusive := false
    is_online := false
    offline_tip := offline_tip
    position := position
    estimated_wait_time := 0
    message := "" }

/-- The available agent with the least load, the smaller id winning a tie. -/
def leastLoaded (agents : List Agent) : Option Agent :=
  (agents.filter Agent.available).foldl
    (fun best a =>
      match best with
      | none => some a
      | some b => if a.load < b.load ∨ (a.load = b.load ∧ a.id < b.id) then some a else some b)
    none

/-- Modelled from the spec: the Assignment Engine `requestAgent` of section 4.2, which
answers `request-service` on the server; only its client is among the sources. A
blacklisted visitor is rejected. With an exclusive agent id, that agent is assigned
directly when it is online and under capacity, and otherwise the visitor waits for that
agent with an offline tip, no other agent being substituted. Without one, the available
agent with the least load is assigned (ties broken by id), and with none available the
visitor is queued behind the `queueLength` visitors already waiting. -/
def requestAgent (agents : List Agent) (blacklisted : Bool) (queueLength : Nat)
    (exclusiveAgentId : Option Int) : AssignmentData :=
  if blacklisted then
    { queuedAt 0 none with action := "error", message := "blacklisted" }
  else
    match exclusiveAgentId with
    | some e =>
      match agents.find? (fun a => a.id == e) with
      | some a =>
        if a.available then assignedTo a true
        else queuedAt (queueLength + 1) (some "offline")
      | none => queuedAt (queueLength + 1) (some "offline")
    | none =>
      match leastLoaded agents with
      | some a => assignedTo a false
      | none => queuedAt (queueLength + 1) none

/-- Modelled from the spec: the `request-service` endpoint, answering with code 0 and the
Assignment Engine's result for the exclusive agent id of the request. -/
def assignmentServer (agents : List Agent) (blacklisted : Bool) (queueLength : Nat) :
    RequestBody → Option Response :=
  fun body =>
    some { code := 0
           msg := none
           data := requestAgent agents blacklisted queueLength body.exclusive_service_id }

end VisitorAssignment

namespace VisitorAssignment

/-- Three agents: 5 and 7 online and under capacity, 8 offline. -/
def sampleAgents : List Agent :=
  [{ id := 5, nick_name := "a5", online := true, capacity := 3, load := 0 },
   { id := 7, nick_name := "a7", online := true, capacity := 2, load := 1 },
   { id := 8, nick_name := "a8", online := false, capacity := 2, load := 0 }]

end VisitorAssignment

/-! ## Example states, continued -/

namespace ChatHistory

/-- The three-page history, with the request for page 2 answered by a non-zero code. -/
def secondPageRefused : Fetch := fun p =>
  if p = 2 then
    some { code := 1, msg := "error", data := { total_pages := 3, total := 6, messages := [] } }
  else threePages p

/-- The three-page history, with the request for page 2 answered by an empty list. -/
def secondPageEmpty : Fetch := fun p =>
  if p = 2 then some (pageOfThree []) else threePages p

/-- The three-page history, with the request for page 2 throwing. -/
def secondPageThrows : Fetch := fun p =>
  if p = 2 then none else threePages p

end ChatHistory

namespace VirtualScroll

/-- Ten items of 80 pixels in a viewport of 80 pixels with a buffer of one item, scrolled to
offset 120. -/
def scrolledList : State Nat :=
  userScroll (constructor
    { data := some [1, 2, 3, 4, 5, 6, 7, 8, 9, 10], itemHeight := some 80,
      bufferSize := some 1 } 80) 120

end VirtualScroll

/-! ## `visitor_assignment.js`: the queue check -/

namespace VisitorAssignment

/-- The `data` member of a queue-status answer. -/
structure QueueData where
  assigned : Bool
  service : Option Service
  in_queue : Bool
  position : Nat
  message : String
  estimated_wait_time : Nat
  deriving DecidableEq, Repr

/-- The envelope of a queue-status answer; `data` may be missing. -/
structure QueueResponse where
  code : Int
  data : Option QueueData
  deriving DecidableEq, Repr

/-- The method `updateQueuePosition(data)`: it rewrites the texts of the queue pane, which
the state does not record. -/
def updateQueuePosition (s : State) (_data : QueueData) : State := s

/-- The method `checkQueueStatus()`, run by the queue-check timer; `answer` is the parsed
answer of the queue-status request, or `none` when the request throws. -/
def checkQueueStatus (s : State) (answer : Option QueueResponse) : State :=
  match answer with
  | none => s
  | some result =>
    if result.code = 0 then
      match result.data with
      | none => s
      | some data =>
        match data.service with
        | some service =>
          if data.assigned then showServiceAssigned (stopQueueCheck s) service false true none
          else if data.in_queue then updateQueuePosition s data
          else s
        | none => if data.in_queue then updateQueuePosition s data else s
    else s

/-- A visitor without an exclusive link who asked for an agent when none was available and
was queued. -/
def queuedVisitor : State :=
  (requestService (init constructor "v" 1 none none) 0 (assignmentServer [] false 0)).1

/-- The queue-status answer that reports the promotion of the visitor to agent 7. -/
def promotedToSeven : QueueResponse :=
  { code := 0
    data := some
      { assigned := true
        service := some { id := 7, nick_name := "a7" }
        in_queue := false
        position := 0
        message := ""
        estimated_wait_time := 0 } }

end VisitorAssignment

/-! ## `visitor_chat.js`: the handlers that record the assigned agent -/

namespace VisitorChat

/-- The sending side together with the properties `window.currentServiceId` and
`window.currentServiceName` and the text of the `serviceName` element. The script keeps the
variable `let currentServiceId` (the field `chat.currentServiceId`) beside the property
`window.currentServiceId`; they are two variables. -/
structure Session where
  chat : Chat
  windowCurrentServiceId : Option Nat
  windowCurrentServiceName : Option String
  serviceNameText : String
  deriving DecidableEq, Repr

namespace Session

/-- The session when the script has run its declarations: `window.currentServiceId = null`
and `let currentServiceId = null`. -/
def start (chat : Chat) : Session :=
  { chat := { chat with currentServiceId := none }
    windowCurrentServiceId := none
    windowCurrentServiceName := none
    serviceNameText := "" }

/-- The part of the `join_success` handler that reports the connection and records the
agent of `data.queue`; `queue` is `none` when `data.queue` is missing, else the members
`service_id` and `service_name` of it. -/
def onJoinSuccess (s : Session) (queue : Option (Option Nat × Option String)) : Session :=
  let s1 := { s with
    chat := { s.chat with
      systemMessages := s.chat.systemMessages ++ [("已连接到客服系统", "info")] } }
  match queue with
  | none => s1
  | some (service_id, service_name) =>
    if toId service_id ≠ ToId.all then
      { s1 with windowCurrentServiceId := service_id, windowCurrentServiceName := service_name }
    else s1

/-- The part of the `receive_message` handler that records the agent who sent the
message. -/
def onReceiveMessage (s : Session) (from_type : String) (from_id : Option Nat)
    (from_name : Option String) : Session :=
  if from_type = "service" ∧ toId from_id ≠ ToId.all ∧ JS.orElse from_name "" ≠ "" then
    { s with
      windowCurrentServiceId := from_id
      windowCurrentServiceName := from_name
      serviceNameText := JS.orElse from_name "" }
  else s

/-- The handler of the `service_online` event. -/
def onServiceOnline (s : Session) (service_id : Nat) (service_name : String) : Session :=
  { chat := { s.chat with
      currentServiceId := some service_id
      systemMessages := s.chat.systemMessages ++ [(service_name ++ " 已上线为您服务", "info")] }
    windowCurrentServiceId := some service_id
    windowCurrentServiceName := some service_name
    serviceNameText := service_name }

/-- The handler of the `service_changed` event; `message` is `data.message`. -/
def onServiceChanged (s : Session) (service_id : Nat) (service_name : String)
    (message : Option String) : Session :=
  { chat := { s.chat with
      systemMessages :=
        if JS.orElse message "" ≠ "" then
          s.chat.systemMessages ++ [(JS.orElse message "", "info")]
        else s.chat.systemMessages }
    windowCurrentServiceId := some service_id
    windowCurrentServiceName := some service_name
    serviceNameText := service_name }

/-- The function `sendMessage()` run in the session. -/
def sendMessage (s : Session) : Session := { s with chat := VisitorChat.sendMessage s.chat }

/-- The values of `to_id` of the emitted `send_message` events, oldest first. -/
def sentTo (s : Session) : List ToId := s.chat.emitted.map fun m => m.to_id

end Session

end VisitorChat

/-! ## Primitive values of JavaScript -/

namespace JS

/-- A primitive value as far as the renderers and the notification test look at it:
`undefined`, `null`, an integer number or a string. -/
inductive Prim where
  | undefined
  | null
  | number (n : Int)
  | string (s : String)
  deriving DecidableEq, Repr

/-- Truthiness of a primitive value: `undefined`, `null`, `0` and the empty string are
falsy. -/
def Prim.truthy : Prim → Bool
  | Prim.undefined => false
  | Prim.null => false
  | Prim.number n => n != 0
  | Prim.string s => s != ""

/-- The comparison `a == b`. `undefined` and `null` equal each other and nothing else;
values of one type are compared as they are; a string compared with a number is first
converted by `toNumber`, which yields the integer the string denotes and `none` when it
denotes no integer. -/
def looseEq (toNumber : String → Option Int) (a b : Prim) : Bool :=
  match a, b with
  | Prim.undefined, Prim.undefined => true
  | Prim.undefined, Prim.null => true
  | Prim.null, Prim.undefined => true
  | Prim.null, Prim.null => true
  | Prim.number m, Prim.number n => m == n
  | Prim.string s, Prim.string t => s == t
  | Prim.number m, Prim.string t => toNumber t == some m
  | Prim.string s, Prim.number n => toNumber s == some n
  | _, _ => false

end JS

/-! ## `visitor_chat.js`: rendering stored messages -/

namespace VisitorChat

/-- The members of a stored message the history renderers read, without its time. -/
structure HistoryMessage where
  service_id : JS.Prim
  direction : String
  content : String
  msg_type : JS.Prim
  deriving DecidableEq, Repr

/-- The value of `msgType` both history renderers compute first. -/
def historyMsgType (msg : HistoryMessage) : String :=
  if msg.service_id = JS.Prim.null ∨ msg.service_id = JS.Prim.number 0 then "robot"
  else if msg.direction = "to_visitor" then "service"
  else "visitor"

/-- The value of `nickname` for a message type. -/
def historyNickname (visitorName msgType : String) : String :=
  if msgType = "robot" then "智能助手"
  else if msgType = "service" then "客服"
  else visitorName

/-- The value of `avatar` for a message type. -/
def historyAvatar (msgType : String) : String :=
  if msgType = "robot" then "🤖"
  else if msgType = "service" then "👨‍💼"
  else "👤"

/-- The parts of the element `createMessageElement` returns, without its time. -/
structure HistoryElement where
  className : String
  avatar : String
  badge : String
  nickname : String
  bubble : String
  deriving DecidableEq, Repr

/-- The function `createMessageElement(msg)`; `visitorName` is `visitorInfo.visitorName`. -/
def createMessageElement (visitorName : String) (msg : HistoryMessage) : HistoryElement :=
  let msgType := historyMsgType msg
  { className := "message " ++ msgType ++ "-message"
    avatar := historyAvatar msgType
    badge := if msgType = "robot" then "robot-badge"
      else if msgType = "service" then "service-badge" else ""
    nickname := historyNickname visitorName msgType
    bubble := msg.content }

/-- The call `renderHistoryMessage` makes to put a stored message on the page. -/
inductive HistoryCall where
  | addFileMessage (content type : String)
  | addMessage (type nickname content avatar : String)
  deriving DecidableEq, Repr

/-- The function `renderHistoryMessage(msg)`. -/
def renderHistoryMessage (visitorName : String) (msg : HistoryMessage) : HistoryCall :=
  let msgType := historyMsgType msg
  if msg.msg_type = JS.Prim.number 2 ∨ msg.msg_type = JS.Prim.string "file" then
    HistoryCall.addFileMessage msg.content msgType
  else
    HistoryCall.addMessage msgType (historyNickname visitorName msgType) msg.content
      (historyAvatar msgType)

end VisitorChat

/-! ## `admin/chat_history.js`: the sender of a listed message -/

namespace ChatHistory

/-- The members of a message `renderMessagesList` reads to decide who sent it. -/
structure ListedMessage where
  service_id : JS.Prim
  service_name : Option String
  visitor_name : Option String
  direction : String
  deriving DecidableEq, Repr

/-- The value of `isRobot`. -/
def isRobot (msg : ListedMessage) : Bool :=
  msg.service_id = JS.Prim.number 0 ∨ msg.service_id = JS.Prim.string "0" ∨
    msg.service_name = some "机器人"

/-- The value of `isVisitor`. -/
def isVisitor (msg : ListedMessage) : Bool := msg.direction = "to_service"

/-- The value of `senderName`. -/
def senderName (msg : ListedMessage) : String :=
  if isVisitor msg then JS.orElse msg.visitor_name "访客"
  else if isRobot msg then "智能机器人"
  else JS.orElse msg.service_name "客服"

/-- The class of the avatar element: the visitor direction is tested first. -/
def avatarClass (msg : ListedMessage) : String :=
  if isVisitor msg then "avatar visitor"
  else if isRobot msg then "avatar robot"
  else "avatar service"

/-- The class list of the message item. -/
def itemClasses (msg : ListedMessage) : List String :=
  ["message-item", "direction-" ++ msg.direction] ++
    (if isRobot msg && !isVisitor msg then ["robot-message"] else [])

end ChatHistory

/-! ## `admin/global_socket.js`: who is notified of a visitor message -/

namespace GlobalSocket

/-- The members of `currentUser` the notification test reads. -/
structure User where
  level : JS.Prim
  service_id : JS.Prim
  deriving DecidableEq, Repr

/-- The function `checkShouldNotify(messageData)`; `currentUser` is `none` while it is
`null`, `service_id` is `messageData.service_id`. -/
def checkShouldNotify (toNumber : String → Option Int) (currentUser : Option User)
    (service_id : JS.Prim) : Bool :=
  match currentUser with
  | none => false
  | some user =>
    if user.level = JS.Prim.string "super_manager" ∨ user.level = JS.Prim.string "manager" then
      true
    else if service_id.truthy && JS.looseEq toNumber service_id user.service_id then true
    else false

/-- The conversion of a string of decimal digits to a number, used in examples. -/
def digitsToNumber (s : String) : Option Int :=
  if s.data ≠ [] ∧ s.data.all Char.isDigit then
    some ((JS.digitsValue 10 (s.data.map fun c => c.toNat - 48) : Nat) : Int)
  else none

end GlobalSocket

/-! ## `service/chat.js`: the preview of the last message -/

namespace ServicePermission

/-- The method `Map.prototype.delete`. -/
def JSMap.delete {β : Type} (m : JSMap β) (k : String) : JSMap β :=
  m.filter fun p => !(p.1 == k)

/-- The expression `map.keys().next().value`: the key added first, `undefined` (`none`)
for an empty map. -/
def JSMap.firstKey {β : Type} (m : JSMap β) : Option String :=
  m.head?.map fun p => p.1

/-- The property `Map.prototype.size`. -/
def JSMap.size {β : Type} (m : JSMap β) : Nat := m.length

end ServicePermission

namespace ServiceChat

open ServicePermission

/-- The string operations the preview leaves to the JavaScript engine: the number of
UTF-16 code units of a string, `text.substring(0, n)`, and the test of the regular
expression `/^[\p{Emoji}‍]+$/u`. -/
structure Engine where
  length : String → Nat
  substring : String → Nat → String
  emojiOnly : String → Bool

/-- The constant `MAX_CACHE_SIZE`. -/
def MAX_CACHE_SIZE : Nat := 100

/-- The expression `text.length > limit ? text.substring(0, limit) + '...' : text`. -/
def truncate (e : Engine) (text : String) (limit : Nat) : String :=
  if e.length text > limit then e.substring text limit ++ "..." else text

/-- The `catch` block of `formatLastMessage`: the preview of content that is not JSON. -/
def plainPreview (e : Engine) (content : String) : String :=
  let trimmedContent := JS.trim content
  let maxEmojiCheckLength := 50
  if e.length trimmedContent ≤ maxEmojiCheckLength then
    if e.emojiOnly trimmedContent then truncate e trimmedContent 3
    else truncate e trimmedContent 20
  else e.substring trimmedContent 20 ++ "..."

/-- The `try` statement of `formatLastMessage`: the value of `result` for content that is
not cached. Reading `type` of a parsed `null` and calling `startsWith` on a truthy
`mime_type` that is no string throw, which the `catch` block handles as a syntax error. -/
def formatUncached (e : Engine) (content : String) : String :=
  match Json.parse content with
  | none => plainPreview e content
  | some Json.Value.null => plainPreview e content
  | some parsed =>
    if parsed.get "type" = some (Json.Field.str "file") ∨
        parsed.get "type" = some (Json.Field.str "image") then
      if Json.truthy (parsed.get "mime_type") then
        match parsed.get "mime_type" with
        | some (Json.Field.str mime) =>
          if "image/".toList.isPrefixOf mime.data then "[图片]" else "[文件]"
        | _ => plainPreview e content
      else "[文件]"
    else truncate e content 20

/-- The function `formatLastMessage(content)` with the map `messageFormatCache` passed
through: the returned string and the map after the call. -/
def formatLastMessage (e : Engine) (cache : JSMap String) (content : String) :
    String × JSMap String :=
  if content = "" then ("", cache)
  else if cache.has content then ((cache.get content).getD "", cache)
  else
    let result := formatUncached e content
    let cache1 :=
      if cache.size ≥ MAX_CACHE_SIZE then
        match cache.firstKey with
        | some firstKey => cache.delete firstKey
        | none => cache
      else cache
    (result, cache1.set content result)

/-- The map `messageFormatCache` after `formatLastMessage` has been called with each of the
contents in turn, starting from the empty map. -/
def cacheAfter (e : Engine) (contents : List String) : JSMap String :=
  contents.foldl (fun cache content => (formatLastMessage e cache content).2) []

/-- The entries of a map are previews computed by `formatUncached` for non-empty keys, and
there are at most `MAX_CACHE_SIZE` of them. -/
def CacheInvariant (e : Engine) (cache : JSMap String) : Prop :=
  cache.length ≤ MAX_CACHE_SIZE ∧
    ∀ p ∈ cache, p.1 ≠ "" ∧ p.2 = formatUncached e p.1

/-- An engine for text of the Basic Latin letters, where a character is one code unit and
no string consists of emoji. -/
def latinEngine : Engine :=
  { length := fun text => text.length
    substring := fun text n => String.mk (text.data.take n)
    emojiOnly := fun _ => false }

/-- The payload of an image: a JSON object with `type` equal to `image` and the
`mime_type` `image/png`. -/
def imagePayload : String :=
  String.mk [Json.lbrace] ++ VisitorChat.dq ++ "type" ++ VisitorChat.dq ++ ":" ++
    VisitorChat.dq ++ "image" ++ VisitorChat.dq ++ "," ++ VisitorChat.dq ++ "mime_type" ++
    VisitorChat.dq ++ ":" ++ VisitorChat.dq ++ "image/png" ++ VisitorChat.dq ++
    String.mk [Json.rbrace]

/-- The payload of a file: a JSON object with `type` equal to `file` and the `mime_type`
`application/pdf`. -/
def filePayload : String :=
  String.mk [Json.lbrace] ++ VisitorChat.dq ++ "type" ++ VisitorChat.dq ++ ":" ++
    VisitorChat.dq ++ "file" ++ VisitorChat.dq ++ "," ++ VisitorChat.dq ++ "mime_type" ++
    VisitorChat.dq ++ ":" ++ VisitorChat.dq ++ "application/pdf" ++ VisitorChat.dq ++
    String.mk [Json.rbrace]

/-- The 101 contents `aa`, `ab`, up to `dw`: one more than the cache holds. -/
def manyContents : List String :=
  (List.range 101).map fun (i : Nat) =>
    String.mk [Char.ofNat (97 + i / 26), Char.ofNat (97 + i % 26)]

end ServiceChat

/-! ## Properties of `service_permission.js` -/

namespace ServicePermission

theorem requestPermission_contacted (s : State) (visitorId : String) (fetched : FetchOutcome)
    (storeNow : Int) : (requestPermission s visitorId fetched storeNow).contacted = true := by
  unfold requestPermission
  cases fetched with
  | response code msg data => by_cases hcode : code = 0 <;> simp [hcode]
  | thrown => rfl

theorem requestPermission_value (s : State) (visitorId : String) (fetched : FetchOutcome)
    (storeNow : Int) :
    (∃ msg data, fetched = FetchOutcome.response 0 msg data ∧
        (requestPermission s visitorId fetched storeNow).value = data) ∨
      (requestPermission s visitorId fetched storeNow).value = checkFailed ∨
      (requestPermission s visitorId fetched storeNow).value = networkError := by
  unfold requestPermission
  cases fetched with
  | response code msg data =>
    by_cases hcode : code = 0
    · subst hcode
      exact Or.inl ⟨msg, data, rfl, by simp⟩
    · exact Or.inr (Or.inl (by simp [hcode]))
  | thrown => exact Or.inr (Or.inr rfl)

/-- C1: `checkReplyPermission` answers from the cache, without sending the request, only
when the entry for the visitor was stored less than 5000 ms before the call, and then it
returns that entry's data. When the entry is 5000 ms old or older the request is sent and the
value returned is the data of a code-0 answer or one of the two `can_reply: false` failure
results; in particular a value with `can_reply` true returned then is the server's fresh
answer, never the cached one. -/
theorem checkReplyPermission_cache_ttl (s : State) (visitorId : String) (now : Int)
    (fetched : FetchOutcome) (storeNow : Int) :
    ((checkReplyPermission s visitorId now fetched storeNow).contacted = false →
        ∃ cached, s.replyPermissionCache.get visitorId = some cached ∧
          now - cached.timestamp < 5000 ∧
          (checkReplyPermission s visitorId now fetched storeNow).value = cached.data) ∧
      (∀ cached, s.replyPermissionCache.get visitorId = some cached →
        5000 ≤ now - cached.timestamp →
        (checkReplyPermission s visitorId now fetched storeNow).contacted = true ∧
        ((∃ msg data, fetched = FetchOutcome.response 0 msg data ∧
            (checkReplyPermission s visitorId now fetched storeNow).value = data) ∨
          (checkReplyPermission s visitorId now fetched storeNow).value = checkFailed ∨
          (checkReplyPermission s visitorId now fetched storeNow).value = networkError) ∧
        ((checkReplyPermission s visitorId now fetched storeNow).value.can_reply = true →
          ∃ msg data, fetched = FetchOutcome.response 0 msg data ∧ data.can_reply = true)) := by
  constructor
  · intro hnot
    unfold checkReplyPermission at hnot ⊢
    cases hget : s.replyPermissionCache.get visitorId with
    | none =>
      simp [JSMap.has, hget, requestPermission_contacted] at hnot
    | some cached =>
      by_cases hfresh : now - cached.timestamp < 5000
      · exact ⟨cached, rfl, hfresh, by simp [JSMap.has, hget, hfresh]⟩
      · simp [JSMap.has, hget, hfresh, requestPermission_contacted] at hnot
  · intro cached hget hold
    have hstale : ¬ now - cached.timestamp < 5000 := by omega
    have hcall : checkReplyPermission s visitorId now fetched storeNow
        = requestPermission s visitorId fetched storeNow := by
      unfold checkReplyPermission
      simp [JSMap.has, hget, hstale]
    rw [hcall]
    refine ⟨requestPermission_contacted s visitorId fetched storeNow,
      requestPermission_value s visitorId fetched storeNow, ?_⟩
    intro hcan
    rcases requestPermission_value s visitorId fetched storeNow with
      ⟨msg, data, hf, hv⟩ | hv | hv
    · exact ⟨msg, data, hf, by rw [← hv]; exact hcan⟩
    · rw [hv] at hcan; simp [checkFailed] at hcan
    · rw [hv] at hcan; simp [networkError] at hcan

/-- C2: `isAdmin()` is false for both administrator levels: the operator `in` tests the
keys of the array literal, which are `0`, `1`, `length` and the inherited names, not its
elements. It is false for `service` and before `init` as well, and true for the level `1`. -/
theorem isAdmin_false_for_managers (s : State) (serviceId : Option String) :
    isAdmin (init s serviceId (some "manager")) = false ∧
      isAdmin (init s serviceId (some "super_manager")) = false ∧
      isAdmin (init s serviceId (some "service")) = false ∧
      isAdmin constructor = false ∧
      isAdmin (init s serviceId (some "1")) = true := by
  refine ⟨?_, ?_, ?_, ?_, ?_⟩ <;> simp only [isAdmin, init, constructor] <;> decide

/-- C3: the Permission Gate decides by first match: manager or super_manager capability
gives true; otherwise an assignment to the asking agent gives true; otherwise the answer is
false and carries the reason and the public info of the current assignee. The client hands
that answer on unchanged whenever it has no cached entry for the visitor. -/
theorem canReply_first_match (level : Level) (agentId : Nat) (assigned_agent_id : Option Nat)
    (publicInfo : Nat → AssignedService) (denyReason : String) :
    ((level = Level.manager ∨ level = Level.super_manager) →
        (canReply level agentId assigned_agent_id publicInfo denyReason).can_reply = true) ∧
      (level = Level.service → assigned_agent_id = some agentId →
        (canReply level agentId assigned_agent_id publicInfo denyReason).can_reply = true) ∧
      (level = Level.service → assigned_agent_id ≠ some agentId →
        canReply level agentId assigned_agent_id publicInfo denyReason =
          { can_reply := false
            reason := some denyReason
            assigned_service := assigned_agent_id.map publicInfo }) ∧
      (∀ (s : State) (visitorId msg : String) (now storeNow : Int),
        s.replyPermissionCache.get visitorId = none →
        (checkReplyPermission s visitorId now
          (FetchOutcome.response 0 msg
            (canReply level agentId assigned_agent_id publicInfo denyReason)) storeNow).value =
          canReply level agentId assigned_agent_id publicInfo denyReason) := by
  refine ⟨?_, ?_, ?_, ?_⟩
  · intro hlevel
    simp [canReply, hlevel]
  · intro hlevel hassigned
    simp [canReply, hlevel, hassigned]
  · intro hlevel hassigned
    simp [canReply, hlevel, hassigned]
  · intro s visitorId msg now storeNow hget
    simp [checkReplyPermission, JSMap.has, hget, requestPermission]

end ServicePermission

/-! ## Properties of `VirtualScroll` -/

namespace VirtualScroll

variable {α : Type}

theorem le_ceilDiv_mul (a b : Nat) (hb : 0 < b) : (a : Int) ≤ ceilDiv a b * (b : Int) := by
  unfold ceilDiv
  have hdiv := Nat.div_add_mod (a + (b - 1)) b
  have hmod := Nat.mod_lt (a + (b - 1)) hb
  have hcomm : b * ((a + (b - 1)) / b) = (a + (b - 1)) / b * b := Nat.mul_comm _ _
  have hnat : a ≤ (a + (b - 1)) / b * b := by omega
  exact_mod_cast hnat

theorem ceilDiv_nonneg (a b : Nat) : 0 ≤ ceilDiv a b := by
  unfold ceilDiv
  exact Int.ofNat_nonneg _

theorem ceilDiv_least (a b : Nat) (c : Nat) (hb : 0 < b) (hc : a ≤ c * b) :
    ceilDiv a b ≤ (c : Int) := by
  unfold ceilDiv
  have hlt : a + (b - 1) < (c + 1) * b := by
    rw [Nat.add_mul]; omega
  have := (Nat.div_lt_iff_lt_mul hb).2 hlt
  exact_mod_cast Nat.lt_succ_iff.1 this

theorem floorDiv_mul_le (a b : Nat) : floorDiv a b * (b : Int) ≤ (a : Int) := by
  unfold floorDiv
  exact_mod_cast Nat.div_mul_le_self a b

theorem lt_floorDiv_succ_mul (a b : Nat) (hb : 0 < b) :
    (a : Int) < (floorDiv a b + 1) * (b : Int) := by
  unfold floorDiv
  have hdiv := Nat.div_add_mod a b
  have hmod := Nat.mod_lt a hb
  have hcomm : b * (a / b) = a / b * b := Nat.mul_comm _ _
  have hnat : a < (a / b + 1) * b := by
    rw [Nat.add_mul]; omega
  exact_mod_cast hnat

/-- C4: after `_updateVisibleRange`, every item of `data` whose slot overlaps the viewport
lies in the range `[startIndex, endIndex)`, for a positive item height and a buffer of at
least one item. -/
theorem updateVisibleRange_covers_visible (s : State α) (i : Nat)
    (hh : 0 < s.itemHeight) (hb : 1 ≤ s.bufferSize) (hi : i < s.data.length)
    (hv : slotVisible s.itemHeight s.scrollTop s.containerHeight i) :
    (_updateVisibleRange s).startIndex ≤ (i : Int) ∧
      (i : Int) < (_updateVisibleRange s).endIndex := by
  obtain ⟨hbelow, habove⟩ := hv
  have hfloor : floorDiv s.scrollTop s.itemHeight ≤ (i : Int) := by
    unfold floorDiv
    have : s.scrollTop / s.itemHeight < i + 1 := (Nat.div_lt_iff_lt_mul hh).2 habove
    exact_mod_cast Nat.lt_succ_iff.1 this
  have hceil := le_ceilDiv_mul s.containerHeight s.itemHeight hh
  have htop := lt_floorDiv_succ_mul s.scrollTop s.itemHeight hh
  have hpos : (0 : Int) < (s.itemHeight : Int) := by exact_mod_cast hh
  have hlt : (i : Int) * (s.itemHeight : Int) <
      (floorDiv s.scrollTop s.itemHeight + 1 + ceilDiv s.containerHeight s.itemHeight) *
        (s.itemHeight : Int) := by
    have hcast : (i : Int) * (s.itemHeight : Int) <
        (s.scrollTop : Int) + (s.containerHeight : Int) := by exact_mod_cast hbelow
    nlinarith
  have hidx : (i : Int) <
      floorDiv s.scrollTop s.itemHeight + 1 + ceilDiv s.containerHeight s.itemHeight :=
    lt_of_mul_lt_mul_right hlt hpos.le
  have hlen : (i : Int) < (s.data.length : Int) := by exact_mod_cast hi
  simp only [_updateVisibleRange]
  constructor
  · omega
  · omega

/-- Witness for C4 at scroll offset 120 with items of 80 pixels: item 2 overlaps the viewport
of 80 pixels and is rendered. -/
theorem updateVisibleRange_covers_visible_witness :
    (_updateVisibleRange (userScroll (constructor
        { data := some [1, 2, 3, 4, 5, 6, 7, 8, 9, 10], itemHeight := some 80,
          bufferSize := some 1 } 80) 120)).startIndex ≤ ((2 : Nat) : Int) ∧
      ((2 : Nat) : Int) < (_updateVisibleRange (userScroll (constructor
        { data := some [1, 2, 3, 4, 5, 6, 7, 8, 9, 10], itemHeight := some 80,
          bufferSize := some 1 } 80) 120)).endIndex :=
  updateVisibleRange_covers_visible _ 2 (by decide) (by decide) (by decide) (by decide)

theorem renderedElements_length (s : State α) :
    (renderedElements s).length = (s.endIndex - s.startIndex).toNat := by
  unfold renderedElements
  rw [List.length_map, List.length_range]

/-- C5: the number of elements `_render` creates after `_updateVisibleRange` is at most
`ceil(containerHeight / itemHeight) + 2 * bufferSize`, whatever the length of `data`. -/
theorem render_count_bounded (s : State α) (_hh : 0 < s.itemHeight) (hb : 0 < s.bufferSize) :
    ((_render (_updateVisibleRange s)).contentChildren.length : Int) ≤
      ceilDiv s.containerHeight s.itemHeight + 2 * s.bufferSize := by
  have hceil := ceilDiv_nonneg s.containerHeight s.itemHeight
  have hlen : (_render (_updateVisibleRange s)).contentChildren.length =
      ((_updateVisibleRange s).endIndex - (_updateVisibleRange s).startIndex).toNat :=
    renderedElements_length (_updateVisibleRange s)
  rw [hlen]
  simp only [_updateVisibleRange]
  omega

/-- Witness for C5: ten thousand items, a viewport of 400 pixels and items of 80 pixels. -/
theorem render_count_bounded_witness :
    ((_render (_updateVisibleRange (constructor
        { data := some (List.replicate 10000 0), itemHeight := some 80,
          bufferSize := some 5 } 400))).contentChildren.length : Int) ≤
      ceilDiv 400 80 + 2 * 5 :=
  render_count_bounded _ (by decide) (by decide)

/-- C6: at scroll offset 120, with items of 80 pixels, a viewport of 80 pixels, a buffer of 1
and ten items, the items overlapping the viewport are items 1 and 2, and the rendered range
ends at 3: no item below the visible ones is rendered, where the buffer asks for
`min(data.length, last + 1 + bufferSize) = 4`. The lower end is as documented,
`startIndex = max(0, first - bufferSize)`. -/
theorem updateVisibleRange_bottom_buffer_short :
    ¬ slotVisible 80 120 80 0 ∧ slotVisible 80 120 80 1 ∧
      slotVisible 80 120 80 2 ∧ ¬ slotVisible 80 120 80 3 ∧
      (_updateVisibleRange (userScroll (constructor
        { data := some [1, 2, 3, 4, 5, 6, 7, 8, 9, 10], itemHeight := some 80,
          bufferSize := some 1 } 80) 120)).startIndex = max 0 (1 - 1) ∧
      (_updateVisibleRange (userScroll (constructor
        { data := some [1, 2, 3, 4, 5, 6, 7, 8, 9, 10], itemHeight := some 80,
          bufferSize := some 1 } 80) 120)).endIndex = 3 ∧
      ¬ (min (10 : Int) (2 + 1 + 1) ≤ (_updateVisibleRange (userScroll (constructor
        { data := some [1, 2, 3, 4, 5, 6, 7, 8, 9, 10], itemHeight := some 80,
          bufferSize := some 1 } 80) 120)).endIndex) := by
  decide

theorem contentScrollHeight_of_tall (s : State α) (hc : Consistent s)
    (htall : s.viewportClientHeight ≤ s.data.length * s.itemHeight) :
    contentScrollHeight s = s.data.length * s.itemHeight := by
  unfold contentScrollHeight
  rw [hc.1]
  exact max_eq_left htall

/-- The state `prependData` leaves, spelled out for a consistent object whose content is at
least as tall as the viewport. -/
theorem prependData_viewportScrollTop (s : State α) (items : List α) (hc : Consistent s)
    (htall : s.viewportClientHeight ≤ s.data.length * s.itemHeight) :
    (prependData s items).viewportScrollTop =
      min (s.scrollTop + items.length * s.itemHeight)
        ((items.length + s.data.length) * s.itemHeight - s.viewportClientHeight) := by
  obtain ⟨hheight, hrange⟩ := hc
  have hmul : (items.length + s.data.length) * s.itemHeight =
      items.length * s.itemHeight + s.data.length * s.itemHeight := Nat.add_mul _ _ _
  simp only [prependData, _render, _updateVisibleRange, setViewportScrollTop,
    _updateContentHeight, contentScrollHeight, maxScrollTop, List.length_append]
  rw [hheight, hmul]
  omega

theorem prependData_fields (s : State α) (items : List α) :
    (prependData s items).data = items ++ s.data ∧
      (prependData s items).itemHeight = s.itemHeight ∧
      (prependData s items).scrollTop = s.scrollTop ∧
      (prependData s items).viewportClientHeight = s.viewportClientHeight ∧
      (prependData s items).contentStyleHeight = (items ++ s.data).length * s.itemHeight := by
  simp [prependData, _render, _updateVisibleRange, setViewportScrollTop, _updateContentHeight]

theorem prependData_consistent (s : State α) (items : List α) :
    Consistent (prependData s items) := by
  constructor
  · obtain ⟨hdata, hitem, -, -, hstyle⟩ := prependData_fields s items
    rw [hstyle, hdata, hitem]
  · simp only [prependData, _render, _updateVisibleRange, setViewportScrollTop,
      _updateContentHeight, contentScrollHeight, maxScrollTop]
    omega

theorem handleScroll_fields (s : State α) :
    (_handleScroll s).data = s.data ∧
      (_handleScroll s).itemHeight = s.itemHeight ∧
      (_handleScroll s).scrollTop = s.viewportScrollTop ∧
      (_handleScroll s).viewportScrollTop = s.viewportScrollTop ∧
      (_handleScroll s).viewportClientHeight = s.viewportClientHeight ∧
      (_handleScroll s).contentStyleHeight = s.contentStyleHeight := by
  simp [_handleScroll, _render, _updateVisibleRange]

theorem handleScroll_consistent (s : State α) (hc : Consistent s) :
    Consistent (_handleScroll s) := by
  obtain ⟨hdata, hitem, -, hview, hclient, hstyle⟩ := handleScroll_fields s
  unfold Consistent maxScrollTop contentScrollHeight at *
  rw [hdata, hitem, hview, hclient, hstyle]
  exact hc

/-- The scroll offset `prependData` sets when the recorded `scrollTop` is the viewport's. -/
theorem prependData_offset (s : State α) (items : List α) (hc : Consistent s)
    (htall : s.viewportClientHeight ≤ s.data.length * s.itemHeight)
    (hsync : s.scrollTop = s.viewportScrollTop) :
    (prependData s items).viewportScrollTop =
      s.viewportScrollTop + items.length * s.itemHeight := by
  rw [prependData_viewportScrollTop s items hc htall, hsync]
  have hrange := hc.2
  rw [maxScrollTop, contentScrollHeight_of_tall s hc htall] at hrange
  have hmul : (items.length + s.data.length) * s.itemHeight =
      items.length * s.itemHeight + s.data.length * s.itemHeight := Nat.add_mul _ _ _
  omega

/-- C7: for an object whose content is at least as tall as the viewport and whose recorded
`scrollTop` equals the viewport's scroll offset, `prependData(items)` moves the viewport's
scroll offset by `items.length * itemHeight`; the item that was at index `i` is at index
`i + items.length` and its pixel offset relative to the viewport is unchanged. -/
theorem prependData_keeps_anchor (s : State α) (items : List α) (hc : Consistent s)
    (htall : s.viewportClientHeight ≤ s.data.length * s.itemHeight)
    (hsync : s.scrollTop = s.viewportScrollTop) :
    (prependData s items).viewportScrollTop =
        s.viewportScrollTop + items.length * s.itemHeight ∧
      ∀ i : Nat,
        (prependData s items).data.get? (i + items.length) = s.data.get? i ∧
        (((i + items.length) * (prependData s items).itemHeight : Nat) : Int) -
            ((prependData s items).viewportScrollTop : Int) =
          ((i * s.itemHeight : Nat) : Int) - (s.viewportScrollTop : Int) := by
  have htop := prependData_offset s items hc htall hsync
  refine ⟨htop, fun i => ⟨?_, ?_⟩⟩
  · rw [(prependData_fields s items).1, Nat.add_comm i items.length]
    simp [List.getElem?_append_right]
  · rw [htop, (prependData_fields s items).2.1, Nat.add_mul]
    push_cast
    ring

/-- Witness for C7: ten items of 80 pixels in a viewport of 160 pixels scrolled to 120, two
items prepended. -/
theorem prependData_keeps_anchor_witness :
    (prependData (userScroll (constructor
        { data := some [1, 2, 3, 4, 5, 6, 7, 8, 9, 10], itemHeight := some 80,
          bufferSize := some 1 } 160) 120) [11, 12]).viewportScrollTop = 120 + 2 * 80 :=
  (prependData_keeps_anchor (userScroll (constructor
      { data := some [1, 2, 3, 4, 5, 6, 7, 8, 9, 10], itemHeight := some 80,
        bufferSize := some 1 } 160) 120) [11, 12]
    ⟨by decide, by decide⟩ (by decide) (by decide)).1

/-- One `prependData` call followed by the scroll listener keeps the three conditions under
which the scroll anchor is kept, and moves the viewport by the height of the new items. -/
theorem prepend_then_scroll_step (s : State α) (items : List α) (hc : Consistent s)
    (htall : s.viewportClientHeight ≤ s.data.length * s.itemHeight)
    (hsync : s.scrollTop = s.viewportScrollTop) :
    Consistent (_handleScroll (prependData s items)) ∧
      (_handleScroll (prependData s items)).viewportClientHeight ≤
        (_handleScroll (prependData s items)).data.length *
          (_handleScroll (prependData s items)).itemHeight ∧
      (_handleScroll (prependData s items)).scrollTop =
        (_handleScroll (prependData s items)).viewportScrollTop ∧
      (_handleScroll (prependData s items)).itemHeight = s.itemHeight ∧
      (_handleScroll (prependData s items)).viewportScrollTop =
        s.viewportScrollTop + items.length * s.itemHeight := by
  obtain ⟨hdata, hitem, hscroll, hview, hclient, -⟩ := handleScroll_fields (prependData s items)
  obtain ⟨pdata, pitem, -, pclient, -⟩ := prependData_fields s items
  refine ⟨handleScroll_consistent _ (prependData_consistent s items), ?_, ?_, ?_, ?_⟩
  · rw [hclient, hdata, hitem, pclient, pdata, pitem, List.length_append, Nat.add_mul]
    omega
  · rw [hscroll, hview]
  · rw [hitem, pitem]
  · rw [hview]
    exact prependData_offset s items hc htall hsync

/-- C8, as the code behaves: for an object whose content is at least as tall as the viewport
and whose recorded `scrollTop` equals the viewport's scroll offset, after `N` `prependData`
calls of `k` items each, the scroll listener having run after each call, the viewport's
scroll offset is its initial value plus `N * k * itemHeight`. -/
theorem prependAll_keeps_anchor (batches : List (List α)) (k : Nat) (s : State α)
    (hc : Consistent s)
    (htall : s.viewportClientHeight ≤ s.data.length * s.itemHeight)
    (hsync : s.scrollTop = s.viewportScrollTop)
    (hk : ∀ items ∈ batches, items.length = k) :
    (prependAll s batches).viewportScrollTop =
      s.viewportScrollTop + batches.length * k * s.itemHeight := by
  induction batches generalizing s with
  | nil => simp [prependAll]
  | cons items rest ih =>
    obtain ⟨hc1, htall1, hsync1, hitem1, htop1⟩ :=
      prepend_then_scroll_step s items hc htall hsync
    have hrest : ∀ b ∈ rest, b.length = k := fun b hb => hk b (List.mem_cons_of_mem _ hb)
    have hlen : items.length = k := hk items (List.mem_cons_self _ _)
    have hstep := ih (_handleScroll (prependData s items)) hc1 htall1 hsync1 hrest
    have hfold : prependAll s (items :: rest) =
        prependAll (_handleScroll (prependData s items)) rest := rfl
    rw [hfold, hstep, htop1, hitem1, hlen, List.length_cons]
    ring

/-- Witness for the amended C8: three batches of two items prepended to ten items of 80
pixels in a viewport of 160 pixels scrolled to 120. -/
theorem prependAll_keeps_anchor_witness :
    (prependAll (userScroll (constructor
        { data := some [1, 2, 3, 4, 5, 6, 7, 8, 9, 10], itemHeight := some 80,
          bufferSize := some 1 } 160) 120) [[11, 12], [13, 14], [15, 16]]).viewportScrollTop =
      120 + 3 * 2 * 80 :=
  prependAll_keeps_anchor [[11, 12], [13, 14], [15, 16]] 2 (userScroll (constructor
      { data := some [1, 2, 3, 4, 5, 6, 7, 8, 9, 10], itemHeight := some 80,
        bufferSize := some 1 } 160) 120)
    ⟨by decide, by decide⟩ (by decide) (by decide) (by decide)

/-- C8 fails as stated: one item of 80 pixels in a viewport of 160 pixels, one item
prepended. The content is still no taller than the viewport, so there is nothing to scroll:
the scroll offset stays 0 where the claim asks for `0 + 1 * 1 * 80`, and the item that was
at the top of the viewport is now 80 pixels below it. This is so with and without the scroll
listener running after the call. -/
theorem prependData_short_content_moves_item :
    (constructor { data := some [7], itemHeight := some 80, bufferSize := none }
        160 : State Nat).viewportScrollTop = 0 ∧
      (prependData (constructor { data := some [7], itemHeight := some 80, bufferSize := none }
        160 : State Nat) [3]).viewportScrollTop = 0 ∧
      (prependAll (constructor { data := some [7], itemHeight := some 80, bufferSize := none }
        160 : State Nat) [[3]]).viewportScrollTop = 0 ∧
      ¬ ((prependAll (constructor { data := some [7], itemHeight := some 80, bufferSize := none }
        160 : State Nat) [[3]]).viewportScrollTop = 0 + 1 * 1 * 80) ∧
      (prependAll (constructor { data := some [7], itemHeight := some 80, bufferSize := none }
        160 : State Nat) [[3]]).data.get? 1 = some 7 := by
  decide

end VirtualScroll

/-! ## Properties of `MessageVirtualScroll` and of the session-detail view -/

namespace Dom

variable {ν : Type}

theorem Container.children_withChildren (height : ν → Nat) (c : Container ν)
    (children : List ν) : (c.withChildren height children).children = children := rfl

theorem Container.children_setScrollTop (height : ν → Nat) (c : Container ν) (value : Int) :
    (c.setScrollTop height value).children = c.children := rfl

end Dom

namespace ChatHistory

/-- C9: both loaders of older messages set the scroll offset to the growth in content height
alone, dropping the offset the container had when the load was triggered. With four messages
in `MessageVirtualScroll` and the container at offset 50, `_loadMore` grows the content from
200 to 400 pixels and leaves the offset at 200, not 50 + 200. In the session-detail view at
offset 50, loading page 2 grows the content from 300 to 600 pixels and leaves the offset at
300, not 50 + 300. In both cases 50 is below the trigger threshold of 100 and the sum lies in
the scrollable range. -/
theorem loaders_drop_previous_offset :
    (MessageVirtualScroll.fourMessages.container.scrollTop = 50 ∧
      MessageVirtualScroll.fourMessages.container.scrollHeight
        MessageVirtualScroll.Elem.height = 200 ∧
      (MessageVirtualScroll.userScroll MessageVirtualScroll.fourMessages 50).container.scrollHeight
        MessageVirtualScroll.Elem.height = 400 ∧
      (MessageVirtualScroll.userScroll MessageVirtualScroll.fourMessages 50).container.scrollTop
        = 200 ∧
      50 + (400 - 200) ≤
        (MessageVirtualScroll.userScroll MessageVirtualScroll.fourMessages
          50).container.maxScrollTop MessageVirtualScroll.Elem.height) ∧
    ((threePagesOpened.detailMessages.map fun c => c.scrollHeight uniformHeight) = some 300 ∧
      (threePagesOpened.detailMessages.map fun c => c.scrollTop) = some 150 ∧
      ((userScroll uniformHeight (fun t => t) threePages threePagesOpened
          50).detailMessages.map fun c =>
        (c.scrollTop, c.scrollHeight uniformHeight, c.maxScrollTop uniformHeight)) =
          some (300, 600, 450) ∧
      (userScroll uniformHeight (fun t => t) threePages threePagesOpened
          50).currentSessionPage = 2) := by
  decide

theorem messageItems_append (a b : List DetailNode) :
    messageItems (a ++ b) = messageItems a ++ messageItems b := by
  unfold messageItems
  exact List.filterMap_append _ _ _

theorem messageItems_renderItems (dateOf : String → String) (lastDate : Option String)
    (messages : List Message) :
    messageItems (renderItems dateOf lastDate messages) = messages := by
  induction messages generalizing lastDate with
  | nil => rfl
  | cons msg rest ih =>
    unfold renderItems
    simp only []
    split
    · have := ih (formatDateOnly dateOf msg.timestamp)
      simp only [messageItems, List.filterMap_cons] at this ⊢
      rw [this]
    · have := ih lastDate
      simp only [messageItems, List.filterMap_cons] at this ⊢
      rw [this]

theorem pagesFrom_succ (fetch : Fetch) (first : Int) (count : Nat) :
    pagesFrom fetch first (count + 1) =
      pageMessages fetch first ++ pagesFrom fetch (first + 1) count := by
  unfold pagesFrom
  rw [List.range_succ_eq_map, List.map_cons, List.flatten_cons, List.map_map]
  congr 2
  · simp
  · apply List.map_congr_left
    intro i _
    simp only [Function.comp]
    congr 1
    push_cast
    ring

/-- The initial load leaves the view showing the last page. -/
theorem viewSessionDetail_loaded (height : DetailNode → Nat) (dateOf : String → String)
    (clientHeight : Nat) (fetch : Fetch) (tp : Int) (s0 : State)
    (hfetch : ∀ p : Int, 1 ≤ p → p ≤ tp → ∃ r, fetch p = some r ∧ r.code = 0 ∧
      r.data.total_pages = tp ∧ r.data.messages ≠ [])
    (htp : 1 ≤ tp) :
    Loaded fetch tp 0 (viewSessionDetail height dateOf clientHeight fetch s0) := by
  obtain ⟨r1, hr1, hcode1, htotal1, -⟩ := hfetch 1 (le_refl 1) htp
  obtain ⟨rl, hrl, hcodel, -, -⟩ := hfetch tp htp (le_refl tp)
  have hpage : pagesFrom fetch tp 1 = rl.data.messages := by
    rw [show (1 : Nat) = 0 + 1 from rfl, pagesFrom_succ]
    simp [pagesFrom, pageMessages, hrl]
  unfold Loaded
  simp only [viewSessionDetail, loadSessionDetailWithPagination, hr1, hcode1, htotal1, hrl,
    hcodel, if_true, displayed, renderMessagesBatch, Dom.Container.withChildren,
    List.nil_append, messageItems_renderItems, Nat.cast_zero, sub_zero, hpage]
  simp

/-- One scroll to an offset below 100, while older pages remain, loads the next older page
above the displayed messages. -/
theorem userScroll_loaded (height : DetailNode → Nat) (dateOf : String → String)
    (fetch : Fetch) (tp : Int) (j : Nat) (s : State) (offset : Nat)
    (hfetch : ∀ p : Int, 1 ≤ p → p ≤ tp → ∃ r, fetch p = some r ∧ r.code = 0 ∧
      r.data.total_pages = tp ∧ r.data.messages ≠ [])
    (hloaded : Loaded fetch tp j s) (hj : (j : Int) + 1 < tp) (hoffset : offset < 100) :
    Loaded fetch tp (j + 1) (userScroll height dateOf fetch s offset) := by
  obtain ⟨hpage, hloading, hmore, hlisten, hsome, hshown⟩ := hloaded
  obtain ⟨c, hc⟩ := Option.isSome_iff_exists.1 hsome
  obtain ⟨r, hr, hcode, -, hne⟩ := hfetch (tp - (j : Int) - 1) (by omega) (by omega)
  have hlen : 0 < r.data.messages.length := List.length_pos.2 hne
  have hshown2 : messageItems c.children = pagesFrom fetch (tp - (j : Int)) (j + 1) := by
    simpa [displayed, hc] using hshown
  have hscroll : (c.setScrollTop height (offset : Int)).scrollTop < 100 := by
    simp only [Dom.Container.setScrollTop]
    omega
  have hmore2 : s.hasMoreHistoryMessages = true := by rw [hmore]; simp; omega
  have hlisten2 : s.listening = true := by rw [hlisten]; simp; omega
  have hcur : s.currentSessionPage > 1 := by omega
  have hnext : pagesFrom fetch (tp - ((j + 1 : Nat) : Int)) (j + 1 + 1) =
      r.data.messages ++ pagesFrom fetch (tp - (j : Int)) (j + 1) := by
    rw [pagesFrom_succ]
    have h1 : tp - ((j + 1 : Nat) : Int) = tp - (j : Int) - 1 := by push_cast; ring
    have h2 : tp - ((j + 1 : Nat) : Int) + 1 = tp - (j : Int) := by push_cast; ring
    rw [h2, h1]
    simp [pageMessages, hr]
  have hchildren : (c.setScrollTop height (offset : Int)).children = c.children := rfl
  have hstep : userScroll height dateOf fetch s offset =
      onScroll height dateOf fetch
        { s with detailMessages := some (c.setScrollTop height (offset : Int)) } := by
    simp [userScroll, hc, hlisten2]
  rw [hstep]
  generalize c.setScrollTop height (offset : Int) = c1 at hscroll hchildren
  have hguard : 1 < tp - (j : Int) := by omega
  unfold Loaded
  rw [hnext]
  simp only [onScroll, hscroll, hloading, hmore2, hpage, hr, hcode, hlen, hguard, if_true,
    Bool.not_false, and_self, gt_iff_lt, decide_True, displayed, renderMessagesToTop,
    Dom.Container.children_withChildren, Dom.Container.children_setScrollTop,
    List.erase_cons_head, messageItems_append, messageItems_renderItems, hchildren, hshown2]
  have hcast : tp - ((j + 1 : Nat) : Int) = tp - (j : Int) - 1 := by push_cast; ring
  rw [hcast]
  exact ⟨rfl, trivial, rfl, hlisten, rfl, trivial⟩

/-- Any run of scrolls to offsets below 100, no more of them than there are older pages,
loads one older page each. -/
theorem scrolls_loaded (height : DetailNode → Nat) (dateOf : String → String)
    (fetch : Fetch) (tp : Int)
    (hfetch : ∀ p : Int, 1 ≤ p → p ≤ tp → ∃ r, fetch p = some r ∧ r.code = 0 ∧
      r.data.total_pages = tp ∧ r.data.messages ≠ [])
    (offsets : List Nat) (j : Nat) (s : State) (hloaded : Loaded fetch tp j s)
    (hj : (j : Int) + (offsets.length : Int) < tp) (hoffsets : ∀ o ∈ offsets, o < 100) :
    Loaded fetch tp (j + offsets.length)
      (offsets.foldl (userScroll height dateOf fetch) s) := by
  induction offsets generalizing j s with
  | nil => simpa using hloaded
  | cons o rest ih =>
    have hlen : ((o :: rest).length : Int) = (rest.length : Int) + 1 := by
      rw [List.length_cons]; push_cast; ring
    have hstep := userScroll_loaded height dateOf fetch tp j s o hfetch hloaded (by omega)
      (hoffsets o (List.mem_cons_self _ _))
    have hrest := ih (j + 1) (userScroll height dateOf fetch s o) hstep
      (by push_cast; omega) (fun x hx => hoffsets x (List.mem_cons_of_mem _ hx))
    have hcount : j + (o :: rest).length = j + 1 + rest.length := by
      rw [List.length_cons]; omega
    rw [hcount]
    exact hrest

/-- C10: in the session-detail view, when every page request succeeds with a non-empty page,
the messages displayed after the initial load and `j` scroll-up loads are the concatenation
of the pages `total_pages - j, ..., total_pages` in ascending order, and `currentSessionPage`
is `total_pages - j`; the first page shown (`j = 0`) is page `total_pages`, requested with
the count taken from the answer to the first request. Once `currentSessionPage` is 1 the
view shows the concatenation of all pages `1, ..., total_pages` and no older page remains
to load. -/
theorem session_detail_shows_pages_in_order (height : DetailNode → Nat)
    (dateOf : String → String) (clientHeight : Nat) (fetch : Fetch) (tp : Int) (s0 : State)
    (offsets : List Nat)
    (hfetch : ∀ p : Int, 1 ≤ p → p ≤ tp → ∃ r, fetch p = some r ∧ r.code = 0 ∧
      r.data.total_pages = tp ∧ r.data.messages ≠ [])
    (hj : (offsets.length : Int) < tp) (hoffsets : ∀ o ∈ offsets, o < 100) :
    displayed (offsets.foldl (userScroll height dateOf fetch)
        (viewSessionDetail height dateOf clientHeight fetch s0)) =
        pagesFrom fetch (tp - (offsets.length : Int)) (offsets.length + 1) ∧
      (offsets.foldl (userScroll height dateOf fetch)
        (viewSessionDetail height dateOf clientHeight fetch s0)).currentSessionPage =
        tp - (offsets.length : Int) ∧
      ((offsets.foldl (userScroll height dateOf fetch)
        (viewSessionDetail height dateOf clientHeight fetch s0)).currentSessionPage = 1 →
        displayed (offsets.foldl (userScroll height dateOf fetch)
          (viewSessionDetail height dateOf clientHeight fetch s0)) =
          pagesFrom fetch 1 tp.toNat ∧
        (offsets.foldl (userScroll height dateOf fetch)
          (viewSessionDetail height dateOf clientHeight fetch s0)).hasMoreHistoryMessages =
          false) := by
  have htp : 1 ≤ tp := by omega
  have hinit := viewSessionDetail_loaded height dateOf clientHeight fetch tp s0 hfetch htp
  have hall := scrolls_loaded height dateOf fetch tp hfetch offsets 0
    (viewSessionDetail height dateOf clientHeight fetch s0) hinit (by push_cast; omega) hoffsets
  rw [Nat.zero_add] at hall
  obtain ⟨hpage, -, hmore, -, -, hshown⟩ := hall
  refine ⟨hshown, hpage, fun hone => ?_⟩
  have hfirst : tp - (offsets.length : Int) = 1 := by rw [← hpage]; exact hone
  have hcount : offsets.length + 1 = tp.toNat := by omega
  rw [hfirst] at hshown hmore
  rw [hcount] at hshown
  exact ⟨hshown, by rw [hmore]; simp⟩

/-- Witness for C10: the three-page history after the initial load and two scroll-up loads,
at offsets 50 and 20. -/
theorem session_detail_shows_pages_in_order_witness :
    displayed ([50, 20].foldl (userScroll uniformHeight (fun t => t) threePages)
        (viewSessionDetail uniformHeight (fun t => t) 150 threePages initial)) =
      pagesFrom threePages (3 - 2) (2 + 1) :=
  (session_detail_shows_pages_in_order uniformHeight (fun t => t) 150 threePages 3 initial
    [50, 20]
    (by
      intro p h1 h3
      have hp : p = 1 ∨ p = 2 ∨ p = 3 := by omega
      rcases hp with rfl | rfl | rfl
      · exact ⟨_, rfl, rfl, rfl, by decide⟩
      · exact ⟨_, rfl, rfl, rfl, by decide⟩
      · exact ⟨_, rfl, rfl, rfl, by decide⟩)
    (by decide) (by decide)).1

end ChatHistory

/-! ## Properties of the presence poller of `visitor_chat.js` -/

namespace VisitorChat

theorem TimerInvariant.handleInvariant {s : Poller} (h : TimerInvariant s) :
    HandleInvariant s := by
  unfold TimerInvariant at h
  unfold HandleInvariant
  refine ⟨h.1, ?_⟩
  cases hs : s.statusCheckInterval with
  | none => simpa [hs] using h.2
  | some handle =>
    have h2 := h.2
    simp only [hs] at h2 ⊢
    exact ⟨h2.1, h2.2.1, _, h2.2.2⟩

theorem HandleInvariant.carry {s t : Poller} (h : HandleInvariant s)
    (h1 : t.nextHandle = s.nextHandle) (h2 : t.statusCheckInterval = s.statusCheckInterval)
    (h3 : t.timers = s.timers) : HandleInvariant t := by
  unfold HandleInvariant at h ⊢
  rw [h1, h2, h3]
  exact h

theorem TimerInvariant.transfer {s t : Poller} (h : TimerInvariant s)
    (h1 : t.nextHandle = s.nextHandle) (h2 : t.statusCheckInterval = s.statusCheckInterval)
    (h3 : t.timers = s.timers) (h4 : t.isInitialPhase = s.isInitialPhase) :
    TimerInvariant t := by
  unfold TimerInvariant phaseInterval at h ⊢
  rw [h1, h2, h3, h4]
  exact h

/-- After `stopStatusCheck` no presence-poll timer runs and the variable is `null`. -/
theorem stopStatusCheck_spec (s : Poller) (h : HandleInvariant s) :
    (stopStatusCheck s).timers = [] ∧ (stopStatusCheck s).statusCheckInterval = none ∧
      (stopStatusCheck s).nextHandle = s.nextHandle ∧
      (stopStatusCheck s).isInitialPhase = s.isInitialPhase ∧
      (stopStatusCheck s).initialCheckCount = s.initialCheckCount := by
  unfold HandleInvariant at h
  unfold stopStatusCheck
  cases hs : s.statusCheckInterval with
  | none =>
    have h2 := h.2
    simp only [hs] at h2
    simp [handleTruthy, hs, h2]
  | some handle =>
    have h2 := h.2
    simp only [hs] at h2
    obtain ⟨hpos, -, interval, htimers⟩ := h2
    have hne : handle ≠ 0 := by omega
    simp [handleTruthy, hs, hne, clearInterval, htimers]

theorem stopStatusCheck_timerInvariant (s : Poller) (h : HandleInvariant s) :
    TimerInvariant (stopStatusCheck s) := by
  obtain ⟨ht, hv, hn, -, -⟩ := stopStatusCheck_spec s h
  unfold TimerInvariant
  rw [hv, hn]
  exact ⟨h.1, ht⟩

/-- After `startStatusCheck` exactly one presence-poll timer runs, under the handle the
variable holds and with the interval of the current phase. -/
theorem startStatusCheck_timerInvariant (s : Poller) (h : HandleInvariant s) :
    TimerInvariant (startStatusCheck s) := by
  obtain ⟨ht, -, hn, hp, -⟩ := stopStatusCheck_spec s h
  have hpos := h.1
  unfold TimerInvariant phaseInterval startStatusCheck setInterval
  simp only [ht, hn, hp, List.nil_append]
  exact ⟨by omega, by omega, by omega, trivial⟩

theorem startStatusCheck_phase (s : Poller) :
    (startStatusCheck s).isInitialPhase = s.isInitialPhase ∧
      (startStatusCheck s).initialCheckCount = s.initialCheckCount := by
  unfold startStatusCheck setInterval stopStatusCheck clearInterval
  cases hs : s.statusCheckInterval with
  | none => simp [handleTruthy]
  | some handle => by_cases h0 : handle = 0 <;> simp [handleTruthy, h0]

theorem showOnline_timerInvariant (s : Poller) (services : List String) (total : Nat)
    (wasOffline : Bool) (h : TimerInvariant s) :
    TimerInvariant (showOnline s services total wasOffline) := by
  unfold showOnline
  simp only []
  split
  · exact h.transfer rfl rfl rfl rfl
  · exact h.transfer rfl rfl rfl rfl

theorem onlineBranch_timerInvariant (s : Poller) (services : List String) (total : Nat)
    (wasOffline : Bool) (h : TimerInvariant s) :
    TimerInvariant (onlineBranch s services total wasOffline) := by
  unfold onlineBranch
  apply showOnline_timerInvariant
  simp only []
  split
  · apply startStatusCheck_timerInvariant
    exact h.handleInvariant.carry rfl rfl rfl
  · exact h.transfer rfl rfl rfl rfl

theorem countInitialCheck_timerInvariant (s : Poller) (h : TimerInvariant s) :
    TimerInvariant (countInitialCheck s) := by
  unfold countInitialCheck
  simp only []
  split
  · split
    · apply startStatusCheck_timerInvariant
      exact h.handleInvariant.carry rfl rfl rfl
    · exact h.transfer rfl rfl rfl rfl
  · exact h

theorem showRobot_timerInvariant (s : Poller) (wasOffline : Bool) (h : TimerInvariant s) :
    TimerInvariant (showRobot s wasOffline) := by
  unfold showRobot
  simp only []
  split
  · split
    · exact h.transfer rfl rfl rfl rfl
    · exact h.transfer rfl rfl rfl rfl
  · exact h

theorem offlineBranch_timerInvariant (s : Poller) (wasOffline : Bool) (h : TimerInvariant s) :
    TimerInvariant (offlineBranch s wasOffline) := by
  unfold offlineBranch
  apply showRobot_timerInvariant
  apply countInitialCheck_timerInvariant
  exact h.transfer rfl rfl rfl rfl

theorem ensureStatusCheck_timerInvariant (s : Poller) (h : TimerInvariant s) :
    TimerInvariant (ensureStatusCheck s) := by
  unfold ensureStatusCheck
  split
  · exact startStatusCheck_timerInvariant s h.handleInvariant
  · exact h

theorem updateServiceOnlineStatus_timerInvariant (s : Poller) (services : List String)
    (total : Nat) (h : TimerInvariant s) :
    TimerInvariant (updateServiceOnlineStatus s services total) := by
  unfold updateServiceOnlineStatus
  apply ensureStatusCheck_timerInvariant
  have h1 : TimerInvariant { s with
      hasOnlineService := decide (total > 0), useRobotMode := !decide (total > 0) } :=
    h.transfer rfl rfl rfl rfl
  simp only []
  split
  · exact onlineBranch_timerInvariant _ services total _ h1
  · exact offlineBranch_timerInvariant _ _ h1

theorem step_timerInvariant (s : Poller) (e : Event) (h : TimerInvariant s) :
    TimerInvariant (step s e) := by
  cases e with
  | startStatusCheck => exact startStatusCheck_timerInvariant s h.handleInvariant
  | stopStatusCheck => exact stopStatusCheck_timerInvariant s h.handleInvariant
  | updateServiceOnlineStatus services total =>
    exact updateServiceOnlineStatus_timerInvariant s services total h
  | disconnect =>
    exact (stopStatusCheck_timerInvariant s h.handleInvariant).transfer rfl rfl rfl rfl
  | joinSuccess assignedName status =>
    simp only [step, onJoinSuccess]
    apply ensureStatusCheck_timerInvariant
    have h1 : TimerInvariant (addSystemMessage s "已连接到客服系统") :=
      h.transfer rfl rfl rfl rfl
    have h2 : TimerInvariant (match assignedName with
        | some name => { addSystemMessage s "已连接到客服系统" with
            windowCurrentServiceName := some name }
        | none => addSystemMessage s "已连接到客服系统") := by
      cases assignedName with
      | none => exact h1
      | some name => exact h1.transfer rfl rfl rfl rfl
    cases status with
    | none => exact h2
    | some st => exact updateServiceOnlineStatus_timerInvariant _ st.1 st.2 h2
  | otherTimer =>
    unfold TimerInvariant phaseInterval at h ⊢
    simp only [step]
    refine ⟨by omega, ?_⟩
    cases hs : s.statusCheckInterval with
    | none => simpa [hs] using h.2
    | some handle =>
      have h2 := h.2
      simp only [hs] at h2 ⊢
      exact ⟨h2.1, by omega, h2.2.2⟩

theorem initial_timerInvariant : TimerInvariant Poller.initial := by
  unfold TimerInvariant Poller.initial
  exact ⟨by decide, rfl⟩

/-- Every state the poller reaches keeps the relation between the timer variable and the
running timers. -/
theorem run_timerInvariant (s : Poller) (events : List Event) (h : TimerInvariant s) :
    TimerInvariant (run s events) := by
  induction events generalizing s with
  | nil => exact h
  | cons e rest ih => exact ih (step s e) (step_timerInvariant s e h)

theorem stopStatusCheck_phase (s : Poller) :
    (stopStatusCheck s).isInitialPhase = s.isInitialPhase ∧
      (stopStatusCheck s).initialCheckCount = s.initialCheckCount := by
  unfold stopStatusCheck clearInterval
  cases hs : s.statusCheckInterval with
  | none => simp [handleTruthy]
  | some handle => by_cases h0 : handle = 0 <;> simp [handleTruthy, h0]

theorem ensureStatusCheck_phase (s : Poller) :
    (ensureStatusCheck s).isInitialPhase = s.isInitialPhase ∧
      (ensureStatusCheck s).initialCheckCount = s.initialCheckCount := by
  unfold ensureStatusCheck
  split
  · exact startStatusCheck_phase s
  · exact ⟨rfl, rfl⟩

theorem showOnline_phase (s : Poller) (services : List String) (total : Nat)
    (wasOffline : Bool) :
    (showOnline s services total wasOffline).isInitialPhase = s.isInitialPhase ∧
      (showOnline s services total wasOffline).initialCheckCount = s.initialCheckCount := by
  unfold showOnline
  simp only []
  split <;> exact ⟨rfl, rfl⟩

theorem showRobot_phase (s : Poller) (wasOffline : Bool) :
    (showRobot s wasOffline).isInitialPhase = s.isInitialPhase ∧
      (showRobot s wasOffline).initialCheckCount = s.initialCheckCount := by
  unfold showRobot
  simp only []
  split
  · split <;> exact ⟨rfl, rfl⟩
  · exact ⟨rfl, rfl⟩

theorem onlineBranch_phase (s : Poller) (services : List String) (total : Nat)
    (wasOffline : Bool) :
    (onlineBranch s services total wasOffline).isInitialPhase = false := by
  unfold onlineBranch
  rw [(showOnline_phase _ services total wasOffline).1]
  simp only []
  split
  · rw [(startStatusCheck_phase _).1]
  · rename_i hn
    exact Bool.eq_false_iff.mpr hn

theorem countInitialCheck_phase (s : Poller) :
    ((countInitialCheck s).isInitialPhase = true ↔
        s.isInitialPhase = true ∧ s.initialCheckCount + 1 < 10) ∧
      ((countInitialCheck s).isInitialPhase = true →
        (countInitialCheck s).initialCheckCount = s.initialCheckCount + 1) := by
  unfold countInitialCheck
  simp only []
  by_cases hphase : s.isInitialPhase = true
  · by_cases hcount : s.initialCheckCount + 1 ≥ 10
    · have hlt : ¬ s.initialCheckCount + 1 < 10 := by omega
      simp [hphase, hcount, hlt, (startStatusCheck_phase _).1]
    · have hlt : s.initialCheckCount + 1 < 10 := by omega
      simp [hphase, hcount, hlt]
  · simp [hphase]

/-- The phase after one presence-poll result: the fast phase goes on exactly when it was on,
the result reports no agent and this is not the tenth check; the check count then goes up
by one. -/
theorem updateServiceOnlineStatus_phase (s : Poller) (services : List String) (total : Nat) :
    ((updateServiceOnlineStatus s services total).isInitialPhase = true ↔
        s.isInitialPhase = true ∧ total = 0 ∧ s.initialCheckCount + 1 < 10) ∧
      ((updateServiceOnlineStatus s services total).isInitialPhase = true →
        (updateServiceOnlineStatus s services total).initialCheckCount =
          s.initialCheckCount + 1) := by
  unfold updateServiceOnlineStatus
  rw [(ensureStatusCheck_phase _).1, (ensureStatusCheck_phase _).2]
  simp only []
  by_cases htotal : total > 0
  · simp only [htotal, decide_True, if_true, onlineBranch_phase]
    exact ⟨⟨fun h => absurd h (by simp), fun h => by omega⟩, fun h => absurd h (by simp)⟩
  · have hzero : total = 0 := by omega
    simp only [htotal, decide_False, Bool.false_eq_true, if_false, offlineBranch,
      (showRobot_phase _ _).1, (showRobot_phase _ _).2]
    have hc := countInitialCheck_phase { s with
      hasOnlineService := false, useRobotMode := !false,
      offlineCheckCount := s.offlineCheckCount + 1 }
    exact ⟨⟨fun h => ⟨(hc.1.1 h).1, hzero, (hc.1.1 h).2⟩, fun h => hc.1.2 ⟨h.1, h.2.2⟩⟩,
      fun h => hc.2 h⟩

theorem step_phase_false (s : Poller) (e : Event) (h : s.isInitialPhase = false) :
    (step s e).isInitialPhase = false := by
  have hnot : ∀ b : Bool, ¬ b = true → b = false := fun b hb => by simpa using hb
  cases e with
  | startStatusCheck => simp only [step, (startStatusCheck_phase s).1, h]
  | stopStatusCheck => simp only [step, (stopStatusCheck_phase s).1, h]
  | updateServiceOnlineStatus services total =>
    apply hnot
    intro hu
    have := ((updateServiceOnlineStatus_phase s services total).1.1 hu).1
    rw [h] at this
    exact absurd this (by simp)
  | disconnect => simp only [step, onDisconnect, (stopStatusCheck_phase s).1, h]
  | joinSuccess assignedName status =>
    simp only [step, onJoinSuccess, (ensureStatusCheck_phase _).1]
    cases status with
    | none => cases assignedName <;> simpa [addSystemMessage] using h
    | some st =>
      apply hnot
      intro hu
      have := ((updateServiceOnlineStatus_phase _ st.1 st.2).1.1 hu).1
      cases assignedName <;> simp [addSystemMessage, h] at this
  | otherTimer => simpa [step] using h

/-- What one event does to the phase variables: an event that carries a presence-poll
result acts as `updateServiceOnlineStatus` does, any other event leaves them alone. -/
theorem step_phase (s : Poller) (e : Event) :
    (∀ total, e.polls = [total] →
        ((step s e).isInitialPhase = true ↔
          s.isInitialPhase = true ∧ total = 0 ∧ s.initialCheckCount + 1 < 10) ∧
        ((step s e).isInitialPhase = true →
          (step s e).initialCheckCount = s.initialCheckCount + 1)) ∧
      (e.polls = [] →
        (step s e).isInitialPhase = s.isInitialPhase ∧
        (step s e).initialCheckCount = s.initialCheckCount) := by
  cases e with
  | startStatusCheck =>
    exact ⟨fun total h => by simp [Event.polls] at h, fun _ => startStatusCheck_phase s⟩
  | stopStatusCheck =>
    exact ⟨fun total h => by simp [Event.polls] at h, fun _ => stopStatusCheck_phase s⟩
  | updateServiceOnlineStatus services total =>
    refine ⟨fun t h => ?_, fun h => by simp [Event.polls] at h⟩
    have ht : total = t := by simpa [Event.polls] using h
    subst ht
    exact updateServiceOnlineStatus_phase s services total
  | disconnect =>
    exact ⟨fun total h => by simp [Event.polls] at h, fun _ => stopStatusCheck_phase s⟩
  | joinSuccess assignedName status =>
    cases status with
    | none =>
      refine ⟨fun total h => by simp [Event.polls] at h, fun _ => ?_⟩
      simp only [step, onJoinSuccess, (ensureStatusCheck_phase _).1,
        (ensureStatusCheck_phase _).2]
      cases assignedName <;> exact ⟨rfl, rfl⟩
    | some st =>
      refine ⟨fun t h => ?_, fun h => by simp [Event.polls] at h⟩
      have ht : st.2 = t := by simpa [Event.polls] using h
      subst ht
      simp only [step, onJoinSuccess, (ensureStatusCheck_phase _).1,
        (ensureStatusCheck_phase _).2]
      cases assignedName with
      | none => exact updateServiceOnlineStatus_phase (addSystemMessage s _) st.1 st.2
      | some name =>
        exact updateServiceOnlineStatus_phase
          { addSystemMessage s "已连接到客服系统" with windowCurrentServiceName := some name }
          st.1 st.2
  | otherTimer =>
    exact ⟨fun total h => by simp [Event.polls] at h, fun _ => ⟨rfl, rfl⟩⟩

theorem polls_cases (e : Event) : e.polls = [] ∨ ∃ total, e.polls = [total] := by
  cases e with
  | joinSuccess assignedName status =>
    cases status with
    | none => exact Or.inl rfl
    | some st => exact Or.inr ⟨st.2, rfl⟩
  | updateServiceOnlineStatus services total => exact Or.inr ⟨total, rfl⟩
  | startStatusCheck => exact Or.inl rfl
  | stopStatusCheck => exact Or.inl rfl
  | disconnect => exact Or.inl rfl
  | otherTimer => exact Or.inl rfl

/-- The phase variables after a run, in terms of the presence-poll results seen so far. -/
theorem run_phase (events : List Event) (s : Poller) (seen : List Nat)
    (hiff : s.isInitialPhase = true ↔ seen.length < 10 ∧ ∀ t ∈ seen, t = 0)
    (hcount : s.isInitialPhase = true → s.initialCheckCount = seen.length) :
    ((run s events).isInitialPhase = true ↔
        (seen ++ pollsOf events).length < 10 ∧ ∀ t ∈ seen ++ pollsOf events, t = 0) ∧
      ((run s events).isInitialPhase = true →
        (run s events).initialCheckCount = (seen ++ pollsOf events).length) := by
  induction events generalizing s seen with
  | nil => simpa [run, pollsOf] using ⟨hiff, hcount⟩
  | cons e rest ih =>
    have hrun : run s (e :: rest) = run (step s e) rest := rfl
    have hpolls : seen ++ pollsOf (e :: rest) = (seen ++ e.polls) ++ pollsOf rest := by
      simp [pollsOf]
    rw [hrun, hpolls]
    obtain ⟨hpoll, hsame⟩ := step_phase s e
    rcases polls_cases e with hnone | ⟨total, hone⟩
    · obtain ⟨h1, h2⟩ := hsame hnone
      apply ih
      · rw [h1, hnone, List.append_nil]; exact hiff
      · rw [h1, h2, hnone, List.append_nil]; exact hcount
    · obtain ⟨h1, h2⟩ := hpoll total hone
      apply ih
      · rw [h1, hone]
        constructor
        · rintro ⟨hp, hz, hlt⟩
          have hc := hcount hp
          have hs := hiff.1 hp
          refine ⟨by simp; omega, ?_⟩
          intro t ht
          rcases List.mem_append.1 ht with ht | ht
          · exact hs.2 t ht
          · simp at ht; omega
        · rintro ⟨hlen, hall⟩
          have hlen2 : seen.length + 1 < 10 := by simpa using hlen
          have hp : s.isInitialPhase = true :=
            hiff.2 ⟨by omega, fun t ht => hall t (List.mem_append_left _ ht)⟩
          have hc := hcount hp
          exact ⟨hp, hall total (by simp), by omega⟩
      · intro hp
        rw [h2 hp, hone]
        have hc := hcount ((h1.1 hp).1)
        simp
        omega

/-- C11: in every state reached from the loaded script through `startStatusCheck`,
`stopStatusCheck`, `updateServiceOnlineStatus`, the disconnect handler (and the
`join_success` handler), at most one presence-poll timer is running, and a running one is
the timer whose handle `statusCheckInterval` holds. -/
theorem at_most_one_poll_timer (events : List Event) :
    (run Poller.initial events).timers.length ≤ 1 ∧
      ∀ t ∈ (run Poller.initial events).timers,
        (run Poller.initial events).statusCheckInterval = some t.handle := by
  have h := (run_timerInvariant Poller.initial events initial_timerInvariant).2
  cases hs : (run Poller.initial events).statusCheckInterval with
  | none =>
    simp only [hs] at h
    simp [h]
  | some handle =>
    simp only [hs] at h
    obtain ⟨-, -, htimers⟩ := h
    simp [htimers]

/-- C12: after the presence-poll results of any run have been processed, the poller is in
the fast phase exactly when fewer than 10 results were processed and every one of them
reported no online agent; and no event brings a poller that has left the fast phase back
into it. -/
theorem fast_phase_iff (events : List Event) :
    ((run Poller.initial events).isInitialPhase = true ↔
        (pollsOf events).length < 10 ∧ ∀ total ∈ pollsOf events, total = 0) ∧
      (∀ (s : Poller) (later : List Event), s.isInitialPhase = false →
        (run s later).isInitialPhase = false) := by
  constructor
  · have h := (run_phase events Poller.initial [] (by simp [Poller.initial])
      (by simp [Poller.initial])).1
    simpa using h
  · intro s later
    induction later generalizing s with
    | nil => exact fun h => h
    | cons e rest ih => exact fun h => ih (step s e) (step_phase_false s e h)

/-- C13: the first presence poll that reports no agent already sets `useRobotMode`, while
`offlineCheckCount` is 1: the flag is assigned `!hasOnlineService` at the top of
`updateServiceOnlineStatus`, before any counting. -/
theorem robot_mode_after_first_empty_poll :
    (updateServiceOnlineStatus Poller.initial [] 0).useRobotMode = true ∧
      (updateServiceOnlineStatus Poller.initial [] 0).offlineCheckCount = 1 ∧
      ¬ ((updateServiceOnlineStatus Poller.initial [] 0).offlineCheckCount ≥
        MAX_OFFLINE_CHECK) := by
  decide

/-- C20: in every state the poller reaches, a running presence-poll timer has the interval
of the current phase: 1000 ms in the fast phase, 5000 ms after it. -/
theorem poll_timer_interval_matches_phase (events : List Event) :
    ∀ t ∈ (run Poller.initial events).timers,
      t.interval = if (run Poller.initial events).isInitialPhase = true then 1000 else 5000 := by
  have h := (run_timerInvariant Poller.initial events initial_timerInvariant).2
  intro t ht
  cases hs : (run Poller.initial events).statusCheckInterval with
  | none =>
    simp only [hs] at h
    rw [h] at ht
    exact absurd ht (List.not_mem_nil t)
  | some handle =>
    simp only [hs] at h
    obtain ⟨-, -, htimers⟩ := h
    rw [htimers] at ht
    have : t = { handle := handle, interval := phaseInterval (run Poller.initial events) } := by
      simpa using ht
    rw [this]
    rfl

/-- Witness for C20: ten polls without an agent end the fast phase, and the timer that runs
then has the interval 5000. -/
theorem poll_timer_interval_matches_phase_witness :
    ({ handle := 2, interval := 5000 } : Timer).interval =
      if (run Poller.initial
        (List.replicate 10 (Event.updateServiceOnlineStatus [] 0))).isInitialPhase = true
      then 1000 else 5000 :=
  poll_timer_interval_matches_phase
    (List.replicate 10 (Event.updateServiceOnlineStatus [] 0))
    { handle := 2, interval := 5000 } (by decide)

end VisitorChat

/-! ## Properties of `MessageVirtualScroll`, continued -/

namespace MessageVirtualScroll

/-- C18: after four `addMessage` calls with threshold 3 virtual scrolling is enabled, and
`clear()` empties `messages` without resetting `isEnabled`: the object is left enabled with
no message at all, so `isEnabled` holds although `messages.length > threshold` does not. -/
theorem clear_leaves_enabled :
    fourMessages.isEnabled = true ∧
      (clear fourMessages).isEnabled = true ∧
      (clear fourMessages).messages.length = 0 ∧
      ¬ (((clear fourMessages).messages.length : Int) > (clear fourMessages).threshold) := by
  decide

end MessageVirtualScroll

/-! ## Properties of HTML escaping -/

namespace Html

theorem replaceAll_nil (c : Char) (r : List Char) : replaceAll c r [] = [] := rfl

theorem replaceAll_cons (c : Char) (r : List Char) (x : Char) (rest : List Char) :
    replaceAll c r (x :: rest) = (if x = c then r else [x]) ++ replaceAll c r rest := by
  simp [replaceAll, List.flatMap_cons]

theorem replaceAll_append (c : Char) (r : List Char) (a b : List Char) :
    replaceAll c r (a ++ b) = replaceAll c r a ++ replaceAll c r b := by
  simp [replaceAll, List.flatMap_append]

theorem entityAt_of_ne_amp (c : Char) (rest : List Char) (h : c ≠ '&') :
    entityAt (c :: rest) = none := by
  have h2 : ('&' == c) = false := by
    rw [beq_eq_false_iff_ne]
    exact fun heq => h heq.symm
  simp [entityAt, entities, List.find?, List.isPrefixOf, h2]

end Html

namespace VisitorChat

theorem escapeChar_cases (c : Char) :
    (c = '&' ∧ escapeChar c = ['&', 'a', 'm', 'p', ';']) ∨
      (c = '<' ∧ escapeChar c = ['&', 'l', 't', ';']) ∨
      (c = '>' ∧ escapeChar c = ['&', 'g', 't', ';']) ∨
      (c = Html.quot ∧ escapeChar c = ['&', 'q', 'u', 'o', 't', ';']) ∨
      (c = Html.apos ∧ escapeChar c = ['&', '#', '0', '3', '9', ';']) ∨
      (c ≠ '&' ∧ c ≠ '<' ∧ c ≠ '>' ∧ c ≠ Html.quot ∧ c ≠ Html.apos ∧ escapeChar c = [c]) := by
  unfold escapeChar
  by_cases h1 : c = '&'
  · exact Or.inl ⟨h1, by rw [if_pos h1]; rfl⟩
  by_cases h2 : c = '<'
  · exact Or.inr (Or.inl ⟨h2, by rw [if_neg h1, if_pos h2]; rfl⟩)
  by_cases h3 : c = '>'
  · exact Or.inr (Or.inr (Or.inl ⟨h3, by rw [if_neg h1, if_neg h2, if_pos h3]; rfl⟩))
  by_cases h4 : c = Html.quot
  · exact Or.inr (Or.inr (Or.inr (Or.inl
      ⟨h4, by rw [if_neg h1, if_neg h2, if_neg h3, if_pos h4]; rfl⟩)))
  by_cases h5 : c = Html.apos
  · exact Or.inr (Or.inr (Or.inr (Or.inr (Or.inl
      ⟨h5, by rw [if_neg h1, if_neg h2, if_neg h3, if_neg h4, if_pos h5]; rfl⟩))))
  · exact Or.inr (Or.inr (Or.inr (Or.inr (Or.inr
      ⟨h1, h2, h3, h4, h5, by rw [if_neg h1, if_neg h2, if_neg h3, if_neg h4, if_neg h5]⟩))))

theorem escapeChar_no_markup (c ch : Char) (h : ch ∈ escapeChar c) :
    ch ≠ '<' ∧ ch ≠ '>' ∧ ch ≠ Html.quot ∧ ch ≠ Html.apos := by
  rcases escapeChar_cases c with ⟨-, he⟩ | ⟨-, he⟩ | ⟨-, he⟩ | ⟨-, he⟩ | ⟨-, he⟩ |
    ⟨-, h2, h3, h4, h5, he⟩
  · rw [he] at h
    simp only [List.mem_cons, List.mem_singleton, List.not_mem_nil, or_false] at h
    rcases h with rfl | rfl | rfl | rfl | rfl <;> decide
  · rw [he] at h
    simp only [List.mem_cons, List.mem_singleton, List.not_mem_nil, or_false] at h
    rcases h with rfl | rfl | rfl | rfl <;> decide
  · rw [he] at h
    simp only [List.mem_cons, List.mem_singleton, List.not_mem_nil, or_false] at h
    rcases h with rfl | rfl | rfl | rfl <;> decide
  · rw [he] at h
    simp only [List.mem_cons, List.mem_singleton, List.not_mem_nil, or_false] at h
    rcases h with rfl | rfl | rfl | rfl | rfl | rfl <;> decide
  · rw [he] at h
    simp only [List.mem_cons, List.mem_singleton, List.not_mem_nil, or_false] at h
    rcases h with rfl | rfl | rfl | rfl | rfl | rfl <;> decide
  · rw [he] at h
    simp only [List.mem_singleton] at h
    subst h
    exact ⟨h2, h3, h4, h5⟩

theorem decodeFrom_escapeChar (c : Char) (rest : List Char) :
    Html.decodeFrom 0 (escapeChar c ++ rest) = c :: Html.decodeFrom 0 rest := by
  rcases escapeChar_cases c with ⟨hc, he⟩ | ⟨hc, he⟩ | ⟨hc, he⟩ | ⟨hc, he⟩ | ⟨hc, he⟩ |
    ⟨h1, -, -, -, -, he⟩
  · rw [he, hc, List.cons_append]
    simp [Html.decodeFrom, Html.entityAt, Html.entities, List.find?, List.isPrefixOf]
  · rw [he, hc, List.cons_append]
    simp [Html.decodeFrom, Html.entityAt, Html.entities, List.find?, List.isPrefixOf]
  · rw [he, hc, List.cons_append]
    simp [Html.decodeFrom, Html.entityAt, Html.entities, List.find?, List.isPrefixOf]
  · rw [he, hc, List.cons_append]
    simp [Html.decodeFrom, Html.entityAt, Html.entities, List.find?, List.isPrefixOf,
      Html.quot]
  · rw [he, hc, List.cons_append]
    simp [Html.decodeFrom, Html.entityAt, Html.entities, List.find?, List.isPrefixOf,
      Html.apos]
  · rw [he, List.singleton_append, Html.decodeFrom, Html.entityAt_of_ne_amp c rest h1]

theorem ampersands_escapeChar (c : Char) (rest : List Char) :
    Html.ampersandsStartEntities (escapeChar c ++ rest) =
      Html.ampersandsStartEntities rest := by
  rcases escapeChar_cases c with ⟨-, he⟩ | ⟨-, he⟩ | ⟨-, he⟩ | ⟨-, he⟩ | ⟨-, he⟩ |
    ⟨h1, -, -, -, -, he⟩
  · rw [he, List.cons_append]
    simp [Html.ampersandsStartEntities, Html.entityAt, Html.entities, List.find?,
      List.isPrefixOf]
  · rw [he, List.cons_append]
    simp [Html.ampersandsStartEntities, Html.entityAt, Html.entities, List.find?,
      List.isPrefixOf]
  · rw [he, List.cons_append]
    simp [Html.ampersandsStartEntities, Html.entityAt, Html.entities, List.find?,
      List.isPrefixOf]
  · rw [he, List.cons_append]
    simp [Html.ampersandsStartEntities, Html.entityAt, Html.entities, List.find?,
      List.isPrefixOf]
  · rw [he, List.cons_append]
    simp [Html.ampersandsStartEntities, Html.entityAt, Html.entities, List.find?,
      List.isPrefixOf]
  · rw [he]
    have hne : (c != '&') = true := by simpa using h1
    simp [Html.ampersandsStartEntities, hne]

/-- The chained replacements of the admin `escapeHtml` act on each character as the lookup
of the visitor `escapeHtml` does. -/
theorem chained_replace_eq (text : List Char) :
    Html.replaceAll Html.apos "&#039;".toList
      (Html.replaceAll Html.quot "&quot;".toList
        (Html.replaceAll '>' "&gt;".toList
          (Html.replaceAll '<' "&lt;".toList
            (Html.replaceAll '&' "&amp;".toList text)))) = text.flatMap escapeChar := by
  induction text with
  | nil => rfl
  | cons c rest ih =>
    rw [Html.replaceAll_cons, Html.replaceAll_append, Html.replaceAll_append,
      Html.replaceAll_append, Html.replaceAll_append, ih, List.flatMap_cons]
    congr 1
    rcases escapeChar_cases c with ⟨hc, he⟩ | ⟨hc, he⟩ | ⟨hc, he⟩ | ⟨hc, he⟩ | ⟨hc, he⟩ |
      ⟨h1, h2, h3, h4, h5, he⟩
    · rw [he, hc]; decide
    · rw [he, hc]; decide
    · rw [he, hc]; decide
    · rw [he, hc]; decide
    · rw [he, hc]; decide
    · rw [he, if_neg h1]
      simp [Html.replaceAll, h2, h3, h4, h5]

/-- C16: for every string `s`, `escapeHtml(s)` contains none of the characters `<`, `>`,
`"` and `'`; every `&` in it is the first character of one of the entities `&amp;`, `&lt;`,
`&gt;`, `&quot;`, `&#039;`; decoding those five entities gives `s` back; and the
chained-replace `escapeHtml` of `admin/chat_history.js` returns the same string. -/
theorem escapeHtml_correct (s : String) :
    (∀ ch ∈ (escapeHtml s).data,
        ch ≠ '<' ∧ ch ≠ '>' ∧ ch ≠ Html.quot ∧ ch ≠ Html.apos) ∧
      Html.ampersandsStartEntities (escapeHtml s).data = true ∧
      Html.decodeEntities (escapeHtml s) = s ∧
      ChatHistory.escapeHtml s = escapeHtml s := by
  refine ⟨?_, ?_, ?_, ?_⟩
  · intro ch hch
    simp only [escapeHtml, List.mem_flatMap] at hch
    obtain ⟨c, -, hc⟩ := hch
    exact escapeChar_no_markup c ch hc
  · simp only [escapeHtml]
    induction s.data with
    | nil => rfl
    | cons c rest ih => rw [List.flatMap_cons, ampersands_escapeChar]; exact ih
  · have hdata : Html.decodeFrom 0 (s.data.flatMap escapeChar) = s.data := by
      induction s.data with
      | nil => rfl
      | cons c rest ih => rw [List.flatMap_cons, decodeFrom_escapeChar, ih]
    simp only [Html.decodeEntities, escapeHtml, hdata]
  · unfold ChatHistory.escapeHtml escapeHtml
    by_cases hempty : s = ""
    · subst hempty
      rfl
    · rw [if_neg hempty, chained_replace_eq]

end VisitorChat

/-! ## Properties of `addMessage` -/

namespace VisitorChat

theorem hasTag_of_no_lt (text : List Char) (h : ∀ ch ∈ text, ch ≠ '<') :
    Html.hasTag text = false := by
  induction text with
  | nil => rfl
  | cons c rest ih =>
    have hc : (c == '<') = false := by
      rw [beq_eq_false_iff_ne]
      exact h c (List.mem_cons_self _ _)
    have hrest := ih fun ch hch => h ch (List.mem_cons_of_mem _ hch)
    simp [Html.hasTag, hc, hrest]

/-- A user message that is not read as JSON has no tag in its bubble. -/
theorem plainContent_no_tag (m : Markup) (type content : String) (h : type ≠ "robot") :
    hasHtmlTag (plainContent m type content) = false := by
  unfold plainContent
  rw [if_neg h]
  by_cases htag : hasHtmlTag content = true
  · rw [if_pos htag]
    apply hasTag_of_no_lt
    intro ch hch
    have hdata : (escapeHtml content).data = content.data.flatMap escapeChar := rfl
    rw [hdata, List.mem_flatMap] at hch
    obtain ⟨c, -, hc⟩ := hch
    exact (escapeChar_no_markup c ch hc).1
  · rw [if_neg htag]
    simpa using htag

/-- C15: a visitor message whose content is the JSON string literal `"<b>hi</b>"` (quotes
included) parses as JSON and is not a file payload, so `addMessage` places the content in
the bubble as it is, tags included, unescaped. Content that does not parse as JSON is
escaped as claimed: its bubble has no tag. -/
theorem json_content_not_escaped (m : Markup) :
    isFilePayload (dq ++ "<b>hi</b>" ++ dq) = false ∧
      (addMessage m "visitor" "访客" (dq ++ "<b>hi</b>" ++ dq) "👤").bubble =
        dq ++ "<b>hi</b>" ++ dq ∧
      hasHtmlTag (addMessage m "visitor" "访客" (dq ++ "<b>hi</b>" ++ dq) "👤").bubble = true ∧
      (∀ type content : String, type ≠ "robot" → Json.parse content = none →
        hasHtmlTag (addMessage m type "" content "").bubble = false) := by
  have hparse : Json.parse (dq ++ "<b>hi</b>" ++ dq) = some (Json.Value.str "<b>hi</b>") := by
    decide
  have hcond : ¬ ((Json.Value.str "<b>hi</b>").get "type" = some (Json.Field.str "file") ∧
      Json.truthy ((Json.Value.str "<b>hi</b>").get "url") = true) := by decide
  have hbubble : (addMessage m "visitor" "访客" (dq ++ "<b>hi</b>" ++ dq) "👤").bubble =
      dq ++ "<b>hi</b>" ++ dq := by
    simp only [addMessage, messageContent, hparse]
    rw [if_neg hcond]
  refine ⟨by decide, hbubble, ?_, ?_⟩
  · rw [hbubble]
    decide
  · intro type content htype hnone
    simp only [addMessage, messageContent, hnone]
    exact plainContent_no_tag m type content htype

end VisitorChat

/-! ## Properties of sending in `visitor_chat.js` -/

namespace VisitorChat

/-- C14 fails as stated: after a `blacklisted` event each of `sendMessage`, `handleFAQClick`
and `sendImageMessage` still emits a `send_message` event. The handler only disables the
input and the send button. -/
theorem send_after_blacklisted :
    (onBlacklisted Chat.typing none).emitted = [] ∧
      (onBlacklisted Chat.typing none).messageInput.map (fun i => i.disabled) = some true ∧
      (sendMessage (onBlacklisted Chat.typing none)).emitted.length = 1 ∧
      (handleFAQClick (onBlacklisted Chat.typing none)
        { question := "q", answer := "a" }).emitted.length = 1 ∧
      (sendImageMessage (onBlacklisted Chat.typing none) "img").emitted.length = 1 := by
  decide

/-- C14, as the code behaves: the `blacklisted` handler shows one system message of type
`error` (the `message` of the event, or the default text when it is missing or empty),
disables the message input, replaces its placeholder, disables the send button and emits
nothing; it keeps no record of the event: a later `sendMessage`, `handleFAQClick` or
`sendImageMessage` emits exactly what it would have emitted without the event. -/
theorem blacklisted_only_disables_input (s : Chat) (message : Option String) (faq : Faq)
    (imageJson : String) :
    (onBlacklisted s message).systemMessages =
        s.systemMessages ++
          [(JS.orElse message "您已被限制访问，如有疑问请联系管理员", "error")] ∧
      (onBlacklisted s message).emitted = s.emitted ∧
      (onBlacklisted s message).messageInput.map (fun i => i.disabled) =
        s.messageInput.map (fun _ => true) ∧
      (onBlacklisted s message).messageInput.map (fun i => i.placeholder) =
        s.messageInput.map (fun _ => "您已被限制发送消息") ∧
      (onBlacklisted s message).sendBtnDisabled = s.sendBtnDisabled.map (fun _ => true) ∧
      (sendMessage (onBlacklisted s message)).emitted = (sendMessage s).emitted ∧
      (handleFAQClick (onBlacklisted s message) faq).emitted = (handleFAQClick s faq).emitted ∧
      (sendImageMessage (onBlacklisted s message) imageJson).emitted =
        (sendImageMessage s imageJson).emitted := by
  refine ⟨rfl, rfl, ?_, ?_, rfl, ?_, ?_, ?_⟩
  · cases h : s.messageInput <;> simp [onBlacklisted, h]
  · cases h : s.messageInput <;> simp [onBlacklisted, h]
  · cases h : s.messageInput with
    | none => simp [sendMessage, onBlacklisted, h]
    | some input =>
      simp only [sendMessage, onBlacklisted, h, Option.map_some', connected]
      split <;> [rfl; (split <;> rfl)]
  · simp only [handleFAQClick, onBlacklisted, connected]
    split <;> rfl
  · simp only [sendImageMessage, onBlacklisted]
    cases s.socket <;> rfl

end VisitorChat

/-! ## Properties of `parseInt` and of `getOrCreateVisitorId` -/

namespace JS

theorem digitChar_props (d : Nat) (h : d < 10) :
    digitOf 10 (Nat.digitChar d) = some d ∧ isWhiteSpace (Nat.digitChar d) = false ∧
      Nat.digitChar d ≠ '-' ∧ Nat.digitChar d ≠ '+' ∧ Nat.digitChar d ≠ 'x' ∧
      Nat.digitChar d ≠ 'X' := by
  interval_cases d <;> decide

theorem digitsValue_append (radix : Nat) (a : List Nat) (d : Nat) :
    digitsValue radix (a ++ [d]) = digitsValue radix a * radix + d := by
  simp [digitsValue, List.foldl_append]

/-- The decimal digits `Nat.toDigitsCore` produces: a non-empty run of digits whose value
is the number. -/
theorem toDigitsCore_digits (fuel n : Nat) (ds : List Char) (h : n < fuel) :
    ∃ dl : List Nat, dl ≠ [] ∧ (∀ d ∈ dl, d < 10) ∧ digitsValue 10 dl = n ∧
      Nat.toDigitsCore 10 fuel n ds = dl.map Nat.digitChar ++ ds := by
  induction fuel generalizing n ds with
  | zero => omega
  | succ fuel ih =>
    unfold Nat.toDigitsCore
    simp only []
    by_cases hzero : n / 10 = 0
    · rw [if_pos hzero]
      refine ⟨[n % 10], by simp, ?_, ?_, by simp⟩
      · intro d hd
        simp only [List.mem_singleton] at hd
        omega
      · simp only [digitsValue, List.foldl_cons, List.foldl_nil]
        omega
    · rw [if_neg hzero]
      obtain ⟨dl, hne, hlt, hval, heq⟩ := ih (n / 10) (Nat.digitChar (n % 10) :: ds) (by omega)
      refine ⟨dl ++ [n % 10], by simp, ?_, ?_, ?_⟩
      · intro d hd
        rcases List.mem_append.1 hd with hd | hd
        · exact hlt d hd
        · simp only [List.mem_singleton] at hd
          omega
      · rw [digitsValue_append, hval]
        omega
      · rw [heq]
        simp

theorem leadingDigits_map (dl : List Nat) (h : ∀ d ∈ dl, d < 10) :
    leadingDigits 10 (dl.map Nat.digitChar) = dl := by
  induction dl with
  | nil => rfl
  | cons d rest ih =>
    have hd := (digitChar_props d (h d (List.mem_cons_self _ _))).1
    simp only [List.map_cons, leadingDigits, hd]
    rw [ih fun x hx => h x (List.mem_cons_of_mem _ hx)]

theorem radixOf_digits (dl : List Nat) (h : ∀ d ∈ dl, d < 10) :
    radixOf (dl.map Nat.digitChar) = (10, dl.map Nat.digitChar) := by
  match dl, h with
  | [], _ => rfl
  | [_], _ => rfl
  | d :: e :: rest, h =>
    have he := digitChar_props e (h e (by simp))
    simp only [List.map_cons, radixOf]
    rw [if_neg]
    rintro ⟨-, hx | hx⟩
    · exact he.2.2.2.2.1 hx
    · exact he.2.2.2.2.2 hx

/-- `parseInt` reads a run of decimal digits as the number they denote. -/
theorem parseInt_digits (dl : List Nat) (hne : dl ≠ []) (h : ∀ d ∈ dl, d < 10) :
    parseInt (String.mk (dl.map Nat.digitChar)) = some ((digitsValue 10 dl : Nat) : Int) := by
  obtain ⟨d, rest, rfl⟩ := List.exists_cons_of_ne_nil hne
  have hd := digitChar_props d (h d (List.mem_cons_self _ _))
  have htrim : ((d :: rest).map Nat.digitChar).dropWhile isWhiteSpace =
      (d :: rest).map Nat.digitChar := by
    simp [List.dropWhile, hd.2.1]
  have hsign : signOf ((d :: rest).map Nat.digitChar) = (false, (d :: rest).map Nat.digitChar) := by
    simp [signOf, hd.2.2.1, hd.2.2.2.1]
  unfold parseInt
  simp only [htrim, hsign, radixOf_digits (d :: rest) h, leadingDigits_map (d :: rest) h]
  simp

/-- `parseInt` reads a minus sign followed by decimal digits as the negated number. -/
theorem parseInt_neg_digits (dl : List Nat) (hne : dl ≠ []) (h : ∀ d ∈ dl, d < 10) :
    parseInt (String.mk ('-' :: dl.map Nat.digitChar)) =
      some (-((digitsValue 10 dl : Nat) : Int)) := by
  have htrim : ('-' :: dl.map Nat.digitChar).dropWhile isWhiteSpace =
      '-' :: dl.map Nat.digitChar := by
    have : isWhiteSpace '-' = false := by decide
    simp [List.dropWhile, this]
  have hsign : signOf ('-' :: dl.map Nat.digitChar) = (true, dl.map Nat.digitChar) := by
    simp [signOf]
  have hempty : dl.isEmpty = false := by
    cases dl with
    | nil => exact absurd rfl hne
    | cons _ _ => rfl
  unfold parseInt
  simp only [htrim, hsign, radixOf_digits dl h, leadingDigits_map dl h, hempty]
  simp

theorem repr_digits (n : Nat) :
    ∃ dl : List Nat, dl ≠ [] ∧ (∀ d ∈ dl, d < 10) ∧ digitsValue 10 dl = n ∧
      toString n = String.mk (dl.map Nat.digitChar) := by
  obtain ⟨dl, hne, hlt, hval, heq⟩ := toDigitsCore_digits (n + 1) n [] (by omega)
  refine ⟨dl, hne, hlt, hval, ?_⟩
  show (Nat.toDigits 10 n).asString = _
  unfold Nat.toDigits
  rw [heq, List.append_nil]
  rfl

/-- Reading back the decimal text of an integer gives the integer. -/
theorem parseInt_toString (n : Int) : parseInt (toString n) = some n := by
  cases n with
  | ofNat m =>
    obtain ⟨dl, hne, hlt, hval, heq⟩ := repr_digits m
    show parseInt (toString m) = _
    rw [heq, parseInt_digits dl hne hlt, hval]
    rfl
  | negSucc m =>
    obtain ⟨dl, hne, hlt, hval, heq⟩ := repr_digits (m + 1)
    show parseInt ("-" ++ toString (m + 1)) = _
    rw [heq]
    have : "-" ++ String.mk (dl.map Nat.digitChar) = String.mk ('-' :: dl.map Nat.digitChar) := rfl
    rw [this, parseInt_neg_digits dl hne hlt, hval]
    rfl

theorem toString_int_ne_empty (n : Int) : toString n ≠ "" := by
  intro h
  have := parseInt_toString n
  have hnone : parseInt "" = none := by decide
  rw [h, hnone] at this
  exact Option.noConfusion this

/-- Reading back the text of a number, `NaN` included, gives the number. -/
theorem parseInt_numberToString (v : IntOrNaN) : parseInt (numberToString v) = v := by
  cases v with
  | none => decide
  | some n => exact parseInt_toString n

theorem numberToString_ne_empty (v : IntOrNaN) : numberToString v ≠ "" := by
  cases v with
  | none => decide
  | some n => exact toString_int_ne_empty n

end JS

namespace ServicePermission

theorem JSMap.get_set_same {β : Type} (m : JSMap β) (k : String) (v : β) :
    (m.set k v).get k = some v := by
  induction m with
  | nil => simp [JSMap.set, JSMap.get]
  | cons p rest ih =>
    obtain ⟨k1, v1⟩ := p
    unfold JSMap.set
    by_cases hk : (k1 == k) = true
    · simp [hk, JSMap.get]
    · simp only [hk]
      have hne : (k1 == k) = false := by simpa using hk
      have htail : JSMap.get ((k1, v1) :: JSMap.set rest k v) k = JSMap.get (JSMap.set rest k v) k := by
        simp [JSMap.get, List.find?, hne]
      rw [if_neg (by simp), htail]
      exact ih

theorem JSMap.get_set_other {β : Type} (m : JSMap β) (k k2 : String) (v : β) (h : k2 ≠ k) :
    (m.set k v).get k2 = m.get k2 := by
  induction m with
  | nil =>
    have hne : (k == k2) = false := by
      rw [beq_eq_false_iff_ne]; exact fun e => h e.symm
    simp [JSMap.set, JSMap.get, List.find?, hne]
  | cons p rest ih =>
    obtain ⟨k1, v1⟩ := p
    unfold JSMap.set
    by_cases hk : (k1 == k) = true
    · have hk1 : k1 = k := by simpa using hk
      have hne : (k == k2) = false := by
        rw [beq_eq_false_iff_ne]; exact fun e => h e.symm
      subst hk1
      simp [JSMap.get, List.find?, hne]
    · rw [if_neg hk]
      by_cases hk2 : (k1 == k2) = true
      · simp [JSMap.get, List.find?, hk2]
      · have hne : (k1 == k2) = false := by simpa using hk2
        have h1 : JSMap.get ((k1, v1) :: JSMap.set rest k v) k2 =
            JSMap.get (JSMap.set rest k v) k2 := by
          simp [JSMap.get, List.find?, hne]
        have h2 : JSMap.get ((k1, v1) :: rest) k2 = JSMap.get rest k2 := by
          simp [JSMap.get, List.find?, hne]
        rw [h1, h2]
        exact ih

end ServicePermission

namespace VisitorChat
open ServicePermission

theorem orElse_of_ne_empty (s b : String) (h : s ≠ "") : JS.orElse (some s) b = s := by
  simp [JS.orElse, h]

theorem truthy_some (s : String) : JS.truthy (some s) = true ↔ s ≠ "" := by
  simp [JS.truthy]

/-- A call that finds a non-empty `visitor_id`: the stored identity is returned, and the
count returned is the stored count, read by `parseInt`, plus one. -/
theorem getOrCreateVisitorId_returning (storage : Storage) (env : VisitEnv) (id : String)
    (hid : storage.get "visitor_id" = some id) (hne : id ≠ "") :
    (getOrCreateVisitorId storage env).2.visitorId = id ∧
      (getOrCreateVisitorId storage env).2.visitorName = storage.get "visitor_name" ∧
      (getOrCreateVisitorId storage env).2.visitCount =
        (JS.parseInt (storedCountText storage)).map (fun n => n + 1) ∧
      (getOrCreateVisitorId storage env).1.get "visitor_id" = some id ∧
      (getOrCreateVisitorId storage env).1.get "visitor_name" = storage.get "visitor_name" := by
  have htruthy : JS.truthy (some id) = true := (truthy_some id).2 hne
  have hcount : ∀ v : JS.IntOrNaN,
      JS.parseInt (storedCountText
        ((storage.set "visit_count" (JS.numberToString v)).set "last_visit" env.isoNow)) = v := by
    intro v
    unfold storedCountText
    rw [JSMap.get_set_other _ _ _ _ (by decide), JSMap.get_set_same,
      orElse_of_ne_empty _ _ (JS.numberToString_ne_empty v), JS.parseInt_numberToString]
  simp only [getOrCreateVisitorId, hid, htruthy, Bool.not_true, Bool.false_eq_true, if_false,
    Option.getD_some, hcount]
  refine ⟨trivial, trivial, trivial, ?_, ?_⟩
  · rw [JSMap.get_set_other _ _ _ _ (by decide), JSMap.get_set_other _ _ _ _ (by decide), hid]
  · rw [JSMap.get_set_other _ _ _ _ (by decide), JSMap.get_set_other _ _ _ _ (by decide)]

/-- A call that finds no `visitor_id`, or an empty one: a new identity is stored and
returned, with the count 1. -/
theorem getOrCreateVisitorId_new (storage : Storage) (env : VisitEnv)
    (h : JS.truthy (storage.get "visitor_id") = false) :
    ∃ newId newName : String, newId ≠ "" ∧
      (getOrCreateVisitorId storage env).2.visitorId = newId ∧
      (getOrCreateVisitorId storage env).2.visitorName = some newName ∧
      (getOrCreateVisitorId storage env).2.visitCount = some 1 ∧
      (getOrCreateVisitorId storage env).1.get "visitor_id" = some newId ∧
      (getOrCreateVisitorId storage env).1.get "visitor_name" = some newName ∧
      storedCountText (getOrCreateVisitorId storage env).1 = "1" := by
  have hnew : "visitor_" ++ toString env.timestamp ++ "_" ++ toString env.random ≠ "" := by
    intro hempty
    have hdata := congrArg String.data hempty
    simp only [String.data_append] at hdata
    exact absurd (congrArg List.length hdata) (by simp)
  have hstored : storedCountText
      (((((storage.set "visitor_id"
        ("visitor_" ++ toString env.timestamp ++ "_" ++ toString env.random)).set
        "visitor_name" ("访客" ++ toString env.nameRandom)).set
        "device_fingerprint" env.fingerprint).set "first_visit" env.isoNow).set
        "visit_count" "1") = "1" := by
    unfold storedCountText
    rw [JSMap.get_set_same]
    rfl
  refine ⟨"visitor_" ++ toString env.timestamp ++ "_" ++ toString env.random,
    "访客" ++ toString env.nameRandom, hnew, ?_⟩
  simp only [getOrCreateVisitorId, h, Bool.not_false, if_true, hstored]
  refine ⟨trivial, trivial, by decide, ?_, ?_, trivial⟩
  · rw [JSMap.get_set_other _ _ _ _ (by decide), JSMap.get_set_other _ _ _ _ (by decide),
      JSMap.get_set_other _ _ _ _ (by decide), JSMap.get_set_other _ _ _ _ (by decide),
      JSMap.get_set_same]
  · rw [JSMap.get_set_other _ _ _ _ (by decide), JSMap.get_set_other _ _ _ _ (by decide),
      JSMap.get_set_other _ _ _ _ (by decide), JSMap.get_set_same]

theorem truthy_cases (v : Option String) :
    JS.truthy v = false ∨ ∃ s, v = some s ∧ s ≠ "" := by
  cases v with
  | none => exact Or.inl rfl
  | some s =>
    by_cases hs : s = ""
    · exact Or.inl (by simp [JS.truthy, hs])
    · exact Or.inr ⟨s, rfl, hs⟩

/-- After any call a non-empty `visitor_id` is stored, and it is the one returned, with the
name returned. -/
theorem getOrCreateVisitorId_stores (storage : Storage) (env : VisitEnv) :
    ∃ id : String, id ≠ "" ∧
      (getOrCreateVisitorId storage env).1.get "visitor_id" = some id ∧
      (getOrCreateVisitorId storage env).2.visitorId = id ∧
      (getOrCreateVisitorId storage env).1.get "visitor_name" =
        (getOrCreateVisitorId storage env).2.visitorName := by
  rcases truthy_cases (storage.get "visitor_id") with hfalse | ⟨id, hid, hne⟩
  · obtain ⟨newId, newName, hnew, h1, h2, -, h4, h5, -⟩ :=
      getOrCreateVisitorId_new storage env hfalse
    exact ⟨newId, hnew, h4, h1, by rw [h5, h2]⟩
  · obtain ⟨h1, h2, -, h4, h5⟩ := getOrCreateVisitorId_returning storage env id hid hne
    exact ⟨id, hne, h4, h1, by rw [h5, h2]⟩

/-- C17, as the code behaves: `getOrCreateVisitorId` returns the `visitor_id` stored in
`localStorage` whenever a non-empty one is stored; for any storage state two successive
calls return the same `visitorId` and `visitorName`; when the count the first call returns
is a number (below 2^53 in absolute value, where the arithmetic is exact), the second call
returns that count plus one; and when a non-empty `visitor_id` is stored with a
`visit_count` that `parseInt` cannot read, both calls return the count `NaN`. -/
theorem getOrCreateVisitorId_twice (storage : Storage) (env1 env2 : VisitEnv) :
    (∀ id, storage.get "visitor_id" = some id → id ≠ "" →
        (getOrCreateVisitorId storage env1).2.visitorId = id) ∧
      (getOrCreateVisitorId (getOrCreateVisitorId storage env1).1 env2).2.visitorId =
        (getOrCreateVisitorId storage env1).2.visitorId ∧
      (getOrCreateVisitorId (getOrCreateVisitorId storage env1).1 env2).2.visitorName =
        (getOrCreateVisitorId storage env1).2.visitorName ∧
      (∀ n : Int, (getOrCreateVisitorId storage env1).2.visitCount = some n →
        n.natAbs < 2 ^ 53 →
        (getOrCreateVisitorId (getOrCreateVisitorId storage env1).1 env2).2.visitCount =
          some (n + 1)) ∧
      (∀ id, storage.get "visitor_id" = some id → id ≠ "" →
        JS.parseInt (storedCountText storage) = none →
        (getOrCreateVisitorId storage env1).2.visitCount = none ∧
          (getOrCreateVisitorId (getOrCreateVisitorId storage env1).1 env2).2.visitCount =
            none) := by
  obtain ⟨id, hne, hstored, hid, hname⟩ := getOrCreateVisitorId_stores storage env1
  obtain ⟨h1, h2, h3, -, -⟩ :=
    getOrCreateVisitorId_returning (getOrCreateVisitorId storage env1).1 env2 id hstored hne
  have hfirst : (getOrCreateVisitorId storage env1).2.visitCount =
      JS.parseInt (storedCountText (getOrCreateVisitorId storage env1).1) := rfl
  refine ⟨fun id0 hid0 hne0 => (getOrCreateVisitorId_returning storage env1 id0 hid0 hne0).1,
    by rw [h1, hid], by rw [h2, hname], ?_, ?_⟩
  · intro n hn _
    rw [h3, ← hfirst, hn]
    rfl
  · intro id0 hid0 hne0 hnan
    have hcount := (getOrCreateVisitorId_returning storage env1 id0 hid0 hne0).2.2.1
    have hnone : (getOrCreateVisitorId storage env1).2.visitCount = none := by
      rw [hcount, hnan]; rfl
    refine ⟨hnone, ?_⟩
    rw [h3, ← hfirst, hnone]
    rfl

/-- C17 fails as stated: with a stored `visit_count` that is not a number, both calls return
the count `NaN` and store the text `NaN`, so the second call does not return one more than
the first. -/
theorem unreadable_count_stays_nan :
    (getOrCreateVisitorId Storage.unreadableCount VisitEnv.sample).2.visitCount = none ∧
      (getOrCreateVisitorId (getOrCreateVisitorId Storage.unreadableCount VisitEnv.sample).1
        VisitEnv.sample).2.visitCount = none ∧
      (getOrCreateVisitorId (getOrCreateVisitorId Storage.unreadableCount VisitEnv.sample).1
        VisitEnv.sample).1.get "visit_count" = some "NaN" := by
  decide

end VisitorChat

/-! ## Properties of `visitor_assignment.js` -/

namespace VisitorAssignment

theorem stopQueueCheck_currentService (s : State) :
    (stopQueueCheck s).currentService = s.currentService := by
  unfold stopQueueCheck
  cases s.queueCheckInterval with
  | none => rfl
  | some handle => by_cases h : handle = 0 <;> simp [h]

/-- What `requestService` does with an answer of code 0 whose action is `assigned` and which
names a service: the service is recorded and the answer returned. -/
theorem requestService_assigned (s : State) (priority : Int)
    (server : RequestBody → Option Response) (result : Response) (service : Service)
    (hserver : server (requestBody s priority) = some result) (hcode : result.code = 0)
    (haction : result.data.action = "assigned") (hservice : result.data.service = some service) :
    (requestService s priority server).1.currentService = some service ∧
      (requestService s priority server).2 = some result.data := by
  unfold requestService
  simp only [hserver, hcode, if_true, handleAssignmentResult, haction, hservice,
    showServiceAssigned, appendSystemMessage]
  constructor
  · split <;> simp [stopQueueCheck_currentService]
  · trivial

/-- What `requestService` returns for an answer of code 0 whose action is not `assigned`:
never an `assigned` result. -/
theorem requestService_not_assigned (s : State) (priority : Int)
    (server : RequestBody → Option Response) (result : Response)
    (hserver : server (requestBody s priority) = some result) (hcode : result.code = 0)
    (haction : result.data.action ≠ "assigned") :
    (requestService s priority server).2.map (fun d => d.action) ≠ some "assigned" := by
  unfold requestService
  simp only [hserver, hcode, if_true, handleAssignmentResult, if_neg haction]
  by_cases hq : result.data.action = "queued"
  · simp only [if_pos hq, Option.map_some']
    intro h
    exact haction (Option.some.inj h)
  · by_cases he : result.data.action = "error"
    · simp [if_neg hq, if_pos he]
    · simp [if_neg hq, if_neg he]

/-- The Assignment Engine's answer to an exclusive request: it is `assigned` exactly when
the requested agent exists and is available and the visitor is not blacklisted, and then it
names that agent. -/
theorem requestAgent_exclusive (agents : List Agent) (blacklisted : Bool) (queueLength : Nat)
    (e : Int) :
    (∀ a, agents.find? (fun a => a.id == e) = some a → a.available = true →
        blacklisted = false →
        requestAgent agents blacklisted queueLength (some e) = assignedTo a true ∧ a.id = e) ∧
      ((requestAgent agents blacklisted queueLength (some e)).action = "assigned" →
        ∃ a, agents.find? (fun a => a.id == e) = some a ∧ a.id = e ∧
          requestAgent agents blacklisted queueLength (some e) = assignedTo a true) := by
  constructor
  · intro a hfind havail hblack
    have hid : a.id = e := by simpa using List.find?_some hfind
    simp [requestAgent, hblack, hfind, havail, hid]
  · intro haction
    unfold requestAgent at haction ⊢
    cases blacklisted with
    | true => simp [queuedAt] at haction
    | false =>
      simp only [Bool.false_eq_true, if_false] at haction ⊢
      cases hfind : agents.find? (fun a => a.id == e) with
      | none => simp [hfind, queuedAt] at haction
      | some a =>
        simp only [hfind] at haction ⊢
        by_cases havail : a.available = true
        · have hid : a.id = e := by simpa using List.find?_some hfind
          exact ⟨a, rfl, hid, by simp [havail]⟩
        · simp [havail, queuedAt] at haction

/-- C19: with the Assignment Engine of the spec answering, a `requestService` sent with
`exclusive_service_id = e` for an agent `e` that is online and under capacity is answered
`assigned` at once, and whenever it ends in an `assigned` result the service recorded as
`currentService` is agent `e`. -/
theorem exclusive_assignment_is_direct (agents : List Agent) (blacklisted : Bool)
    (queueLength : Nat) (s : State) (priority : Int) (e : Int)
    (hexclusive : s.exclusiveServiceId = some (some e)) :
    (requestBody s priority).exclusive_service_id = some e ∧
      (∀ a, agents.find? (fun a => a.id == e) = some a → a.available = true →
        blacklisted = false →
        ((requestService s priority (assignmentServer agents blacklisted queueLength)).2.map
            fun d => d.action) = some "assigned" ∧
          (getCurrentService
            (requestService s priority (assignmentServer agents blacklisted queueLength)).1).map
              (fun svc => svc.id) = some e) ∧
      (((requestService s priority (assignmentServer agents blacklisted queueLength)).2.map
          fun d => d.action) = some "assigned" →
        (getCurrentService
          (requestService s priority (assignmentServer agents blacklisted queueLength)).1).map
            (fun svc => svc.id) = some e) := by
  have hbody : (requestBody s priority).exclusive_service_id = some e := by
    simp [requestBody, hexclusive]
  have hserver : assignmentServer agents blacklisted queueLength (requestBody s priority) =
      some { code := 0, msg := none,
             data := requestAgent agents blacklisted queueLength (some e) } := by
    simp [assignmentServer, hbody]
  obtain ⟨hdirect, honly⟩ := requestAgent_exclusive agents blacklisted queueLength e
  have hrecorded : ∀ a : Agent, a.id = e →
      requestAgent agents blacklisted queueLength (some e) = assignedTo a true →
      ((requestService s priority (assignmentServer agents blacklisted queueLength)).2.map
          fun d => d.action) = some "assigned" ∧
        (getCurrentService
          (requestService s priority (assignmentServer agents blacklisted queueLength)).1).map
            (fun svc => svc.id) = some e := by
    intro a hid hanswer
    obtain ⟨h1, h2⟩ := requestService_assigned s priority _ _
      { id := a.id, nick_name := a.nick_name } hserver rfl
      (by simp [hanswer, assignedTo]) (by simp [hanswer, assignedTo])
    constructor
    · rw [h2]; simp [hanswer, assignedTo]
    · simp [getCurrentService, h1, hid]
  refine ⟨hbody, ?_, ?_⟩
  · intro a hfind havail hblack
    obtain ⟨hanswer, hid⟩ := hdirect a hfind havail hblack
    exact hrecorded a hid hanswer
  · intro hassigned
    by_cases haction : (requestAgent agents blacklisted queueLength (some e)).action = "assigned"
    · obtain ⟨a, -, hid, hanswer⟩ := honly haction
      exact (hrecorded a hid hanswer).2
    · exact absurd hassigned
        (requestService_not_assigned s priority _ _ hserver rfl haction)

/-- Witness for C19: a visitor arriving through the link of agent 7, who is online and under
capacity, is assigned agent 7 although agent 5 carries less load. -/
theorem exclusive_assignment_is_direct_witness :
    (getCurrentService
      (requestService (init constructor "v" 1 none (some "7")) 0
        (assignmentServer sampleAgents false 0)).1).map (fun svc => svc.id) = some 7 :=
  (exclusive_assignment_is_direct sampleAgents false 0
    (init constructor "v" 1 none (some "7")) 0 7 (by decide)).2.2 (by decide)

end VisitorAssignment

/-! ## Further properties of the poller, the loaders and the permission cache -/

namespace VisitorChat

/-- C21: after a poll that reports one online agent and `MAX_OFFLINE_CHECK` polls that report
none, the offline notice has not been shown at all. The first empty poll already clears
`hasOnlineService`, so at the tenth `wasOffline` is true and the notice is skipped. -/
theorem offline_notice_never_shown :
    (run Poller.initial
        (Event.updateServiceOnlineStatus ["a"] 1 ::
          List.replicate MAX_OFFLINE_CHECK (Event.updateServiceOnlineStatus [] 0))).systemMessages
      = ["客服已上线，将为您继续服务"] ∧
    ((run Poller.initial
        (Event.updateServiceOnlineStatus ["a"] 1 ::
          List.replicate MAX_OFFLINE_CHECK (Event.updateServiceOnlineStatus [] 0))).systemMessages.count
        "当前暂无客服在线，智能助手为您服务" = 0) ∧
    (run Poller.initial
        (Event.updateServiceOnlineStatus ["a"] 1 ::
          List.replicate MAX_OFFLINE_CHECK (Event.updateServiceOnlineStatus [] 0))).offlineCheckCount
      = MAX_OFFLINE_CHECK := by
  decide

end VisitorChat

namespace ChatHistory

/-- C22: with page 3 of 3 shown, a scroll to the top whose request for page 2 is answered by
a non-zero code, or by an empty list, leaves `currentSessionPage` at 2, not 3; the next scroll
then loads page 1, and page 2 is never shown. Only a request that throws restores the page
number. -/
theorem failed_load_skips_page :
    threePagesOpened.currentSessionPage = 3 ∧
      (userScroll uniformHeight (fun t => t) secondPageRefused threePagesOpened
        50).currentSessionPage = 2 ∧
      (userScroll uniformHeight (fun t => t) secondPageEmpty threePagesOpened
        50).currentSessionPage = 2 ∧
      displayed (userScroll uniformHeight (fun t => t) secondPageRefused threePagesOpened 50) =
        pageMessages threePages 3 ∧
      displayed (userScroll uniformHeight (fun t => t) threePages
        (userScroll uniformHeight (fun t => t) secondPageRefused threePagesOpened 50) 50) =
        pageMessages threePages 1 ++ pageMessages threePages 3 ∧
      (userScroll uniformHeight (fun t => t) secondPageThrows threePagesOpened
        50).currentSessionPage = 3 := by
  decide

end ChatHistory

namespace MessageVirtualScroll

/-- C26: with a chunk of two messages, `_loadMore` inserts each of them before the first
child in ascending order, so they end up in descending order: the children are messages
1, 0, 2, 3 where the rendered range 0 to 4 in ascending order is 0, 1, 2, 3. -/
theorem loadMore_reverses_chunk :
    (userScroll fourMessages 50).renderedRange = { start := 0, «end» := 4 } ∧
      (userScroll fourMessages 50).messages.map Elem.id = [0, 1, 2, 3] ∧
      (userScroll fourMessages 50).container.children.map Elem.id = [1, 0, 2, 3] ∧
      (userScroll fourMessages 50).chunkSize = 2 := by
  decide

end MessageVirtualScroll

namespace VirtualScroll

/-- C28: two items prepended to the list scrolled to offset 120. `prependData` moves the
viewport to offset 280 but computes the range from the recorded `scrollTop`, still 120: the
range rendered is 0 to 3, while the items whose slots overlap the viewport at offset 280 are
items 3 and 4. -/
theorem prependData_renders_stale_range :
    (prependData scrolledList [11, 12]).viewportScrollTop = 280 ∧
      (prependData scrolledList [11, 12]).scrollTop = 120 ∧
      (prependData scrolledList [11, 12]).startIndex = 0 ∧
      (prependData scrolledList [11, 12]).endIndex = 3 ∧
      (prependData scrolledList [11, 12]).contentChildren.map (fun r => r.index) = [0, 1, 2] ∧
      slotVisible 80 280 80 3 ∧ slotVisible 80 280 80 4 := by
  decide

end VirtualScroll

namespace ServicePermission

/-- C27: when the permission request fails, by throwing or by an answer with a non-zero
code, `checkReplyPermission` leaves `replyPermissionCache` as it was, and the result of the
failed request has `can_reply` false. -/
theorem failed_check_not_cached (s : State) (visitorId : String) (now storeNow : Int)
    (fetched : FetchOutcome)
    (hfailed : fetched = FetchOutcome.thrown ∨
      ∃ code msg data, code ≠ 0 ∧ fetched = FetchOutcome.response code msg data) :
    (checkReplyPermission s visitorId now fetched storeNow).state = s ∧
      ((checkReplyPermission s visitorId now fetched storeNow).contacted = true →
        (checkReplyPermission s visitorId now fetched storeNow).value.can_reply = false) := by
  have hrequest : (requestPermission s visitorId fetched storeNow).state = s ∧
      (requestPermission s visitorId fetched storeNow).value.can_reply = false := by
    rcases hfailed with rfl | ⟨code, msg, data, hcode, rfl⟩
    · exact ⟨rfl, rfl⟩
    · simp [requestPermission, hcode, checkFailed]
  unfold checkReplyPermission
  cases hget : s.replyPermissionCache.get visitorId with
  | none => simp [JSMap.has, hget, hrequest]
  | some cached =>
    by_cases hfresh : now - cached.timestamp < 5000
    · simp [JSMap.has, hget, hfresh]
    · simp [JSMap.has, hget, hfresh, hrequest]

/-- Witness for C27: a request that throws, with an expired entry granting permission in the
cache. -/
theorem failed_check_not_cached_witness :
    (checkReplyPermission
        { constructor with replyPermissionCache :=
            [("v1", { data := { can_reply := true, reason := none, assigned_service := none },
                      timestamp := 0 })] }
        "v1" 6000 FetchOutcome.thrown 6001).value.can_reply = false :=
  (failed_check_not_cached _ "v1" 6000 6001 FetchOutcome.thrown (Or.inl rfl)).2 (by decide)

end ServicePermission

/-! ## Properties of the queue check of `visitor_assignment.js` -/

namespace VisitorAssignment

/-- C23: a queued visitor whose promotion to agent 7 is detected by `checkQueueStatus` sees
agent 7 in the chat header and the queue timer stopped, but `getCurrentService()` still
returns `null`: `checkQueueStatus` never assigns `currentService`. An answer of
`handleAssignmentResult` with action `assigned` does record the agent. -/
theorem promotion_not_recorded :
    queuedVisitor.queueCheckInterval = some 1 ∧
      (checkQueueStatus queuedVisitor (some promotedToSeven)).header =
        some ({ id := 7, nick_name := "a7" }, true, false) ∧
      (checkQueueStatus queuedVisitor (some promotedToSeven)).queueCheckInterval = none ∧
      getCurrentService (checkQueueStatus queuedVisitor (some promotedToSeven)) = none ∧
      getCurrentService
        (requestService (init constructor "v" 1 none none) 0
          (assignmentServer sampleAgents false 0)).1 = some { id := 5, nick_name := "a5" } := by
  decide

end VisitorAssignment

/-! ## Properties of the recorded agent of `visitor_chat.js` -/

namespace VisitorChat

/-- C24: after `join_success` has recorded agent 5 in `window.currentServiceId`, a message
sent by the visitor is still addressed to `all`, and so it is after a message received
from agent 5 and after `service_changed`: `to_id` reads the variable `currentServiceId`,
which only the handler of `service_online` assigns. After `service_online` for agent 5 the
message goes to agent 5, and it still does when `service_changed` has recorded agent 6. -/
theorem recorded_agent_not_addressed :
    (Session.onJoinSuccess (Session.start Chat.typing)
        (some (some 5, some "a5"))).windowCurrentServiceId = some 5 ∧
      (Session.onJoinSuccess (Session.start Chat.typing)
        (some (some 5, some "a5"))).sendMessage.sentTo = [ToId.all] ∧
      (Session.onReceiveMessage (Session.start Chat.typing) "service" (some 5)
        (some "a5")).windowCurrentServiceId = some 5 ∧
      (Session.onReceiveMessage (Session.start Chat.typing) "service" (some 5)
        (some "a5")).sendMessage.sentTo = [ToId.all] ∧
      (Session.onServiceChanged (Session.start Chat.typing) 5 "a5"
        none).windowCurrentServiceId = some 5 ∧
      (Session.onServiceChanged (Session.start Chat.typing) 5 "a5"
        none).sendMessage.sentTo = [ToId.all] ∧
      (Session.onServiceOnline (Session.start Chat.typing) 5 "a5").sendMessage.sentTo =
        [ToId.service 5] ∧
      (Session.onServiceChanged (Session.onServiceOnline (Session.start Chat.typing) 5 "a5")
        6 "a6" none).windowCurrentServiceId = some 6 ∧
      (Session.onServiceChanged (Session.onServiceOnline (Session.start Chat.typing) 5 "a5")
        6 "a6" none).sendMessage.sentTo = [ToId.service 5] := by
  decide

end VisitorChat

/-! ## Properties of the history renderers -/

namespace VisitorChat

/-- C25: a stored message of the visitor (direction `to_service`) whose `service_id` is
`null` or `0` is rendered as a robot message by `createMessageElement` and by
`renderHistoryMessage`, because both test `service_id` before the direction; a message of
the visitor is rendered as `visitor` exactly when its `service_id` is neither. The admin
renderer shows the same message as one of the visitor, without the robot class. -/
theorem history_visitor_message_rendered_as_robot :
    createMessageElement "访客1"
        { service_id := JS.Prim.null, direction := "to_service", content := "hi"
          msg_type := JS.Prim.number 1 } =
      { className := "message robot-message", avatar := "🤖", badge := "robot-badge"
        nickname := "智能助手", bubble := "hi" } ∧
      renderHistoryMessage "访客1"
        { service_id := JS.Prim.number 0, direction := "to_service", content := "hi"
          msg_type := JS.Prim.number 1 } =
      HistoryCall.addMessage "robot" "智能助手" "hi" "🤖" ∧
      (∀ msg : HistoryMessage, msg.direction = "to_service" →
        (historyMsgType msg = "visitor" ↔
          msg.service_id ≠ JS.Prim.null ∧ msg.service_id ≠ JS.Prim.number 0)) ∧
      ChatHistory.senderName
        { service_id := JS.Prim.number 0, service_name := none, visitor_name := some "访客1"
          direction := "to_service" } = "访客1" ∧
      ChatHistory.itemClasses
        { service_id := JS.Prim.number 0, service_name := none, visitor_name := some "访客1"
          direction := "to_service" } = ["message-item", "direction-to_service"] := by
  refine ⟨by decide, by decide, ?_, by decide, by decide⟩
  intro msg hdir
  unfold historyMsgType
  by_cases h : msg.service_id = JS.Prim.null ∨ msg.service_id = JS.Prim.number 0
  · simp only [if_pos h]
    constructor
    · intro hv; exact absurd hv (by decide)
    · intro hn; rcases h with h | h
      · exact absurd h hn.1
      · exact absurd h hn.2
  · have hd : ¬ msg.direction = "to_visitor" := by rw [hdir]; decide
    simp only [if_neg h, if_neg hd, true_iff]
    exact ⟨fun e => h (Or.inl e), fun e => h (Or.inr e)⟩

end VisitorChat

/-! ## Properties of `admin/global_socket.js` -/

namespace GlobalSocket

/-- C30: `checkShouldNotify` returns false when no user is logged in; it returns true for
every message when the level of the user is `manager` or `super_manager`; for a user of
another level it returns true exactly when `messageData.service_id` is truthy and loosely
equal to the `service_id` of the user. -/
theorem checkShouldNotify_rule (toNumber : String → Option Int) (service_id : JS.Prim) :
    checkShouldNotify toNumber none service_id = false ∧
      (∀ user : User,
        user.level = JS.Prim.string "manager" ∨ user.level = JS.Prim.string "super_manager" →
          checkShouldNotify toNumber (some user) service_id = true) ∧
      (∀ user : User,
        user.level ≠ JS.Prim.string "manager" → user.level ≠ JS.Prim.string "super_manager" →
          (checkShouldNotify toNumber (some user) service_id = true ↔
            service_id.truthy = true ∧
              JS.looseEq toNumber service_id user.service_id = true)) := by
  refine ⟨rfl, ?_, ?_⟩
  · intro user hlevel
    have h : user.level = JS.Prim.string "super_manager" ∨
        user.level = JS.Prim.string "manager" := hlevel.symm
    simp only [checkShouldNotify, if_pos h]
  · intro user hm hs
    have h : ¬ (user.level = JS.Prim.string "super_manager" ∨
        user.level = JS.Prim.string "manager") := fun e => e.elim hs hm
    simp only [checkShouldNotify, if_neg h]
    cases ht : service_id.truthy <;>
      cases he : JS.looseEq toNumber service_id user.service_id <;> simp

/-- Examples of `checkShouldNotify`: an agent is notified of the messages of their own
visitors, also when one side holds the id as a string, and of no message without an agent;
a manager is notified of all. -/
theorem checkShouldNotify_examples :
    checkShouldNotify digitsToNumber
        (some { level := JS.Prim.string "service", service_id := JS.Prim.number 3 })
        (JS.Prim.number 3) = true ∧
      checkShouldNotify digitsToNumber
        (some { level := JS.Prim.string "service", service_id := JS.Prim.number 3 })
        (JS.Prim.string "3") = true ∧
      checkShouldNotify digitsToNumber
        (some { level := JS.Prim.string "service", service_id := JS.Prim.number 3 })
        (JS.Prim.number 4) = false ∧
      checkShouldNotify digitsToNumber
        (some { level := JS.Prim.string "service", service_id := JS.Prim.null })
        JS.Prim.null = false ∧
      checkShouldNotify digitsToNumber
        (some { level := JS.Prim.string "service", service_id := JS.Prim.number 0 })
        (JS.Prim.number 0) = false ∧
      checkShouldNotify digitsToNumber
        (some { level := JS.Prim.string "manager", service_id := JS.Prim.number 1 })
        JS.Prim.null = true := by
  decide

end GlobalSocket

/-! ## Properties of the preview cache of `service/chat.js` -/

namespace ServicePermission

theorem JSMap.set_length_le {β : Type} (m : JSMap β) (k : String) (v : β) :
    (m.set k v).length ≤ m.length + 1 := by
  induction m with
  | nil => simp [JSMap.set]
  | cons p rest ih =>
    obtain ⟨k1, v1⟩ := p
    unfold JSMap.set
    by_cases hk : (k1 == k) = true
    · simp [hk]
    · have hne : (k1 == k) = false := by simpa using hk
      simp only [hne, Bool.false_eq_true, if_false, List.length_cons]
      omega

theorem JSMap.mem_set {β : Type} (m : JSMap β) (k : String) (v : β) (p : String × β)
    (hp : p ∈ m.set k v) : p ∈ m ∨ p = (k, v) := by
  induction m with
  | nil =>
    simp only [JSMap.set, List.mem_singleton] at hp
    exact Or.inr hp
  | cons q rest ih =>
    obtain ⟨k1, v1⟩ := q
    unfold JSMap.set at hp
    by_cases hk : (k1 == k) = true
    · simp only [hk, if_true, List.mem_cons] at hp
      rcases hp with rfl | hp
      · exact Or.inr rfl
      · exact Or.inl (List.mem_cons_of_mem _ hp)
    · have hne : (k1 == k) = false := by simpa using hk
      simp only [hne, Bool.false_eq_true, if_false, List.mem_cons] at hp
      rcases hp with rfl | hp
      · exact Or.inl (List.mem_cons_self _ _)
      · rcases ih hp with h | h
        · exact Or.inl (List.mem_cons_of_mem _ h)
        · exact Or.inr h

theorem JSMap.get_mem {β : Type} (m : JSMap β) (k : String) (v : β)
    (h : m.get k = some v) : (k, v) ∈ m := by
  unfold JSMap.get at h
  cases hf : m.find? (fun p => p.1 == k) with
  | none => rw [hf] at h; simp at h
  | some p =>
    rw [hf] at h
    simp only [Option.map_some', Option.some.injEq] at h
    have hmem := List.mem_of_find?_eq_some hf
    have hkey := List.find?_some hf
    have hk : p.1 = k := by simpa using hkey
    have : p = (k, v) := by
      obtain ⟨a, b⟩ := p
      simp only at hk h
      rw [hk, h]
    rw [← this]; exact hmem

theorem JSMap.delete_firstKey_length {β : Type} (m : JSMap β) (k : String)
    (h : m.firstKey = some k) : (m.delete k).length + 1 ≤ m.length := by
  cases m with
  | nil => simp [JSMap.firstKey] at h
  | cons p rest =>
    simp only [JSMap.firstKey, List.head?_cons, Option.map_some', Option.some.injEq] at h
    have hp : (!(p.1 == k)) = false := by simp [h]
    simp only [JSMap.delete, List.filter_cons, hp, List.length_cons]
    have := List.length_filter_le (fun q : String × β => !(q.1 == k)) rest
    simp only [Bool.false_eq_true, if_false]
    omega

theorem JSMap.mem_of_mem_delete {β : Type} (m : JSMap β) (k : String) (p : String × β)
    (h : p ∈ m.delete k) : p ∈ m :=
  (List.mem_filter.mp h).1

end ServicePermission

namespace ServiceChat

open ServicePermission

/-- One call of `formatLastMessage` keeps the invariant of the cache. -/
theorem formatLastMessage_invariant (e : Engine) (cache : JSMap String) (content : String)
    (h : CacheInvariant e cache) : CacheInvariant e (formatLastMessage e cache content).2 := by
  unfold formatLastMessage
  by_cases hempty : content = ""
  · simp only [if_pos hempty]; exact h
  · simp only [if_neg hempty]
    by_cases hhas : cache.has content = true
    · simp only [hhas, if_true]; exact h
    · simp only [hhas]
      have hevict : CacheInvariant e
          (if cache.size ≥ MAX_CACHE_SIZE then
            match cache.firstKey with
            | some firstKey => cache.delete firstKey
            | none => cache
          else cache) ∧
          (if cache.size ≥ MAX_CACHE_SIZE then
            match cache.firstKey with
            | some firstKey => cache.delete firstKey
            | none => cache
          else cache).length + 1 ≤ MAX_CACHE_SIZE := by
        by_cases hfull : cache.size ≥ MAX_CACHE_SIZE
        · simp only [if_pos hfull]
          cases hfirst : cache.firstKey with
          | none =>
            exfalso
            cases cache with
            | nil => simp [JSMap.size, MAX_CACHE_SIZE] at hfull
            | cons p rest => simp [JSMap.firstKey] at hfirst
          | some firstKey =>
            simp only
            have hlen := JSMap.delete_firstKey_length cache firstKey hfirst
            refine ⟨⟨?_, ?_⟩, ?_⟩
            · have := h.1; omega
            · intro p hp
              exact h.2 p (JSMap.mem_of_mem_delete cache firstKey p hp)
            · have := h.1; omega
        · simp only [if_neg hfull]
          refine ⟨h, ?_⟩
          simp only [JSMap.size] at hfull
          omega
      obtain ⟨hinv, hroom⟩ := hevict
      refine ⟨?_, ?_⟩
      · have := JSMap.set_length_le
          (if cache.size ≥ MAX_CACHE_SIZE then
            match cache.firstKey with
            | some firstKey => cache.delete firstKey
            | none => cache
          else cache) content (formatUncached e content)
        simp only [Bool.false_eq_true, if_false]
        omega
      · intro p hp
        simp only [Bool.false_eq_true, if_false] at hp
        rcases JSMap.mem_set _ content (formatUncached e content) p hp with hold | hnew
        · exact hinv.2 p hold
        · rw [hnew]; exact ⟨hempty, rfl⟩

/-- The invariant holds after any sequence of calls that starts from a cache with the
invariant. -/
theorem foldl_invariant (e : Engine) (contents : List String) (cache : JSMap String)
    (h : CacheInvariant e cache) :
    CacheInvariant e
      (contents.foldl (fun cache content => (formatLastMessage e cache content).2) cache) := by
  induction contents generalizing cache with
  | nil => exact h
  | cons content rest ih =>
    simp only [List.foldl_cons]
    exact ih _ (formatLastMessage_invariant e cache content h)

/-- C29: after any sequence of `formatLastMessage` calls from the empty cache, the cache
holds at most `MAX_CACHE_SIZE` entries, and a call whose content is cached returns what the
uncached computation returns for that content and leaves the cache as it is. -/
theorem formatLastMessage_cache_bounded (e : Engine) (contents : List String)
    (content : String) :
    MAX_CACHE_SIZE = 100 ∧
      (cacheAfter e contents).size ≤ MAX_CACHE_SIZE ∧
      ((cacheAfter e contents).has content = true →
        formatLastMessage e (cacheAfter e contents) content =
          (formatUncached e content, cacheAfter e contents)) := by
  have hinv : CacheInvariant e (cacheAfter e contents) :=
    foldl_invariant e contents [] ⟨by simp [MAX_CACHE_SIZE], fun p hp => by simp at hp⟩
  refine ⟨rfl, hinv.1, ?_⟩
  intro hhas
  cases hget : (cacheAfter e contents).get content with
  | none => simp [JSMap.has, hget] at hhas
  | some v =>
    have hmem := JSMap.get_mem _ content v hget
    have hentry := hinv.2 (content, v) hmem
    simp only at hentry
    unfold formatLastMessage
    simp only [if_neg hentry.1, hhas, if_true, hget, Option.getD_some, hentry.2]

set_option maxRecDepth 100000 in
/-- Examples of the preview cache with `latinEngine`: a short text, an image payload, a
file payload and a long text; the second call for a content returns the cached preview; after 101 distinct
contents the cache holds 100 entries and the first content is no longer cached. -/
theorem formatLastMessage_examples :
    (formatLastMessage latinEngine [] "hello").1 = "hello" ∧
      formatLastMessage latinEngine [] imagePayload = ("[图片]", [(imagePayload, "[图片]")]) ∧
      formatLastMessage latinEngine [] filePayload = ("[文件]", [(filePayload, "[文件]")]) ∧
      (formatLastMessage latinEngine [] "abcdefghijklmnopqrstuvwxyz").1 =
        "abcdefghijklmnopqrst..." ∧
      (formatLastMessage latinEngine [("hello", "hello")] "hello") =
        ("hello", [("hello", "hello")]) ∧
      (formatLastMessage latinEngine [] "").2 = [] ∧
      (cacheAfter latinEngine manyContents).size = 100 ∧
      (cacheAfter latinEngine manyContents).has "aa" = false ∧
      (cacheAfter latinEngine manyContents).has "dw" = true := by
  refine ⟨by decide, by decide, by decide, by decide, by decide, by decide, ?_, ?_, ?_⟩ <;>
    decide

end ServiceChat
